import Mathlib

/-! # Stop-and-wait data link layer (`saw.c`)

A shallow embedding of `saw.c`, a stop-and-wait (alternating bit) data link
protocol written against the cnet simulator API, and theorems about it.

Conventions of the embedding.

* A byte is a natural number; an object in memory is the list of its bytes.
  The layout is the LP64 little-endian one: `int` and `FRAMEKIND` take 4 bytes,
  `size_t` takes 8, so in `FRAME` the field `kind` is at offset 0, four bytes
  of padding follow, `len` is at offset 8, `checksum` at 16, `seq` at 20 and
  `msg` at 24.
* An automatic `FRAME f;` starts with indeterminate contents.  Every handler
  takes those contents as an argument `u` and the theorems quantify over it.
* The file-scope variables of one node, together with what the simulator
  keeps for that node (pending timers, whether the application may generate
  messages, the calls made so far), form one record `NODE`.
* Every handler returns `Option NODE`; `none` stands for the executions in
  which C gives no behaviour to model: a `memcpy` past the end of an object,
  or a `CHECK(...)` that terminates the process because of an oversized
  message or frame.
* The arithmetic of `size_t` is taken modulo `2 ^ 64`; the `int` variables and
  the product `3 * timeout` are integers, since C gives no result to a signed
  overflow.
* The cnet library is not part of the repository.  Its constants are
  parameters (`CNET`, `NODEINFO`); its calls are recorded as `ACTION`s, and
  those whose result the program uses (timers, the application layer being
  enabled) are modelled on the contracts the specification gives.  The
  checksum function behind `CNET_ccitt` is a parameter as well; only the
  theorem on single-bit corruption fixes it, to CRC-16/CCITT (`crc16`).
* `printf` calls are diagnostics and are left out.
-/

namespace SAW

/-! ## What `cnet.h` and the topology supply -/

/-- Modelled from the spec: the node role, fixed at boot (cnet's type
`CnetNodeType`, declared in `cnet.h`, which is not part of the repository). -/
inductive CnetNodeType
  | NT_HOST
  | NT_ROUTER
  | NT_MOBILE
  | NT_ACCESSPOINT
deriving DecidableEq, Repr

/-- The constants and functions of `cnet.h` used by `saw.c`:
`MAX_MESSAGE_SIZE`, and the checksum function behind `CNET_ccitt` as a
function of the bytes it is run over.  `MAX_MESSAGE_SIZE` is a compile-time
constant that fits comfortably in an `int`. -/
structure CNET where
  MAX_MESSAGE_SIZE : Nat
  ccitt : List Nat → Int
  MAX_fits : MAX_MESSAGE_SIZE + 32 < 2 ^ 31

/-- The fields of cnet's `nodeinfo` and `linkinfo[]` read by `saw.c`.  cnet
reports a positive bandwidth for every link. -/
structure NODEINFO where
  nodetype : CnetNodeType
  nodenumber : Int
  bandwidth : Int → Int
  propagationdelay : Int → Int
  bandwidth_pos : ∀ link, 0 < bandwidth link

/-- Modelled from the spec: the handle that names no timer (cnet's
`NULLTIMER`). -/
def NULLTIMER : Nat := 0

/-! ## Machine integers and memory -/

/-- The `n` little-endian bytes of `v` (the value is reduced modulo `256 ^ n`). -/
def le_bytes : Nat → Nat → List Nat
  | 0, _ => []
  | n + 1, v => (v % 256) :: le_bytes n (v / 256)

/-- The value of a little-endian byte string. -/
def le_value : List Nat → Nat
  | [] => 0
  | b :: bs => b % 256 + 256 * le_value bs

/-- Reading an unsigned 32-bit pattern as an `int`. -/
def to_int32 (n : Nat) : Int :=
  if n % 2 ^ 32 < 2 ^ 31 then ((n % 2 ^ 32 : Nat) : Int) else ((n % 2 ^ 32 : Nat) : Int) - 2 ^ 32

/-- Reading an unsigned 64-bit pattern as a `CnetTime` (`int64_t`). -/
def to_int64 (n : Nat) : Int :=
  if n % 2 ^ 64 < 2 ^ 63 then ((n % 2 ^ 64 : Nat) : Int) else ((n % 2 ^ 64 : Nat) : Int) - 2 ^ 64

/-- The conversion of a signed value to `size_t`. -/
def cast_size (i : Int) : Nat := (i % 2 ^ 64).toNat

/-- The cast `(int)n` of a `size_t`. -/
def cast_int (n : Nat) : Int := to_int32 n

/-- The four bytes of an `int`. -/
def int_bytes (v : Int) : List Nat := le_bytes 4 (v % 2 ^ 32).toNat

/-- The `int` stored in four bytes. -/
def int_value (bs : List Nat) : Int := to_int32 (le_value bs)

/-- The `n` bytes of `mem` from offset `off`. -/
def peek (mem : List Nat) (off n : Nat) : List Nat := (mem.drop off).take n

/-- The memory `mem` with the bytes `bs` stored from offset `off`. -/
def poke (mem : List Nat) (off : Nat) (bs : List Nat) : List Nat :=
  mem.take off ++ bs ++ mem.drop (off + bs.length)

/-! ## Frames -/

/-- The enumerator `DL_DATA`. -/
def DL_DATA : Int := 0

/-- The enumerator `DL_ACK`. -/
def DL_ACK : Int := 1

/-- The value `sizeof(MSG)`. -/
def sizeof_MSG (E : CNET) : Nat := E.MAX_MESSAGE_SIZE

/-- The value `sizeof(FRAME)`: 24 bytes of header fields and the message,
rounded up to the 8-byte alignment of `size_t`. -/
def sizeof_FRAME (E : CNET) : Nat := (24 + sizeof_MSG E + 7) / 8 * 8

/-- The macro `FRAME_HEADER_SIZE`. -/
def FRAME_HEADER_SIZE (E : CNET) : Nat := sizeof_FRAME E - sizeof_MSG E

/-- The field `f.kind`. -/
def FRAME_kind (f : List Nat) : Int := int_value (peek f 0 4)

/-- The field `f.len`. -/
def FRAME_len (f : List Nat) : Nat := le_value (peek f 8 8)

/-- The field `f.checksum`. -/
def FRAME_checksum (f : List Nat) : Int := int_value (peek f 16 4)

/-- The field `f.seq`. -/
def FRAME_seq (f : List Nat) : Int := int_value (peek f 20 4)

/-- The object `f.msg`. -/
def FRAME_msg (E : CNET) (f : List Nat) : List Nat := peek f 24 (sizeof_MSG E)

/-- The assignment `f.kind = v`. -/
def FRAME_set_kind (f : List Nat) (v : Int) : List Nat := poke f 0 (int_bytes v)

/-- The assignment `f.len = v`. -/
def FRAME_set_len (f : List Nat) (v : Nat) : List Nat := poke f 8 (le_bytes 8 v)

/-- The assignment `f.checksum = v`. -/
def FRAME_set_checksum (f : List Nat) (v : Int) : List Nat := poke f 16 (int_bytes v)

/-- The assignment `f.seq = v`. -/
def FRAME_set_seq (f : List Nat) (v : Int) : List Nat := poke f 20 (int_bytes v)

/-- The macro `FRAME_SIZE(f)`, computed in `size_t`. -/
def FRAME_SIZE (E : CNET) (f : List Nat) : Nat := (FRAME_HEADER_SIZE E + FRAME_len f) % 2 ^ 64

/-- The declaration `FRAME f;` of an automatic object whose indeterminate
bytes are `u`. -/
def auto_FRAME (E : CNET) (u : List Nat) : List Nat :=
  (u ++ List.replicate (sizeof_FRAME E) 0).take (sizeof_FRAME E)

/-- Modelled from the spec: the integrity code of the first `nbytes` bytes at
`addr` (cnet's `CNET_ccitt(addr, nbytes)`), an `int`; the function of the
bytes is the parameter `ccitt`. -/
def CNET_ccitt (E : CNET) (addr : List Nat) (nbytes : Int) : Int :=
  to_int32 (E.ccitt (addr.take nbytes.toNat) % 2 ^ 32).toNat

/-! ## The state of one node -/

/-- The calls a node makes to the simulator. -/
inductive ACTION
  | write_physical (link : Int) (frame : List Nat)
  | write_application (msg : List Nat)
  | start_timer (usec : Int) (id : Nat)
  | stop_timer (id : Nat)
  | enable_application
  | disable_application
deriving DecidableEq, Repr

/-- The file-scope variables of `saw.c` (the first seven fields; `lastmsg`
is the object the pointer refers to), followed by the simulator's view of the
node: the `EV_TIMER1` timers that are running, the last timer identifier
issued, whether the application layer may generate messages, and the calls
made so far, oldest first. -/
structure NODE where
  lastmsg : List Nat
  lastlength : Nat
  lasttimer : Nat
  ackexpected : Int
  nextframetosend : Int
  frameexpected : Int
  SW_buffer_full : Int
  timers : List Nat
  timerids : Nat
  application_enabled : Bool
  actions : List ACTION
deriving DecidableEq, Repr

/-- Modelled from the spec: the collaborator `timer_start(duration) -> handle`
(cnet's `CNET_start_timer(EV_TIMER1, usec, 0)`): a timer with a new
identifier starts running; the identifier is returned. -/
def CNET_start_timer (s : NODE) (usec : Int) : Nat × NODE :=
  let id := s.timerids + 1
  (id, { s with timers := s.timers ++ [id], timerids := id,
                actions := s.actions ++ [ACTION.start_timer usec id] })

/-- Modelled from the spec: the collaborator `timer_cancel(handle)` (cnet's
`CNET_stop_timer(id)`): the timer, if running, is removed. -/
def CNET_stop_timer (s : NODE) (id : Nat) : NODE :=
  { s with timers := s.timers.filter (fun t => t ≠ id),
           actions := s.actions ++ [ACTION.stop_timer id] }

/-- Modelled from the spec: the collaborator `physical_send(link, bytes)`
(cnet's `CNET_write_physical(link, frame, &length)`). -/
def CNET_write_physical (s : NODE) (link : Int) (frame : List Nat) : NODE :=
  { s with actions := s.actions ++ [ACTION.write_physical link frame] }

/-- Modelled from the spec: the collaborator `application_write(payload)`
(cnet's `CNET_write_application(msg, &len)`). -/
def CNET_write_application (s : NODE) (msg : List Nat) : NODE :=
  { s with actions := s.actions ++ [ACTION.write_application msg] }

/-- Modelled from the spec: the collaborator `application_intake_enable`
(cnet's `CNET_enable_application(ALLNODES)`). -/
def CNET_enable_application (s : NODE) : NODE :=
  { s with application_enabled := true, actions := s.actions ++ [ACTION.enable_application] }

/-- Modelled from the spec: the collaborator `application_intake_disable`
(cnet's `CNET_disable_application(ALLNODES)`). -/
def CNET_disable_application (s : NODE) : NODE :=
  { s with application_enabled := false, actions := s.actions ++ [ACTION.disable_application] }

/-! ## The functions of `saw.c` -/

/-- The function `transmit_frame(msg, kind, length, seqno, link)`; `u` is the
indeterminate initial content of its local `f`. -/
def transmit_frame (E : CNET) (ni : NODEINFO) (s : NODE) (u : List Nat)
    (msg : List Nat) (kind : Int) (length : Nat) (seqno : Int) (link : Int) : Option NODE :=
  let f := auto_FRAME E u
  let f := FRAME_set_kind f kind
  let f := FRAME_set_seq f seqno
  let f := FRAME_set_checksum f 0
  let f := FRAME_set_len f length
  let r : Option (List Nat × NODE) :=
    if kind = DL_ACK then some (f, s)
    else if kind = DL_DATA then
      -- memcpy(&f.msg, msg, (int)length)
      let n := cast_size (cast_int length)
      if sizeof_MSG E < n ∨ msg.length < n then none
      else
        let f := poke f 24 (msg.take n)
        let timeout := to_int64 ((FRAME_SIZE E f
          * cast_size (Int.tdiv 8000000 (ni.bandwidth link))
          + cast_size (ni.propagationdelay link)) % 2 ^ 64)
        let (id, s) := CNET_start_timer s (3 * timeout)
        some (f, { s with lasttimer := id })
    else some (f, s)
  match r with
  | none => none
  | some (f, s) =>
    let length := FRAME_SIZE E f
    if sizeof_FRAME E < length then none
    else
      let f := FRAME_set_checksum f (CNET_ccitt E f (cast_int length))
      some (CNET_write_physical s link (f.take length))

/-- The handler `application_ready`; `msg` is the message the application
layer hands over in `CNET_read_application`, `u` the indeterminate frame of
`transmit_frame`. -/
def application_ready (E : CNET) (ni : NODEINFO) (s : NODE) (u : Nat → List Nat)
    (msg : List Nat) : Option NODE :=
  let s := { s with lastlength := sizeof_MSG E }
  -- CHECK(CNET_read_application(&destaddr, lastmsg, &lastlength))
  if s.lastlength < msg.length then none
  else
    let s := { s with lastmsg := poke s.lastmsg 0 msg, lastlength := msg.length }
    let s := CNET_disable_application s
    match transmit_frame E ni s (u 1) s.lastmsg DL_DATA s.lastlength s.nextframetosend 1 with
    | none => none
    | some s => some { s with nextframetosend := 1 - s.nextframetosend }

/-- The sections `ROUTER STOP AND WAIT PROTOCOL` and `HOST STOP AND WAIT
PROTOCOL` of `physical_ready` (everything after the checksum test), run on
the local frame `f`; `u 1` and `u 2` are the indeterminate contents of the
frames of the calls of `transmit_frame`. -/
def stop_and_wait (E : CNET) (ni : NODEINFO) (s : NODE) (u : Nat → List Nat)
    (f : List Nat) : Option NODE :=
  if ni.nodetype = CnetNodeType.NT_ROUTER then
    if FRAME_kind f = DL_DATA then
      if s.SW_buffer_full ≠ 0 then some s
      else if s.frameexpected = FRAME_seq f then
        let s := { s with frameexpected := 1 - s.frameexpected }
        match transmit_frame E ni s (u 1) [] DL_ACK 0 (FRAME_seq f) 1 with
        | none => none
        | some s =>
          match transmit_frame E ni s (u 2) (FRAME_msg E f) DL_DATA (FRAME_len f)
              (FRAME_seq f) 2 with
          | none => none
          | some s =>
            let s := { s with SW_buffer_full := 1 }
            -- memcpy(lastmsg, &f.msg, (int)f.len)
            let n := cast_size (cast_int (FRAME_len f))
            if sizeof_MSG E < n then none
            else
              let s := { s with lastmsg := poke s.lastmsg 0 ((FRAME_msg E f).take n) }
              -- memcpy(&lastlength, &f.len, sizeof((int)f.len))
              let low := poke (le_bytes 8 s.lastlength) 0 (peek f 8 4)
              some { s with lastlength := le_value low }
      else some s
    else
      if s.ackexpected = FRAME_seq f then
        let s := { s with ackexpected := 1 - s.ackexpected }
        let s := { s with SW_buffer_full := 0 }
        some (CNET_stop_timer s s.lasttimer)
      else some s
  else
    if FRAME_kind f = DL_ACK then
      if FRAME_seq f = s.ackexpected then
        let s := CNET_stop_timer s s.lasttimer
        let s := { s with ackexpected := 1 - s.ackexpected }
        some (CNET_enable_application s)
      else some s
    else if FRAME_kind f = DL_DATA then
      if FRAME_seq f = s.frameexpected then
        let len := FRAME_len f
        -- CHECK(CNET_write_application(&f.msg, &len))
        if sizeof_MSG E < len then none
        else
          let s := CNET_write_application s ((FRAME_msg E f).take len)
          let s := { s with frameexpected := 1 - s.frameexpected }
          transmit_frame E ni s (u 1) [] DL_ACK 0 (FRAME_seq f) 1
      else some s
    else some s

/-- The handler `physical_ready`; `wire` is the byte string the physical
layer delivers and `u 0` the indeterminate content of the local `f`.  The
body after the checksum test is `stop_and_wait`. -/
def physical_ready (E : CNET) (ni : NODEINFO) (s : NODE) (u : Nat → List Nat)
    (wire : List Nat) : Option NODE :=
  let f := auto_FRAME E (u 0)
  let len := sizeof_FRAME E
  -- CHECK(CNET_read_physical(&link, &f, &len))
  if len < wire.length then none
  else
    let f := poke f 0 wire
    let len := wire.length
    let checksum := FRAME_checksum f
    let f := FRAME_set_checksum f 0
    if CNET_ccitt E f (cast_int len) ≠ checksum then some s
    else
      let f := FRAME_set_checksum f (CNET_ccitt E f (cast_int len))
      stop_and_wait E ni s u f

/-- The handler `timeouts`. -/
def timeouts (E : CNET) (ni : NODEINFO) (s : NODE) (u : Nat → List Nat) : Option NODE :=
  if ni.nodetype = CnetNodeType.NT_ROUTER then
    transmit_frame E ni s (u 1) s.lastmsg DL_DATA s.lastlength s.ackexpected 2
  else
    transmit_frame E ni s (u 1) s.lastmsg DL_DATA s.lastlength s.ackexpected 1

/-- The handler `reboot_node`, run on the initial values of the file-scope
variables: `lastmsg` becomes a zeroed `MSG`, and node 0 enables its
application layer. -/
def reboot_node (E : CNET) (ni : NODEINFO) : NODE :=
  let s : NODE :=
    { lastmsg := List.replicate (sizeof_MSG E) 0, lastlength := 0, lasttimer := NULLTIMER,
      ackexpected := 0, nextframetosend := 0, frameexpected := 0, SW_buffer_full := 0,
      timers := [], timerids := 0, application_enabled := false, actions := [] }
  if ni.nodenumber = 0 then CNET_enable_application s else s

/-! ## Derived notions used in the statements -/

/-- The local `f` of `physical_ready` right after `CNET_read_physical` stored
the byte string `wire` in it; `u` is the indeterminate content of `f`. -/
def received (E : CNET) (u : List Nat) (wire : List Nat) : List Nat :=
  poke (auto_FRAME E u) 0 wire

/-- The checksum comparison of `physical_ready` succeeds on `wire`. -/
def checksum_ok (E : CNET) (u : List Nat) (wire : List Nat) : Prop :=
  CNET_ccitt E (FRAME_set_checksum (received E u wire) 0) (cast_int wire.length)
    = FRAME_checksum (received E u wire)

instance (E : CNET) (u wire : List Nat) : Decidable (checksum_ok E u wire) := by
  unfold checksum_ok; infer_instance

/-- The local `f` of `physical_ready` after a successful checksum test, when
the checksum has been stored back. -/
def validated (E : CNET) (u : List Nat) (wire : List Nat) : List Nat :=
  FRAME_set_checksum (FRAME_set_checksum (received E u wire) 0)
    (CNET_ccitt E (FRAME_set_checksum (received E u wire) 0) (cast_int wire.length))

/-- The duration `3 * timeout` that `transmit_frame` computes for a DATA
frame of payload length `length` sent on `link`. -/
def timer_usec (E : CNET) (ni : NODEINFO) (link : Int) (length : Nat) : Int :=
  3 * to_int64 (((FRAME_HEADER_SIZE E + length)
    * cast_size (Int.tdiv 8000000 (ni.bandwidth link))
    + cast_size (ni.propagationdelay link)) % 2 ^ 64)

/-- The duration of the retransmission timer in the words of the spec:
three times the frame size in bytes times the microseconds per byte of the
link plus the propagation delay, over the integers, with integer division. -/
def timer_duration (E : CNET) (ni : NODEINFO) (link : Int) (length : Nat) : Int :=
  3 * (((FRAME_HEADER_SIZE E + length : Nat) : Int) * (8000000 / ni.bandwidth link)
    + ni.propagationdelay link)

/-- The value `x` is a `CnetTime`: it fits a signed 64-bit integer. -/
def fits_CnetTime (x : Int) : Prop := -2 ^ 63 ≤ x ∧ x < 2 ^ 63

instance (x : Int) : Decidable (fits_CnetTime x) := by
  unfold fits_CnetTime; infer_instance

/-- The local `f` of `transmit_frame` just before the checksum is computed. -/
def frame_unsigned (E : CNET) (u : List Nat) (kind : Int) (length : Nat) (seqno : Int)
    (msg : List Nat) : List Nat :=
  poke (FRAME_set_len (FRAME_set_checksum (FRAME_set_seq (FRAME_set_kind (auto_FRAME E u) kind)
    seqno) 0) length) 24 (msg.take length)

/-- The bytes `transmit_frame` hands to `CNET_write_physical`. -/
def wire_image (E : CNET) (u : List Nat) (kind : Int) (length : Nat) (seqno : Int)
    (msg : List Nat) : List Nat :=
  (FRAME_set_checksum (frame_unsigned E u kind length seqno msg)
    (CNET_ccitt E (frame_unsigned E u kind length seqno msg)
      (cast_int (FRAME_HEADER_SIZE E + length)))).take (FRAME_HEADER_SIZE E + length)

/-- The node after `transmit_frame` has sent a DATA frame: a new timer runs
and is `lasttimer`, and the frame is written on `link`. -/
def after_DATA (E : CNET) (ni : NODEINFO) (s : NODE) (u : List Nat) (msg : List Nat)
    (length : Nat) (seqno : Int) (link : Int) : NODE :=
  { s with
    lasttimer := s.timerids + 1
    timers := s.timers ++ [s.timerids + 1]
    timerids := s.timerids + 1
    actions := s.actions ++ [ACTION.start_timer (timer_usec E ni link length) (s.timerids + 1),
      ACTION.write_physical link (wire_image E u DL_DATA length seqno msg)] }

/-- The node after `transmit_frame` has sent an ACK frame: the frame is
written on `link`, nothing else changes. -/
def after_ACK (E : CNET) (s : NODE) (u : List Nat) (seqno : Int) (link : Int) : NODE :=
  { s with
    actions := s.actions ++ [ACTION.write_physical link (wire_image E u DL_ACK 0 seqno [])] }

/-- The byte string `w` read as a frame: its kind, its sequence number and
the payload its length field declares. -/
def is_frame (w : List Nat) (kind seq : Int) (payload : List Nat) : Prop :=
  FRAME_kind w = kind ∧ FRAME_seq w = seq ∧ FRAME_len w = payload.length
    ∧ peek w 24 (FRAME_len w) = payload

instance (w : List Nat) (kind seq : Int) (payload : List Nat) :
    Decidable (is_frame w kind seq payload) := by
  unfold is_frame; infer_instance

/-- The frames a node has written, oldest first, each with its link. -/
def frames_written (s : NODE) : List (Int × List Nat) :=
  s.actions.filterMap fun a =>
    match a with
    | ACTION.write_physical link frame => some (link, frame)
    | _ => none

/-- Every frame the node has written carries the sequence number 0 or 1. -/
def frames_bits (s : NODE) : Prop :=
  ∀ p ∈ frames_written s, FRAME_seq p.2 = 0 ∨ FRAME_seq p.2 = 1

/-- The messages a node has written to its application layer, oldest first. -/
def messages_written (s : NODE) : List (List Nat) :=
  s.actions.filterMap fun a =>
    match a with
    | ACTION.write_application msg => some msg
    | _ => none

/-- The number of calls of `CNET_stop_timer` a node has made.  A host makes
one for every acknowledgement it accepts, and no other. -/
def acks_accepted (s : NODE) : Nat :=
  (s.actions.filter fun a =>
    match a with
    | ACTION.stop_timer _ => true
    | _ => false).length

/-- The frames written on `link` after state `s`, up to the later state `t`. -/
def new_frames (link : Int) (s t : NODE) : List (List Nat) :=
  ((frames_written t).drop (frames_written s).length).filterMap fun p =>
    if p.1 = link then some p.2 else none

/-- The DATA frame a node wrote most recently, if it wrote any: the calls are
scanned oldest first and the latest written frame of kind `DL_DATA` is kept. -/
def last_DATA (s : NODE) : Option (List Nat) :=
  s.actions.foldl (fun r a =>
    match a with
    | ACTION.write_physical _ frame => if FRAME_kind frame = DL_DATA then some frame else r
    | _ => r) none

/-! ## Events of one node

The simulator raises `EV_APPLICATIONREADY` only at a node that registered a
handler for it (`reboot_node` does so for hosts only) and whose application
layer is enabled; it raises `EV_TIMER1` for a timer that is running, and the
timer stops running as it expires. -/

/-- Modelled from the spec: the three inbound triggers (payload ready, frame
arrival, timer expiry) the external scheduler delivers to a node, with the
data they bring. -/
inductive EVENT
  | EV_APPLICATIONREADY (u : Nat → List Nat) (msg : List Nat)
  | EV_PHYSICALREADY (u : Nat → List Nat) (wire : List Nat)
  | EV_TIMER1 (u : Nat → List Nat) (timer : Nat)

/-- Modelled from the spec: the dispatch of one trigger to its handler, as
bound by `reboot_node`; `none` also when the scheduler cannot deliver it. -/
def raise (E : CNET) (ni : NODEINFO) (s : NODE) : EVENT → Option NODE
  | EVENT.EV_APPLICATIONREADY u msg =>
    if ni.nodetype = CnetNodeType.NT_HOST ∧ s.application_enabled = true then
      application_ready E ni s u msg
    else none
  | EVENT.EV_PHYSICALREADY u wire => physical_ready E ni s u wire
  | EVENT.EV_TIMER1 u timer =>
    if timer ∈ s.timers then timeouts E ni { s with timers := s.timers.erase timer } u
    else none

/-- The effect of a sequence of events. -/
def run (E : CNET) (ni : NODEINFO) (s : NODE) : List EVENT → Option NODE
  | [] => some s
  | e :: es =>
    match raise E ni s e with
    | none => none
    | some t => run E ni t es

/-! ## Two hosts joined by one link -/

/-- The two ends of the link. -/
inductive END2
  | A
  | B
deriving DecidableEq, Repr

/-- Two hosts `A` and `B`, each with the other on its link 1, and the frames
in flight in each direction, oldest first. -/
structure NET2 where
  A : NODE
  B : NODE
  toB : List (List Nat)
  toA : List (List Nat)
deriving DecidableEq

/-- What can happen in the network: the application of a host has a message,
the oldest frame in flight towards a host arrives, a frame in flight towards
a host is lost, a timer of a host expires. -/
inductive EVENT2
  | application (n : END2) (u : Nat → List Nat) (msg : List Nat)
  | arrival (n : END2) (u : Nat → List Nat)
  | loss (n : END2) (i : Nat)
  | expiry (n : END2) (u : Nat → List Nat) (timer : Nat)

/-- A host handled an event: its new state, and its new frames put in flight. -/
def NET2.after (net : NET2) (n : END2) (t : NODE) : NET2 :=
  match n with
  | END2.A => { net with A := t, toB := net.toB ++ new_frames 1 net.A t }
  | END2.B => { net with B := t, toA := net.toA ++ new_frames 1 net.B t }

/-- One step of the two-host network. -/
def step2 (E : CNET) (niA niB : NODEINFO) (net : NET2) : EVENT2 → Option NET2
  | EVENT2.application END2.A u msg =>
    (raise E niA net.A (EVENT.EV_APPLICATIONREADY u msg)).map (net.after END2.A)
  | EVENT2.application END2.B u msg =>
    (raise E niB net.B (EVENT.EV_APPLICATIONREADY u msg)).map (net.after END2.B)
  | EVENT2.arrival END2.A u =>
    match net.toA with
    | [] => none
    | w :: rest =>
      (raise E niA net.A (EVENT.EV_PHYSICALREADY u w)).map
        ({ net with toA := rest }.after END2.A)
  | EVENT2.arrival END2.B u =>
    match net.toB with
    | [] => none
    | w :: rest =>
      (raise E niB net.B (EVENT.EV_PHYSICALREADY u w)).map
        ({ net with toB := rest }.after END2.B)
  | EVENT2.loss END2.A i =>
    if i < net.toA.length then some { net with toA := net.toA.eraseIdx i } else none
  | EVENT2.loss END2.B i =>
    if i < net.toB.length then some { net with toB := net.toB.eraseIdx i } else none
  | EVENT2.expiry END2.A u timer =>
    (raise E niA net.A (EVENT.EV_TIMER1 u timer)).map (net.after END2.A)
  | EVENT2.expiry END2.B u timer =>
    (raise E niB net.B (EVENT.EV_TIMER1 u timer)).map (net.after END2.B)

/-- The two-host network after every node has run `reboot_node`. -/
def boot2 (E : CNET) (niA niB : NODEINFO) : NET2 :=
  { A := reboot_node E niA, B := reboot_node E niB, toB := [], toA := [] }

/-- The effect of a sequence of events on the two-host network. -/
def run2 (E : CNET) (niA niB : NODEINFO) (net : NET2) : List EVENT2 → Option NET2
  | [] => some net
  | e :: es =>
    match step2 E niA niB net e with
    | none => none
    | some t => run2 E niA niB t es

/-- The number of messages a host has taken from its application layer:
`application_ready`, and nothing else, calls `CNET_disable_application`, once
for every message it reads. -/
def messages_read (s : NODE) : Nat :=
  (s.actions.filter fun a =>
    match a with
    | ACTION.disable_application => true
    | _ => false).length

/-- The byte string `w` is a DATA frame with sequence number `seq`, as
written by `transmit_frame`. -/
def is_DATA_wire (E : CNET) (seq : Int) (w : List Nat) : Prop :=
  ∃ x length msg, w = wire_image E x DL_DATA length seq msg
    ∧ length ≤ E.MAX_MESSAGE_SIZE ∧ length ≤ msg.length

/-! ## A host, a router and a host in a row -/

/-- The three nodes of the chain. -/
inductive NODE3
  | A
  | R
  | B
deriving DecidableEq, Repr

/-- The four directions in which frames travel: from A to the router, from
the router to A, from the router to B, from B to the router. -/
inductive HOP3
  | AR
  | RA
  | RB
  | BR
deriving DecidableEq, Repr

/-- Host `A` with the router on its link 1, the router `R` with `A` on its
link 1 and `B` on its link 2, host `B` with the router on its link 1; the
frames in flight in each direction, oldest first; and every frame written so
far, in the order of writing, with its writer and link. -/
structure NET3 where
  A : NODE
  R : NODE
  B : NODE
  AR : List (List Nat)
  RA : List (List Nat)
  RB : List (List Nat)
  BR : List (List Nat)
  emitted : List (NODE3 × Int × List Nat)

/-- What can happen in the chain. -/
inductive EVENT3
  | application (n : NODE3) (u : Nat → List Nat) (msg : List Nat)
  | arrival (h : HOP3) (u : Nat → List Nat)
  | loss (h : HOP3) (i : Nat)
  | expiry (n : NODE3) (u : Nat → List Nat) (timer : Nat)

/-- The frames node `n` wrote between its states `s` and `t`, tagged. -/
def emitted_by (n : NODE3) (s t : NODE) : List (NODE3 × Int × List Nat) :=
  ((frames_written t).drop (frames_written s).length).map fun p => (n, p.1, p.2)

/-- A node handled an event: its new state, its new frames put in flight on
the link they were written to, and recorded. -/
def NET3.after (net : NET3) (n : NODE3) (t : NODE) : NET3 :=
  match n with
  | NODE3.A =>
    { net with A := t, AR := net.AR ++ new_frames 1 net.A t,
               emitted := net.emitted ++ emitted_by NODE3.A net.A t }
  | NODE3.R =>
    { net with R := t, RA := net.RA ++ new_frames 1 net.R t, RB := net.RB ++ new_frames 2 net.R t,
               emitted := net.emitted ++ emitted_by NODE3.R net.R t }
  | NODE3.B =>
    { net with B := t, BR := net.BR ++ new_frames 1 net.B t,
               emitted := net.emitted ++ emitted_by NODE3.B net.B t }

/-- One step of the chain. -/
def step3 (E : CNET) (niA niR niB : NODEINFO) (net : NET3) : EVENT3 → Option NET3
  | EVENT3.application NODE3.A u msg =>
    (raise E niA net.A (EVENT.EV_APPLICATIONREADY u msg)).map (net.after NODE3.A)
  | EVENT3.application NODE3.R u msg =>
    (raise E niR net.R (EVENT.EV_APPLICATIONREADY u msg)).map (net.after NODE3.R)
  | EVENT3.application NODE3.B u msg =>
    (raise E niB net.B (EVENT.EV_APPLICATIONREADY u msg)).map (net.after NODE3.B)
  | EVENT3.arrival HOP3.AR u =>
    match net.AR with
    | [] => none
    | w :: rest =>
      (raise E niR net.R (EVENT.EV_PHYSICALREADY u w)).map ({ net with AR := rest }.after NODE3.R)
  | EVENT3.arrival HOP3.RA u =>
    match net.RA with
    | [] => none
    | w :: rest =>
      (raise E niA net.A (EVENT.EV_PHYSICALREADY u w)).map ({ net with RA := rest }.after NODE3.A)
  | EVENT3.arrival HOP3.RB u =>
    match net.RB with
    | [] => none
    | w :: rest =>
      (raise E niB net.B (EVENT.EV_PHYSICALREADY u w)).map ({ net with RB := rest }.after NODE3.B)
  | EVENT3.arrival HOP3.BR u =>
    match net.BR with
    | [] => none
    | w :: rest =>
      (raise E niR net.R (EVENT.EV_PHYSICALREADY u w)).map ({ net with BR := rest }.after NODE3.R)
  | EVENT3.loss HOP3.AR i =>
    if i < net.AR.length then some { net with AR := net.AR.eraseIdx i } else none
  | EVENT3.loss HOP3.RA i =>
    if i < net.RA.length then some { net with RA := net.RA.eraseIdx i } else none
  | EVENT3.loss HOP3.RB i =>
    if i < net.RB.length then some { net with RB := net.RB.eraseIdx i } else none
  | EVENT3.loss HOP3.BR i =>
    if i < net.BR.length then some { net with BR := net.BR.eraseIdx i } else none
  | EVENT3.expiry NODE3.A u timer =>
    (raise E niA net.A (EVENT.EV_TIMER1 u timer)).map (net.after NODE3.A)
  | EVENT3.expiry NODE3.R u timer =>
    (raise E niR net.R (EVENT.EV_TIMER1 u timer)).map (net.after NODE3.R)
  | EVENT3.expiry NODE3.B u timer =>
    (raise E niB net.B (EVENT.EV_TIMER1 u timer)).map (net.after NODE3.B)

/-- The chain after every node has run `reboot_node`. -/
def boot3 (E : CNET) (niA niR niB : NODEINFO) : NET3 :=
  { A := reboot_node E niA, R := reboot_node E niR, B := reboot_node E niB,
    AR := [], RA := [], RB := [], BR := [], emitted := [] }

/-- The effect of a sequence of events on the chain. -/
def run3 (E : CNET) (niA niR niB : NODEINFO) (net : NET3) : List EVENT3 → Option NET3
  | [] => some net
  | e :: es =>
    match step3 E niA niR niB net e with
    | none => none
    | some t => run3 E niA niR niB t es

/-! ## The CRC-16/CCITT checksum and single-bit corruption -/

/-- Modelled from the spec: one shift of the 16-bit register of
CRC-16/CCITT, most significant bit first: the register is shifted left by one
bit and, when the bit shifted out is 1, the polynomial `x^16 + x^12 + x^5 +
1` (`0x1021`) is added. -/
def crc16_shift (r : Nat) : Nat :=
  if 2 ^ 15 ≤ r % 2 ^ 16 then (r * 2 % 2 ^ 16) ^^^ 0x1021 else r * 2 % 2 ^ 16

/-- Modelled from the spec: CRC-16/CCITT over one more byte: the byte is
added to the high half of the register, which is then shifted eight times. -/
def crc16_byte (r b : Nat) : Nat :=
  crc16_shift (crc16_shift (crc16_shift (crc16_shift (crc16_shift (crc16_shift (crc16_shift
    (crc16_shift (r % 2 ^ 16 ^^^ b % 256 * 256))))))))

/-- Modelled from the spec: the integrity code of cnet's `CNET_ccitt`, which
is not part of this repository, taken as CRC-16/CCITT of the bytes, started
from the register value `init` (0 in the XMODEM variant, `0xFFFF` in the
variant known as CCITT-FALSE). -/
def crc16 (init : Nat) (bytes : List Nat) : Nat := bytes.foldl crc16_byte init

/-- The byte string `w` with bit `j` of its byte `i` flipped (`w` itself
when it has no byte `i`). -/
def flip_bit (w : List Nat) (i j : Nat) : List Nat :=
  poke w i ((peek w i 1).map fun b => b ^^^ 2 ^ j)

/-! ## A small concrete network, used for the examples

Messages of at most 8 bytes, the byte sum as checksum function (the theorems
hold for every checksum function, but for the one on single-bit corruption), links of 56000 bits per second with a
propagation delay of 2500 microseconds. -/

/-- The constants of the example. -/
def example_CNET : CNET :=
  { MAX_MESSAGE_SIZE := 8, ccitt := fun bs => (bs.sum : Int), MAX_fits := by decide }

/-- The constants of the example with CRC-16/CCITT, started from `0xFFFF`,
as checksum function. -/
def example_CCITT : CNET :=
  { MAX_MESSAGE_SIZE := 8, ccitt := fun bs => (crc16 0xFFFF bs : Int), MAX_fits := by decide }

/-- The originating host of the example, node 0. -/
def example_host_A : NODEINFO :=
  { nodetype := CnetNodeType.NT_HOST, nodenumber := 0, bandwidth := fun _ => 56000,
    propagationdelay := fun _ => 2500, bandwidth_pos := fun _ => by norm_num }

/-- The receiving host of the example, node 1. -/
def example_host_B : NODEINFO :=
  { nodetype := CnetNodeType.NT_HOST, nodenumber := 1, bandwidth := fun _ => 56000,
    propagationdelay := fun _ => 2500, bandwidth_pos := fun _ => by norm_num }

/-- The router of the example, node 2. -/
def example_router : NODEINFO :=
  { nodetype := CnetNodeType.NT_ROUTER, nodenumber := 2, bandwidth := fun _ => 56000,
    propagationdelay := fun _ => 2500, bandwidth_pos := fun _ => by norm_num }

/-- A host whose links have the largest propagation delay a `CnetTime`
holds, `2 ^ 63 - 1` microseconds. -/
def example_far_host : NODEINFO :=
  { nodetype := CnetNodeType.NT_HOST, nodenumber := 1, bandwidth := fun _ => 56000,
    propagationdelay := fun _ => 2 ^ 63 - 1, bandwidth_pos := fun _ => by norm_num }

/-- The indeterminate contents of automatic frames in the example. -/
def example_junk : Nat → List Nat := fun i => List.replicate 32 (i + 7)

/-- A DATA frame with sequence number 0 and payload `[1, 2, 3]`, as written
by `transmit_frame` in the example. -/
def example_DATA0 : List Nat := wire_image example_CNET (example_junk 1) DL_DATA 3 0 [1, 2, 3]

/-- An ACK frame with sequence number 0, as written by `transmit_frame` in
the example. -/
def example_ACK0 : List Nat := wire_image example_CNET (example_junk 1) DL_ACK 0 0 []

/-- An ACK frame with sequence number 1. -/
def example_ACK1 : List Nat := wire_image example_CNET (example_junk 1) DL_ACK 0 1 []

/-- A DATA frame with sequence number 1 and payload `[4, 5]`, as written by
`transmit_frame` in the example. -/
def example_DATA1 : List Nat := wire_image example_CNET (example_junk 1) DL_DATA 2 1 [4, 5]

/-- A checksum-valid DATA frame with sequence number 0 that is 24 bytes long
(it carries no payload byte) and declares the payload length 9, one more than
the `MSG` of the example holds. -/
def example_long_DATA : List Nat :=
  [0, 0, 0, 0, 0, 0, 0, 0, 9, 0, 0, 0, 0, 0, 0, 0, 9, 0, 0, 0, 0, 0, 0, 0]

/-- The router of the example, just booted, in a state whose `lastlength`
is `2 ^ 32`. -/
def example_router_high : NODE :=
  { reboot_node example_CNET example_router with lastlength := 2 ^ 32 }

/-- Events at host A of the example: it sends `[1, 2, 3]`, receives the
acknowledgement 0 for it, then a further acknowledgement 1 while nothing is
outstanding, and sends `[4, 5]`. -/
def example_host_events : List EVENT :=
  [EVENT.EV_APPLICATIONREADY example_junk [1, 2, 3],
   EVENT.EV_PHYSICALREADY example_junk example_ACK0,
   EVENT.EV_PHYSICALREADY example_junk example_ACK1,
   EVENT.EV_APPLICATIONREADY example_junk [4, 5]]

/-- Events at the router of the example: it forwards a DATA frame 0,
receives the acknowledgement 0 for it, then a further acknowledgement 1 while
its buffer is empty, and forwards a DATA frame 1. -/
def example_router_events : List EVENT :=
  [EVENT.EV_PHYSICALREADY example_junk example_DATA0,
   EVENT.EV_PHYSICALREADY example_junk example_ACK0,
   EVENT.EV_PHYSICALREADY example_junk example_ACK1,
   EVENT.EV_PHYSICALREADY example_junk example_DATA1]

/-- A checksum-valid DATA frame whose `seq` field is 7. -/
def example_DATA7 : List Nat := wire_image example_CNET (example_junk 1) DL_DATA 2 7 [4, 5]

/-- A checksum-valid ACK frame whose `seq` field is -3. -/
def example_ACK_minus3 : List Nat := wire_image example_CNET (example_junk 1) DL_ACK 0 (-3) []

/-- Events at the router of the example: it forwards a DATA frame 0, then
receives a DATA frame and an ACK frame with the sequence numbers 7 and -3,
the acknowledgement 0, the DATA frame 7 once more, and a DATA frame 1. -/
def example_odd_events : List EVENT :=
  [EVENT.EV_PHYSICALREADY example_junk example_DATA0,
   EVENT.EV_PHYSICALREADY example_junk example_DATA7,
   EVENT.EV_PHYSICALREADY example_junk example_ACK_minus3,
   EVENT.EV_PHYSICALREADY example_junk example_ACK0,
   EVENT.EV_PHYSICALREADY example_junk example_DATA7,
   EVENT.EV_PHYSICALREADY example_junk example_DATA1]

/-- The router of the example after `example_odd_events`. -/
def example_router_odd : NODE :=
  (run example_CNET example_router (reboot_node example_CNET example_router)
    example_odd_events).getD (reboot_node example_CNET example_router)

/-- Host A of the example after it has sent `[1, 2, 3]`. -/
def example_host_waiting : NODE :=
  (run example_CNET example_host_A (reboot_node example_CNET example_host_A)
    [EVENT.EV_APPLICATIONREADY example_junk [1, 2, 3]]).getD
    (reboot_node example_CNET example_host_A)

/-- The router of the example after it has forwarded a DATA frame 0. -/
def example_router_waiting : NODE :=
  (run example_CNET example_router (reboot_node example_CNET example_router)
    [EVENT.EV_PHYSICALREADY example_junk example_DATA0]).getD
    (reboot_node example_CNET example_router)

/-- The run of the example in which the acknowledgement is lost: A sends
`[1, 2, 3]`, B receives it, the ACK is lost, A's timer 1 expires, B receives
the retransmission. -/
def example_ack_loss : List EVENT2 :=
  [EVENT2.application END2.A example_junk [1, 2, 3], EVENT2.arrival END2.B example_junk,
   EVENT2.loss END2.A 0, EVENT2.expiry END2.A example_junk 1, EVENT2.arrival END2.B example_junk]

/-- One complete exchange in the example: A sends `[1, 2, 3]`, B receives
it, A receives the acknowledgement. -/
def example_exchange : List EVENT2 :=
  [EVENT2.application END2.A example_junk [1, 2, 3], EVENT2.arrival END2.B example_junk,
   EVENT2.arrival END2.A example_junk]

/-- The network of the example after one complete exchange. -/
def example_exchanged : NET2 :=
  (run2 example_CNET example_host_A example_host_B
    (boot2 example_CNET example_host_A example_host_B) example_exchange).getD
    (boot2 example_CNET example_host_A example_host_B)

/-! ## The invariant of the states of one node -/

/-- What holds in every state a node reaches from boot: the retained message
is a whole `MSG` and the retained length fits in it; the three sequence
variables are bits; at most one timer runs, and it is `lasttimer`; no timer
runs at a router whose buffer is empty or at a host whose application layer is
enabled; while a timer runs, the DATA frame written last carries the retained
length and payload, and carries the sequence number `ackexpected` unless the
next sequence number of the window (`frameexpected` at a router,
`nextframetosend` at a host) equals `ackexpected`. -/
structure node_inv (E : CNET) (ni : NODEINFO) (s : NODE) : Prop where
  msg_length : s.lastmsg.length = E.MAX_MESSAGE_SIZE
  length_le : s.lastlength ≤ E.MAX_MESSAGE_SIZE
  ackexpected_bit : s.ackexpected = 0 ∨ s.ackexpected = 1
  nextframetosend_bit : s.nextframetosend = 0 ∨ s.nextframetosend = 1
  frameexpected_bit : s.frameexpected = 0 ∨ s.frameexpected = 1
  one_timer : s.timers = [] ∨ s.timers = [s.lasttimer]
  timer_issued : s.lasttimer ≤ s.timerids
  router_idle : ni.nodetype = CnetNodeType.NT_ROUTER → s.SW_buffer_full = 0 → s.timers = []
  host_idle : ni.nodetype ≠ CnetNodeType.NT_ROUTER → s.application_enabled = true → s.timers = []
  sent : s.timers ≠ [] → ∃ w, last_DATA s = some w ∧ FRAME_kind w = DL_DATA
    ∧ FRAME_len w = s.lastlength ∧ peek w 24 s.lastlength = s.lastmsg.take s.lastlength
    ∧ ((if ni.nodetype = CnetNodeType.NT_ROUTER then s.frameexpected else s.nextframetosend)
        ≠ s.ackexpected → FRAME_seq w = s.ackexpected)

/-- What holds in every state of the two-host network reached from boot,
with A the originating host: both hosts satisfy `node_inv`; `ackexpected` of A is
the parity of the number of acknowledgements A has accepted; A has either no
timer running, and then `nextframetosend = ackexpected` and every message
read has been acknowledged, or a timer running, and then `nextframetosend`
is the other bit and exactly one message read is not yet acknowledged; B
never runs a timer nor reads a message; and either B expects the sequence
number A awaits the acknowledgement of, nothing travels towards A, and the
frames travelling towards B are DATA frames of the previous sequence number
followed by DATA frames of the current one (none of these unless A's timer
runs), or B has accepted the current frame, A's timer runs, the frames
travelling towards B are DATA frames of the current sequence number, and at
most one frame travels towards A, the ACK of the current sequence number. -/
structure net_inv (E : CNET) (niA niB : NODEINFO) (n : NET2) : Prop where
  invA : node_inv E niA n.A
  invB : node_inv E niB n.B
  ack : n.A.ackexpected = ((acks_accepted n.A % 2 : Nat) : Int)
  idle : n.A.timers = [] →
    n.A.nextframetosend = n.A.ackexpected ∧ messages_read n.A = acks_accepted n.A
  waiting : n.A.timers ≠ [] →
    n.A.nextframetosend = 1 - n.A.ackexpected ∧ messages_read n.A = acks_accepted n.A + 1
  quietB : n.B.timers = [] ∧ n.B.application_enabled = false
  window :
    (n.B.frameexpected = n.A.ackexpected ∧ n.toA = []
      ∧ ∃ l1 l2, n.toB = l1 ++ l2
        ∧ (∀ w ∈ l1, is_DATA_wire E (1 - n.A.ackexpected) w)
        ∧ (∀ w ∈ l2, is_DATA_wire E n.A.ackexpected w)
        ∧ (n.A.timers = [] → l2 = []))
    ∨ (n.B.frameexpected = 1 - n.A.ackexpected ∧ n.A.timers ≠ []
      ∧ (∀ w ∈ n.toB, is_DATA_wire E n.A.ackexpected w)
      ∧ (n.toA = [] ∨ ∃ x, n.toA = [wire_image E x DL_ACK 0 n.A.ackexpected []]))

/-! ## Bytes, memory and frames: auxiliary facts -/

theorem le_bytes_length (n v : Nat) : (le_bytes n v).length = n := by
  induction n generalizing v with
  | zero => rfl
  | succ n ih => simp [le_bytes, ih]

theorem le_value_le_bytes (n v : Nat) : le_value (le_bytes n v) = v % 256 ^ n := by
  induction n generalizing v with
  | zero => simp [le_bytes, le_value, Nat.mod_one]
  | succ n ih =>
    simp only [le_bytes, le_value, ih, Nat.mod_mod]
    rw [pow_succ, mul_comm (256 ^ n) 256, Nat.mod_mul]

theorem le_value_lt (bs : List Nat) : le_value bs < 256 ^ bs.length := by
  induction bs with
  | nil => simp [le_value]
  | cons b bs ih =>
    simp only [le_value, List.length_cons, pow_succ]
    have := Nat.mod_lt b (show 256 > 0 by decide)
    omega

theorem int_bytes_length (v : Int) : (int_bytes v).length = 4 := by
  simp [int_bytes, le_bytes_length]

theorem int_value_int_bytes (v : Int) (h1 : -2 ^ 31 ≤ v) (h2 : v < 2 ^ 31) :
    int_value (int_bytes v) = v := by
  unfold int_value int_bytes to_int32
  rw [le_value_le_bytes]
  have h3 : (v % 2 ^ 32).toNat % 256 ^ 4 % 2 ^ 32 = (v % 2 ^ 32).toNat := by
    have : (v % 2 ^ 32).toNat < 2 ^ 32 := by omega
    omega
  rw [h3]
  split_ifs with h <;> omega

theorem to_int32_range (n : Nat) : -2 ^ 31 ≤ to_int32 n ∧ to_int32 n < 2 ^ 31 := by
  unfold to_int32
  split_ifs with h <;> omega

theorem length_poke (mem : List Nat) (off : Nat) (bs : List Nat)
    (h : off + bs.length ≤ mem.length) : (poke mem off bs).length = mem.length := by
  simp [poke]; omega

theorem peek_poke_same (mem : List Nat) (off : Nat) (bs : List Nat) (n : Nat)
    (h : off ≤ mem.length) (hn : n = bs.length) : peek (poke mem off bs) off n = bs := by
  subst hn
  unfold peek poke
  rw [List.append_assoc, List.drop_append_of_le_length (by simp; omega)]
  rw [List.drop_eq_nil_of_le (by simp)]
  simp

theorem peek_poke_before (mem : List Nat) (off : Nat) (bs : List Nat) (o n : Nat)
    (h : off ≤ mem.length) (hn : o + n ≤ off) :
    peek (poke mem off bs) o n = peek mem o n := by
  unfold peek poke
  rw [List.append_assoc, List.drop_append_of_le_length (by simp; omega)]
  rw [List.take_append_of_le_length (by simp; omega)]
  rw [List.drop_take, List.take_take]
  congr 1; omega

theorem peek_poke_after (mem : List Nat) (off : Nat) (bs : List Nat) (o n : Nat)
    (h : off + bs.length ≤ mem.length) (hn : off + bs.length ≤ o) :
    peek (poke mem off bs) o n = peek mem o n := by
  unfold peek poke
  have e : o = (mem.take off ++ bs).length + (o - (off + bs.length)) := by
    simp; omega
  rw [e, List.drop_append, List.drop_drop]
  simp
  congr 2; omega

theorem take_poke_zero (mem w : List Nat) : (poke mem 0 w).take w.length = w := by
  simp [poke]

theorem peek_take (m : List Nat) (k o n : Nat) (h : o + n ≤ k) :
    peek (m.take k) o n = peek m o n := by
  unfold peek
  rw [List.drop_take, List.take_take]
  congr 1; omega

theorem peek_poke_zero (mem w : List Nat) (o n : Nat) (h : o + n ≤ w.length) :
    peek (poke mem 0 w) o n = peek w o n := by
  unfold peek poke
  simp only [List.take_zero, List.nil_append, Nat.zero_add]
  rw [List.drop_append_of_le_length (by omega)]
  rw [List.take_append_of_le_length (by simp; omega)]

theorem take_poke (mem : List Nat) (off : Nat) (bs : List Nat) (k : Nat)
    (h : off + bs.length ≤ k) :
    (poke mem off bs).take k = poke (mem.take k) off bs := by
  unfold poke
  rw [List.take_append_eq_append_take, List.take_append_eq_append_take]
  rw [List.take_take, List.take_take, List.drop_take]
  simp only [List.length_append, List.length_take]
  have e1 : min k off = off := by omega
  have e2 : min off k = off := by omega
  rw [e1, e2]
  by_cases hm : off ≤ mem.length
  · have e3 : min off mem.length = off := by omega
    rw [e3, List.take_of_length_le (show bs.length ≤ k - off by omega)]
  · have e3 : min off mem.length = mem.length := by omega
    rw [e3]
    rw [List.drop_eq_nil_of_le (show mem.length ≤ off + bs.length by omega)]
    rw [List.take_of_length_le (show bs.length ≤ k - mem.length by omega)]
    simp

theorem poke_poke_same (mem : List Nat) (off : Nat) (bs bs' : List Nat)
    (h : off ≤ mem.length) (hl : bs.length = bs'.length) :
    poke (poke mem off bs) off bs' = poke mem off bs' := by
  unfold poke
  have e : List.drop (off + bs'.length) (mem.take off ++ bs ++ mem.drop (off + bs.length))
      = mem.drop (off + bs.length) := by
    have e' : off + bs'.length = (mem.take off ++ bs).length := by simp; omega
    rw [e', List.drop_left]
  rw [e, List.append_assoc (mem.take off) bs,
    List.take_append_of_le_length (by simp; omega), List.take_take]
  simp [hl, List.append_assoc]

theorem poke_peek_self (mem : List Nat) (off n : Nat) (h : off + n ≤ mem.length) :
    poke mem off (peek mem off n) = mem := by
  unfold poke peek
  have : (List.take n (List.drop off mem)).length = n := by simp; omega
  rw [this, List.append_assoc, ← List.drop_drop, List.take_append_drop, List.take_append_drop]

theorem sizeof_FRAME_bounds (E : CNET) :
    24 + E.MAX_MESSAGE_SIZE ≤ sizeof_FRAME E ∧ sizeof_FRAME E ≤ 31 + E.MAX_MESSAGE_SIZE := by
  unfold sizeof_FRAME sizeof_MSG; omega

theorem sizeof_FRAME_ge (E : CNET) : 24 ≤ sizeof_FRAME E := by
  have := sizeof_FRAME_bounds E; omega

theorem FRAME_HEADER_SIZE_bounds (E : CNET) :
    24 ≤ FRAME_HEADER_SIZE E ∧ FRAME_HEADER_SIZE E ≤ 31
      ∧ FRAME_HEADER_SIZE E + E.MAX_MESSAGE_SIZE = sizeof_FRAME E := by
  have := sizeof_FRAME_bounds E
  unfold FRAME_HEADER_SIZE sizeof_MSG; omega

theorem auto_FRAME_length (E : CNET) (u : List Nat) : (auto_FRAME E u).length = sizeof_FRAME E := by
  simp [auto_FRAME]

theorem cast_int_small (n : Nat) (h : n < 2 ^ 31) : cast_int n = (n : Int) := by
  unfold cast_int to_int32
  have : n % 2 ^ 32 = n := Nat.mod_eq_of_lt (by omega)
  rw [this, if_pos h]

theorem cast_size_small (n : Nat) (h : n < 2 ^ 31) : cast_size (cast_int n) = n := by
  rw [cast_int_small n h]; unfold cast_size; omega

theorem FRAME_set_kind_length (f : List Nat) (v : Int) (N : Nat) (hN : 24 ≤ N)
    (h : f.length = N) : (FRAME_set_kind f v).length = N := by
  unfold FRAME_set_kind; rw [length_poke, h]; rw [int_bytes_length]; omega

theorem FRAME_set_seq_length (f : List Nat) (v : Int) (N : Nat) (hN : 24 ≤ N)
    (h : f.length = N) : (FRAME_set_seq f v).length = N := by
  unfold FRAME_set_seq; rw [length_poke, h]; rw [int_bytes_length]; omega

theorem FRAME_set_checksum_length (f : List Nat) (v : Int) (N : Nat) (hN : 24 ≤ N)
    (h : f.length = N) : (FRAME_set_checksum f v).length = N := by
  unfold FRAME_set_checksum; rw [length_poke, h]; rw [int_bytes_length]; omega

theorem FRAME_set_len_length (f : List Nat) (v : Nat) (N : Nat) (hN : 24 ≤ N)
    (h : f.length = N) : (FRAME_set_len f v).length = N := by
  unfold FRAME_set_len; rw [length_poke, h]; rw [le_bytes_length]; omega

theorem frame_unsigned_length (E : CNET) (u : List Nat) (kind : Int) (length : Nat) (seqno : Int)
    (msg : List Nat) (h : length ≤ E.MAX_MESSAGE_SIZE) (hm : length ≤ msg.length) :
    (frame_unsigned E u kind length seqno msg).length = sizeof_FRAME E := by
  have h1 := sizeof_FRAME_bounds E
  have h24 := sizeof_FRAME_ge E
  unfold frame_unsigned
  rw [length_poke]
  · exact FRAME_set_len_length _ _ _ h24 (FRAME_set_checksum_length _ _ _ h24
      (FRAME_set_seq_length _ _ _ h24 (FRAME_set_kind_length _ _ _ h24 (auto_FRAME_length E u))))
  · rw [FRAME_set_len_length _ _ _ h24 (FRAME_set_checksum_length _ _ _ h24
      (FRAME_set_seq_length _ _ _ h24 (FRAME_set_kind_length _ _ _ h24 (auto_FRAME_length E u))))]
    simp; omega

theorem frame_unsigned_fields (E : CNET) (u : List Nat) (kind : Int) (length : Nat) (seqno : Int)
    (msg : List Nat) (hm : length ≤ msg.length) :
    peek (frame_unsigned E u kind length seqno msg) 0 4 = int_bytes kind
    ∧ peek (frame_unsigned E u kind length seqno msg) 8 8 = le_bytes 8 length
    ∧ peek (frame_unsigned E u kind length seqno msg) 16 4 = int_bytes 0
    ∧ peek (frame_unsigned E u kind length seqno msg) 20 4 = int_bytes seqno
    ∧ peek (frame_unsigned E u kind length seqno msg) 24 length = msg.take length := by
  have h24 := sizeof_FRAME_ge E
  have hb := sizeof_FRAME_bounds E
  have l0 := auto_FRAME_length E u
  have l1 := FRAME_set_kind_length _ kind _ h24 l0
  have l2 := FRAME_set_seq_length _ seqno _ h24 l1
  have l3 := FRAME_set_checksum_length _ 0 _ h24 l2
  have l4 := FRAME_set_len_length _ length _ h24 l3
  have l5 : (List.take length msg).length = length := by simp; omega
  simp only [FRAME_set_len, FRAME_set_checksum, FRAME_set_seq, FRAME_set_kind] at l1 l2 l3 l4
  unfold frame_unsigned FRAME_set_len FRAME_set_checksum FRAME_set_seq FRAME_set_kind
  have i4 := int_bytes_length
  have i8 := le_bytes_length 8 length
  refine ⟨?_, ?_, ?_, ?_, ?_⟩
  · rw [peek_poke_before, peek_poke_before, peek_poke_before, peek_poke_before, peek_poke_same]
    all_goals first | omega | simp only [int_bytes_length]
  · rw [peek_poke_before, peek_poke_same]
    all_goals omega
  · rw [peek_poke_before, peek_poke_after, peek_poke_same]
    all_goals first | omega | simp only [int_bytes_length, le_bytes_length]
  · rw [peek_poke_before, peek_poke_after, peek_poke_after, peek_poke_same]
    all_goals first | omega | (simp only [int_bytes_length, le_bytes_length] <;> omega)
  · rw [peek_poke_same]
    all_goals omega

theorem received_length (E : CNET) (u wire : List Nat) (h : wire.length ≤ sizeof_FRAME E) :
    (received E u wire).length = sizeof_FRAME E := by
  unfold received
  rw [length_poke, auto_FRAME_length]
  rw [auto_FRAME_length]; omega

theorem peek_set_checksum_before (f : List Nat) (v : Int) (o n : Nat) (h : 24 ≤ f.length)
    (hn : o + n ≤ 16) : peek (FRAME_set_checksum f v) o n = peek f o n := by
  unfold FRAME_set_checksum
  rw [peek_poke_before] <;> omega

theorem peek_set_checksum_after (f : List Nat) (v : Int) (o n : Nat) (h : 24 ≤ f.length)
    (hn : 20 ≤ o) : peek (FRAME_set_checksum f v) o n = peek f o n := by
  unfold FRAME_set_checksum
  rw [peek_poke_after] <;> rw [int_bytes_length] <;> omega

theorem validated_length (E : CNET) (u wire : List Nat) (h : wire.length ≤ sizeof_FRAME E) :
    (validated E u wire).length = sizeof_FRAME E := by
  have h24 := sizeof_FRAME_ge E
  unfold validated
  exact FRAME_set_checksum_length _ _ _ h24
    (FRAME_set_checksum_length _ _ _ h24 (received_length E u wire h))

theorem validated_peek_before (E : CNET) (u wire : List Nat) (o n : Nat)
    (h : wire.length ≤ sizeof_FRAME E) (hn : o + n ≤ 16) :
    peek (validated E u wire) o n = peek (received E u wire) o n := by
  have h24 := sizeof_FRAME_ge E
  have l0 := received_length E u wire h
  have l1 := FRAME_set_checksum_length _ 0 _ h24 l0
  unfold validated
  rw [peek_set_checksum_before _ _ _ _ (by omega) hn,
    peek_set_checksum_before _ _ _ _ (by omega) hn]

theorem validated_peek_after (E : CNET) (u wire : List Nat) (o n : Nat)
    (h : wire.length ≤ sizeof_FRAME E) (hn : 20 ≤ o) :
    peek (validated E u wire) o n = peek (received E u wire) o n := by
  have h24 := sizeof_FRAME_ge E
  have l0 := received_length E u wire h
  have l1 := FRAME_set_checksum_length _ 0 _ h24 l0
  unfold validated
  rw [peek_set_checksum_after _ _ _ _ (by omega) hn,
    peek_set_checksum_after _ _ _ _ (by omega) hn]

theorem validated_kind (E : CNET) (u wire : List Nat) (h : wire.length ≤ sizeof_FRAME E) :
    FRAME_kind (validated E u wire) = FRAME_kind (received E u wire) := by
  unfold FRAME_kind; rw [validated_peek_before E u wire 0 4 h (by omega)]

theorem validated_len (E : CNET) (u wire : List Nat) (h : wire.length ≤ sizeof_FRAME E) :
    FRAME_len (validated E u wire) = FRAME_len (received E u wire) := by
  unfold FRAME_len; rw [validated_peek_before E u wire 8 8 h (by omega)]

theorem validated_seq (E : CNET) (u wire : List Nat) (h : wire.length ≤ sizeof_FRAME E) :
    FRAME_seq (validated E u wire) = FRAME_seq (received E u wire) := by
  unfold FRAME_seq; rw [validated_peek_after E u wire 20 4 h (by omega)]

theorem validated_msg (E : CNET) (u wire : List Nat) (h : wire.length ≤ sizeof_FRAME E) :
    FRAME_msg E (validated E u wire) = FRAME_msg E (received E u wire) := by
  unfold FRAME_msg; rw [validated_peek_after E u wire 24 _ h (by omega)]

theorem physical_ready_valid (E : CNET) (ni : NODEINFO) (s : NODE) (u : Nat → List Nat)
    (wire : List Nat) (h : wire.length ≤ sizeof_FRAME E) (hc : checksum_ok E (u 0) wire) :
    physical_ready E ni s u wire = stop_and_wait E ni s u (validated E (u 0) wire) := by
  unfold checksum_ok received at hc
  unfold physical_ready validated received
  simp only [Nat.not_lt.mpr h, if_false, hc, ne_eq, not_true_eq_false]

theorem physical_ready_corrupt (E : CNET) (ni : NODEINFO) (s : NODE) (u : Nat → List Nat)
    (wire : List Nat) (h : wire.length ≤ sizeof_FRAME E) (hc : ¬ checksum_ok E (u 0) wire) :
    physical_ready E ni s u wire = some s := by
  unfold checksum_ok received at hc
  unfold physical_ready
  simp only [Nat.not_lt.mpr h, if_false, hc, ne_eq, not_false_eq_true, if_true]

theorem poke_nil (mem : List Nat) (off : Nat) : poke mem off [] = mem := by
  simp [poke]

theorem FRAME_SIZE_unsigned (E : CNET) (u : List Nat) (kind : Int) (length : Nat) (seqno : Int)
    (msg : List Nat) (hm : length ≤ msg.length) (hl : length ≤ E.MAX_MESSAGE_SIZE) :
    FRAME_SIZE E (frame_unsigned E u kind length seqno msg) = FRAME_HEADER_SIZE E + length := by
  have hb := FRAME_HEADER_SIZE_bounds E
  have hf := E.MAX_fits
  unfold FRAME_SIZE FRAME_len
  rw [(frame_unsigned_fields E u kind length seqno msg hm).2.1, le_value_le_bytes]
  have : length % 256 ^ 8 = length := Nat.mod_eq_of_lt (by norm_num; omega)
  rw [this]
  exact Nat.mod_eq_of_lt (by norm_num; omega)

theorem transmit_frame_DATA (E : CNET) (ni : NODEINFO) (s : NODE) (u : List Nat)
    (msg : List Nat) (length : Nat) (seqno : Int) (link : Int)
    (hm : length ≤ msg.length) (hl : length ≤ E.MAX_MESSAGE_SIZE) :
    transmit_frame E ni s u msg DL_DATA length seqno link
      = some (after_DATA E ni s u msg length seqno link) := by
  unfold after_DATA
  have hb := FRAME_HEADER_SIZE_bounds E
  have hf := E.MAX_fits
  have hsz := FRAME_SIZE_unsigned E u DL_DATA length seqno msg hm hl
  have hc : cast_size (cast_int length) = length := cast_size_small _ (by omega)
  unfold frame_unsigned at hsz
  unfold transmit_frame
  have h01 : ¬ (DL_DATA = DL_ACK) := by decide
  simp only [h01, if_false, if_true, hc]
  have hg : ¬ (sizeof_MSG E < length ∨ msg.length < length) := by
    unfold sizeof_MSG; omega
  simp only [hg, if_false, hsz, CNET_start_timer, CNET_write_physical]
  have hg2 : ¬ (sizeof_FRAME E < FRAME_HEADER_SIZE E + length) := by omega
  simp only [hg2, if_false, wire_image, frame_unsigned, timer_usec, List.append_assoc,
    List.singleton_append]

theorem transmit_frame_ACK (E : CNET) (ni : NODEINFO) (s : NODE) (u : List Nat)
    (seqno : Int) (link : Int) :
    transmit_frame E ni s u [] DL_ACK 0 seqno link = some (after_ACK E s u seqno link) := by
  unfold after_ACK
  have hb := FRAME_HEADER_SIZE_bounds E
  have hf := E.MAX_fits
  have hsz := FRAME_SIZE_unsigned E u DL_ACK 0 seqno [] (by simp) (by omega)
  unfold frame_unsigned at hsz
  simp only [List.take_nil, poke_nil] at hsz
  unfold transmit_frame
  simp only [if_true, hsz, CNET_write_physical]
  have hg2 : ¬ (sizeof_FRAME E < FRAME_HEADER_SIZE E + 0) := by omega
  simp only [hg2, if_false, wire_image, frame_unsigned, List.take_nil, poke_nil]

theorem CNET_ccitt_range (E : CNET) (addr : List Nat) (n : Int) :
    -2 ^ 31 ≤ CNET_ccitt E addr n ∧ CNET_ccitt E addr n < 2 ^ 31 :=
  to_int32_range _

theorem CNET_ccitt_take (E : CNET) (x y : List Nat) (n : Nat) (h : x.take n = y.take n) :
    CNET_ccitt E x (n : Int) = CNET_ccitt E y (n : Int) := by
  unfold CNET_ccitt
  simp only [Int.toNat_ofNat, h]

theorem wire_image_length (E : CNET) (u : List Nat) (kind : Int) (length : Nat) (seqno : Int)
    (msg : List Nat) (hm : length ≤ msg.length) (hl : length ≤ E.MAX_MESSAGE_SIZE) :
    (wire_image E u kind length seqno msg).length = FRAME_HEADER_SIZE E + length := by
  have hb := FRAME_HEADER_SIZE_bounds E
  have h24 := sizeof_FRAME_ge E
  unfold wire_image
  rw [List.length_take, FRAME_set_checksum_length _ _ _ h24
    (frame_unsigned_length E u kind length seqno msg hl hm)]
  omega

theorem wire_image_eq (E : CNET) (u : List Nat) (kind : Int) (length : Nat) (seqno : Int)
    (msg : List Nat) :
    wire_image E u kind length seqno msg
      = poke ((frame_unsigned E u kind length seqno msg).take (FRAME_HEADER_SIZE E + length)) 16
          (int_bytes (CNET_ccitt E (frame_unsigned E u kind length seqno msg)
            (cast_int (FRAME_HEADER_SIZE E + length)))) := by
  have hb := FRAME_HEADER_SIZE_bounds E
  unfold wire_image FRAME_set_checksum
  rw [take_poke]
  rw [int_bytes_length]; omega

theorem wire_image_zeroed (E : CNET) (u v : List Nat) (kind : Int) (length : Nat) (seqno : Int)
    (msg : List Nat) (hm : length ≤ msg.length) (hl : length ≤ E.MAX_MESSAGE_SIZE) :
    (FRAME_set_checksum (received E v (wire_image E u kind length seqno msg)) 0).take
        (FRAME_HEADER_SIZE E + length)
      = (frame_unsigned E u kind length seqno msg).take (FRAME_HEADER_SIZE E + length) := by
  have hb := FRAME_HEADER_SIZE_bounds E
  have h24 := sizeof_FRAME_ge E
  have hwl := wire_image_length E u kind length seqno msg hm hl
  have hfl := frame_unsigned_length E u kind length seqno msg hl hm
  have hz := (frame_unsigned_fields E u kind length seqno msg hm).2.2.1
  unfold FRAME_set_checksum received
  rw [take_poke _ _ _ _ (by rw [int_bytes_length]; omega)]
  have e1 : (poke (auto_FRAME E v) 0 (wire_image E u kind length seqno msg)).take
      (FRAME_HEADER_SIZE E + length) = wire_image E u kind length seqno msg := by
    rw [← hwl]; exact take_poke_zero _ _
  rw [e1, wire_image_eq, poke_poke_same _ _ _ _ (by rw [List.length_take, hfl]; omega)
    (by rw [int_bytes_length, int_bytes_length])]
  rw [← take_poke _ _ _ _ (by rw [int_bytes_length]; omega), ← hz, poke_peek_self _ _ _ (by omega)]

theorem wire_image_checksum_ok (E : CNET) (u v : List Nat) (kind : Int) (length : Nat)
    (seqno : Int) (msg : List Nat) (hm : length ≤ msg.length) (hl : length ≤ E.MAX_MESSAGE_SIZE) :
    checksum_ok E v (wire_image E u kind length seqno msg) := by
  have hb := FRAME_HEADER_SIZE_bounds E
  have hf := E.MAX_fits
  have h24 := sizeof_FRAME_ge E
  have hwl := wire_image_length E u kind length seqno msg hm hl
  have hfl := frame_unsigned_length E u kind length seqno msg hl hm
  unfold checksum_ok
  rw [hwl, cast_int_small _ (by omega),
    CNET_ccitt_take E _ _ _ (wire_image_zeroed E u v kind length seqno msg hm hl)]
  unfold FRAME_checksum received
  rw [peek_poke_zero _ _ _ _ (by omega), wire_image_eq,
    peek_poke_same _ _ _ _ (by rw [List.length_take, hfl]; omega) (by rw [int_bytes_length]),
    int_value_int_bytes _ (CNET_ccitt_range _ _ _).1 (CNET_ccitt_range _ _ _).2,
    cast_int_small _ (by omega)]

theorem wire_image_peek_before (E : CNET) (u : List Nat) (kind : Int) (length : Nat)
    (seqno : Int) (msg : List Nat) (o n : Nat) (hm : length ≤ msg.length)
    (hl : length ≤ E.MAX_MESSAGE_SIZE) (hn : o + n ≤ 16) :
    peek (wire_image E u kind length seqno msg) o n
      = peek (frame_unsigned E u kind length seqno msg) o n := by
  have hb := FRAME_HEADER_SIZE_bounds E
  have h24 := sizeof_FRAME_ge E
  have hfl := frame_unsigned_length E u kind length seqno msg hl hm
  unfold wire_image
  rw [peek_take _ _ _ _ (by omega), peek_set_checksum_before _ _ _ _ (by omega) hn]

theorem wire_image_peek_after (E : CNET) (u : List Nat) (kind : Int) (length : Nat)
    (seqno : Int) (msg : List Nat) (o n : Nat) (hm : length ≤ msg.length)
    (hl : length ≤ E.MAX_MESSAGE_SIZE) (hn : 20 ≤ o) (hn2 : o + n ≤ FRAME_HEADER_SIZE E + length) :
    peek (wire_image E u kind length seqno msg) o n
      = peek (frame_unsigned E u kind length seqno msg) o n := by
  have h24 := sizeof_FRAME_ge E
  have hfl := frame_unsigned_length E u kind length seqno msg hl hm
  unfold wire_image
  rw [peek_take _ _ _ _ (by omega), peek_set_checksum_after _ _ _ _ (by omega) hn]

theorem take_peek (m : List Nat) (o n k : Nat) (h : k ≤ n) : (peek m o n).take k = peek m o k := by
  unfold peek; rw [List.take_take]; congr 1; omega

theorem received_peek (E : CNET) (v w : List Nat) (o n : Nat) (h : o + n ≤ w.length) :
    peek (received E v w) o n = peek w o n := by
  unfold received; exact peek_poke_zero _ _ _ _ h

theorem wire_image_kind (E : CNET) (u : List Nat) (kind : Int) (length : Nat)
    (seqno : Int) (msg : List Nat) (hm : length ≤ msg.length) (hl : length ≤ E.MAX_MESSAGE_SIZE)
    (hk1 : -2 ^ 31 ≤ kind) (hk2 : kind < 2 ^ 31) :
    FRAME_kind (wire_image E u kind length seqno msg) = kind := by
  unfold FRAME_kind
  rw [wire_image_peek_before E u kind length seqno msg 0 4 hm hl (by omega),
    (frame_unsigned_fields E u kind length seqno msg hm).1, int_value_int_bytes _ hk1 hk2]

theorem wire_image_len (E : CNET) (u : List Nat) (kind : Int) (length : Nat)
    (seqno : Int) (msg : List Nat) (hm : length ≤ msg.length) (hl : length ≤ E.MAX_MESSAGE_SIZE) :
    FRAME_len (wire_image E u kind length seqno msg) = length := by
  have hf := E.MAX_fits
  unfold FRAME_len
  rw [wire_image_peek_before E u kind length seqno msg 8 8 hm hl (by omega),
    (frame_unsigned_fields E u kind length seqno msg hm).2.1, le_value_le_bytes]
  exact Nat.mod_eq_of_lt (by norm_num; omega)

theorem wire_image_seq (E : CNET) (u : List Nat) (kind : Int) (length : Nat)
    (seqno : Int) (msg : List Nat) (hm : length ≤ msg.length) (hl : length ≤ E.MAX_MESSAGE_SIZE)
    (hk1 : -2 ^ 31 ≤ seqno) (hk2 : seqno < 2 ^ 31) :
    FRAME_seq (wire_image E u kind length seqno msg) = seqno := by
  have hb := FRAME_HEADER_SIZE_bounds E
  unfold FRAME_seq
  rw [wire_image_peek_after E u kind length seqno msg 20 4 hm hl (by omega) (by omega),
    (frame_unsigned_fields E u kind length seqno msg hm).2.2.2.1, int_value_int_bytes _ hk1 hk2]

theorem wire_image_payload (E : CNET) (u : List Nat) (kind : Int) (length : Nat)
    (seqno : Int) (msg : List Nat) (hm : length ≤ msg.length) (hl : length ≤ E.MAX_MESSAGE_SIZE) :
    peek (wire_image E u kind length seqno msg) 24 length = msg.take length := by
  have hb := FRAME_HEADER_SIZE_bounds E
  rw [wire_image_peek_after E u kind length seqno msg 24 length hm hl (by omega) (by omega),
    (frame_unsigned_fields E u kind length seqno msg hm).2.2.2.2]

theorem validated_wire_kind (E : CNET) (v w : List Nat) (h1 : 24 ≤ w.length)
    (h2 : w.length ≤ sizeof_FRAME E) : FRAME_kind (validated E v w) = FRAME_kind w := by
  rw [validated_kind E v w h2]; unfold FRAME_kind; rw [received_peek E v w 0 4 (by omega)]

theorem validated_wire_len (E : CNET) (v w : List Nat) (h1 : 24 ≤ w.length)
    (h2 : w.length ≤ sizeof_FRAME E) : FRAME_len (validated E v w) = FRAME_len w := by
  rw [validated_len E v w h2]; unfold FRAME_len; rw [received_peek E v w 8 8 (by omega)]

theorem validated_wire_seq (E : CNET) (v w : List Nat) (h1 : 24 ≤ w.length)
    (h2 : w.length ≤ sizeof_FRAME E) : FRAME_seq (validated E v w) = FRAME_seq w := by
  rw [validated_seq E v w h2]; unfold FRAME_seq; rw [received_peek E v w 20 4 (by omega)]

theorem validated_wire_low (E : CNET) (v w : List Nat) (h1 : 24 ≤ w.length)
    (h2 : w.length ≤ sizeof_FRAME E) : peek (validated E v w) 8 4 = peek w 8 4 := by
  rw [validated_peek_before E v w 8 4 h2 (by omega), received_peek E v w 8 4 (by omega)]

theorem validated_wire_payload (E : CNET) (v w : List Nat) (n : Nat) (h1 : 24 + n ≤ w.length)
    (h2 : w.length ≤ sizeof_FRAME E) (h3 : n ≤ E.MAX_MESSAGE_SIZE) :
    (FRAME_msg E (validated E v w)).take n = peek w 24 n := by
  rw [validated_msg E v w h2]; unfold FRAME_msg
  rw [take_peek _ _ _ _ (by unfold sizeof_MSG; omega), received_peek E v w 24 n (by omega)]
theorem FRAME_len_set_len_poke (g : List Nat) (L : Nat) (bs : List Nat) (h : 24 ≤ g.length) :
    FRAME_len (poke (FRAME_set_len g L) 24 bs) = L % 2 ^ 64 := by
  unfold FRAME_len
  rw [peek_poke_before _ _ _ _ _ (by rw [FRAME_set_len_length g L _ h rfl]; exact h) (by omega)]
  unfold FRAME_set_len
  rw [peek_poke_same _ _ _ _ (by omega) (by rw [le_bytes_length]), le_value_le_bytes]
  norm_num

theorem transmit_frame_DATA_none (E : CNET) (ni : NODEINFO) (s : NODE) (u : List Nat)
    (msg : List Nat) (length : Nat) (seqno : Int) (link : Int)
    (h64 : length < 2 ^ 64) (hbad : ¬ (length ≤ E.MAX_MESSAGE_SIZE ∧ length ≤ msg.length)) :
    transmit_frame E ni s u msg DL_DATA length seqno link = none := by
  have hb := FRAME_HEADER_SIZE_bounds E
  have hf := E.MAX_fits
  have h24 := sizeof_FRAME_ge E
  have h01 : ¬ (DL_DATA = DL_ACK) := by decide
  unfold transmit_frame
  simp only [h01, if_false, if_true]
  by_cases hg : sizeof_MSG E < cast_size (cast_int length) ∨ msg.length < cast_size (cast_int length)
  · simp only [hg, if_true]
  · simp only [hg, if_false]
    have hlen : FRAME_len (poke (FRAME_set_len (FRAME_set_checksum (FRAME_set_seq
        (FRAME_set_kind (auto_FRAME E u) DL_DATA) seqno) 0) length) 24
        (List.take (cast_size (cast_int length)) msg)) = length := by
      rw [FRAME_len_set_len_poke _ _ _ (by
        rw [FRAME_set_checksum_length _ _ _ h24 (FRAME_set_seq_length _ _ _ h24
          (FRAME_set_kind_length _ _ _ h24 (auto_FRAME_length E u)))]; exact h24)]
      exact Nat.mod_eq_of_lt h64
    have hsz : sizeof_FRAME E < FRAME_SIZE E (poke (FRAME_set_len (FRAME_set_checksum (FRAME_set_seq
        (FRAME_set_kind (auto_FRAME E u) DL_DATA) seqno) 0) length) 24
        (List.take (cast_size (cast_int length)) msg)) := by
      unfold FRAME_SIZE
      rw [hlen]
      unfold sizeof_MSG cast_size cast_int to_int32 at hg
      split_ifs at hg <;> omega
    simp only [CNET_start_timer, hsz, if_true]

/-! ## The handlers, branch by branch -/

theorem application_ready_eq (E : CNET) (ni : NODEINFO) (s : NODE) (u : Nat → List Nat)
    (msg : List Nat) (h : msg.length ≤ E.MAX_MESSAGE_SIZE) :
    application_ready E ni s u msg
      = some { after_DATA E ni
          { s with
            lastmsg := poke s.lastmsg 0 msg
            lastlength := msg.length
            application_enabled := false
            actions := s.actions ++ [ACTION.disable_application] }
          (u 1) (poke s.lastmsg 0 msg) msg.length s.nextframetosend 1 with
          nextframetosend := 1 - s.nextframetosend } := by
  have hm : msg.length ≤ (poke s.lastmsg 0 msg).length := by simp [poke]
  unfold application_ready
  have hg : ¬ (sizeof_MSG E < msg.length) := by unfold sizeof_MSG; omega
  simp only [hg, if_false, CNET_disable_application]
  rw [transmit_frame_DATA E ni _ (u 1) (poke s.lastmsg 0 msg) msg.length s.nextframetosend 1 hm h]
  rfl

theorem application_ready_none (E : CNET) (ni : NODEINFO) (s : NODE) (u : Nat → List Nat)
    (msg : List Nat) (h : E.MAX_MESSAGE_SIZE < msg.length) :
    application_ready E ni s u msg = none := by
  unfold application_ready
  have hg : sizeof_MSG E < msg.length := by unfold sizeof_MSG; omega
  simp only [hg, if_true]

theorem timeouts_eq (E : CNET) (ni : NODEINFO) (s : NODE) (u : Nat → List Nat)
    (hl : s.lastlength ≤ E.MAX_MESSAGE_SIZE) (hm : s.lastlength ≤ s.lastmsg.length) :
    timeouts E ni s u
      = some (after_DATA E ni s (u 1) s.lastmsg s.lastlength s.ackexpected
          (if ni.nodetype = CnetNodeType.NT_ROUTER then 2 else 1)) := by
  unfold timeouts
  split_ifs <;> exact transmit_frame_DATA E ni s (u 1) s.lastmsg s.lastlength s.ackexpected _ hm hl

theorem FRAME_msg_length (E : CNET) (f : List Nat) (hf : f.length = sizeof_FRAME E) :
    (FRAME_msg E f).length = E.MAX_MESSAGE_SIZE := by
  have hb := sizeof_FRAME_bounds E
  unfold FRAME_msg peek sizeof_MSG
  simp; omega

theorem FRAME_len_lt (f : List Nat) : FRAME_len f < 2 ^ 64 := by
  unfold FRAME_len
  have h := le_value_lt (peek f 8 8)
  have h2 : (peek f 8 8).length ≤ 8 := by unfold peek; simp
  calc le_value (peek f 8 8) < 256 ^ (peek f 8 8).length := h
    _ ≤ 256 ^ 8 := Nat.pow_le_pow_right (by decide) h2
    _ = 2 ^ 64 := by norm_num

theorem stop_and_wait_router_full (E : CNET) (ni : NODEINFO) (s : NODE) (u : Nat → List Nat)
    (f : List Nat) (hr : ni.nodetype = CnetNodeType.NT_ROUTER) (hk : FRAME_kind f = DL_DATA)
    (hb : s.SW_buffer_full ≠ 0) : stop_and_wait E ni s u f = some s := by
  unfold stop_and_wait
  rw [if_pos hr, if_pos hk, if_pos hb]

theorem stop_and_wait_router_mismatch (E : CNET) (ni : NODEINFO) (s : NODE) (u : Nat → List Nat)
    (f : List Nat) (hr : ni.nodetype = CnetNodeType.NT_ROUTER) (hk : FRAME_kind f = DL_DATA)
    (hb : s.SW_buffer_full = 0) (hs : s.frameexpected ≠ FRAME_seq f) :
    stop_and_wait E ni s u f = some s := by
  unfold stop_and_wait
  rw [if_pos hr, if_pos hk, if_neg (by simp [hb]), if_neg hs]

theorem stop_and_wait_router_accept (E : CNET) (ni : NODEINFO) (s : NODE) (u : Nat → List Nat)
    (f : List Nat) (hr : ni.nodetype = CnetNodeType.NT_ROUTER) (hk : FRAME_kind f = DL_DATA)
    (hb : s.SW_buffer_full = 0) (hs : s.frameexpected = FRAME_seq f)
    (hl : FRAME_len f ≤ E.MAX_MESSAGE_SIZE) (hf : f.length = sizeof_FRAME E) :
    stop_and_wait E ni s u f
      = some { after_DATA E ni
            (after_ACK E { s with frameexpected := 1 - s.frameexpected } (u 1) (FRAME_seq f) 1)
            (u 2) (FRAME_msg E f) (FRAME_len f) (FRAME_seq f) 2 with
          SW_buffer_full := 1
          lastmsg := poke s.lastmsg 0 ((FRAME_msg E f).take (FRAME_len f))
          lastlength := le_value (poke (le_bytes 8 s.lastlength) 0 (peek f 8 4)) } := by
  have hfit := E.MAX_fits
  have hc : cast_size (cast_int (FRAME_len f)) = FRAME_len f := cast_size_small _ (by omega)
  have hg : ¬ (sizeof_MSG E < FRAME_len f) := by unfold sizeof_MSG; omega
  unfold stop_and_wait
  rw [if_pos hr, if_pos hk, if_neg (by simp [hb]), if_pos hs]
  simp only [transmit_frame_ACK]
  rw [transmit_frame_DATA E ni _ (u 2) (FRAME_msg E f) (FRAME_len f) (FRAME_seq f) 2
    (by rw [FRAME_msg_length E f hf]; exact hl) hl]
  simp only [hc, hg, if_false]
  rfl

theorem stop_and_wait_router_long (E : CNET) (ni : NODEINFO) (s : NODE) (u : Nat → List Nat)
    (f : List Nat) (hr : ni.nodetype = CnetNodeType.NT_ROUTER) (hk : FRAME_kind f = DL_DATA)
    (hb : s.SW_buffer_full = 0) (hs : s.frameexpected = FRAME_seq f)
    (hl : E.MAX_MESSAGE_SIZE < FRAME_len f) :
    stop_and_wait E ni s u f = none := by
  unfold stop_and_wait
  rw [if_pos hr, if_pos hk, if_neg (by simp [hb]), if_pos hs]
  simp only [transmit_frame_ACK]
  rw [transmit_frame_DATA_none E ni _ (u 2) (FRAME_msg E f) (FRAME_len f) (FRAME_seq f) 2
    (FRAME_len_lt f) (by omega)]

theorem stop_and_wait_router_ACK (E : CNET) (ni : NODEINFO) (s : NODE) (u : Nat → List Nat)
    (f : List Nat) (hr : ni.nodetype = CnetNodeType.NT_ROUTER) (hk : FRAME_kind f ≠ DL_DATA)
    (hs : s.ackexpected = FRAME_seq f) :
    stop_and_wait E ni s u f
      = some { s with
          ackexpected := 1 - s.ackexpected
          SW_buffer_full := 0
          timers := s.timers.filter (fun t => t ≠ s.lasttimer)
          actions := s.actions ++ [ACTION.stop_timer s.lasttimer] } := by
  unfold stop_and_wait
  rw [if_pos hr, if_neg hk, if_pos hs]
  rfl

theorem stop_and_wait_router_ACK_mismatch (E : CNET) (ni : NODEINFO) (s : NODE)
    (u : Nat → List Nat) (f : List Nat) (hr : ni.nodetype = CnetNodeType.NT_ROUTER)
    (hk : FRAME_kind f ≠ DL_DATA) (hs : s.ackexpected ≠ FRAME_seq f) :
    stop_and_wait E ni s u f = some s := by
  unfold stop_and_wait
  rw [if_pos hr, if_neg hk, if_neg hs]

theorem stop_and_wait_host_ACK (E : CNET) (ni : NODEINFO) (s : NODE) (u : Nat → List Nat)
    (f : List Nat) (hr : ni.nodetype ≠ CnetNodeType.NT_ROUTER) (hk : FRAME_kind f = DL_ACK)
    (hs : FRAME_seq f = s.ackexpected) :
    stop_and_wait E ni s u f
      = some { s with
          ackexpected := 1 - s.ackexpected
          timers := s.timers.filter (fun t => t ≠ s.lasttimer)
          application_enabled := true
          actions := s.actions ++ [ACTION.stop_timer s.lasttimer, ACTION.enable_application] } := by
  unfold stop_and_wait
  rw [if_neg hr, if_pos hk, if_pos hs]
  simp [CNET_stop_timer, CNET_enable_application]

theorem stop_and_wait_host_ACK_mismatch (E : CNET) (ni : NODEINFO) (s : NODE)
    (u : Nat → List Nat) (f : List Nat) (hr : ni.nodetype ≠ CnetNodeType.NT_ROUTER)
    (hk : FRAME_kind f = DL_ACK) (hs : FRAME_seq f ≠ s.ackexpected) :
    stop_and_wait E ni s u f = some s := by
  unfold stop_and_wait
  rw [if_neg hr, if_pos hk, if_neg hs]

theorem stop_and_wait_host_DATA (E : CNET) (ni : NODEINFO) (s : NODE) (u : Nat → List Nat)
    (f : List Nat) (hr : ni.nodetype ≠ CnetNodeType.NT_ROUTER) (hk : FRAME_kind f = DL_DATA)
    (hs : FRAME_seq f = s.frameexpected) (hl : FRAME_len f ≤ E.MAX_MESSAGE_SIZE) :
    stop_and_wait E ni s u f
      = some (after_ACK E
          { s with
            frameexpected := 1 - s.frameexpected
            actions := s.actions ++ [ACTION.write_application ((FRAME_msg E f).take (FRAME_len f))] }
          (u 1) (FRAME_seq f) 1) := by
  have h01 : ¬ (FRAME_kind f = DL_ACK) := by rw [hk]; decide
  have hg : ¬ (sizeof_MSG E < FRAME_len f) := by unfold sizeof_MSG; omega
  unfold stop_and_wait
  rw [if_neg hr, if_neg h01, if_pos hk, if_pos hs]
  simp only [hg, if_false, CNET_write_application, transmit_frame_ACK]

theorem stop_and_wait_host_DATA_long (E : CNET) (ni : NODEINFO) (s : NODE) (u : Nat → List Nat)
    (f : List Nat) (hr : ni.nodetype ≠ CnetNodeType.NT_ROUTER) (hk : FRAME_kind f = DL_DATA)
    (hs : FRAME_seq f = s.frameexpected) (hl : E.MAX_MESSAGE_SIZE < FRAME_len f) :
    stop_and_wait E ni s u f = none := by
  have h01 : ¬ (FRAME_kind f = DL_ACK) := by rw [hk]; decide
  have hg : sizeof_MSG E < FRAME_len f := by unfold sizeof_MSG; omega
  unfold stop_and_wait
  rw [if_neg hr, if_neg h01, if_pos hk, if_pos hs]
  simp only [hg, if_true]

theorem stop_and_wait_host_DATA_mismatch (E : CNET) (ni : NODEINFO) (s : NODE)
    (u : Nat → List Nat) (f : List Nat) (hr : ni.nodetype ≠ CnetNodeType.NT_ROUTER)
    (hk : FRAME_kind f = DL_DATA) (hs : FRAME_seq f ≠ s.frameexpected) :
    stop_and_wait E ni s u f = some s := by
  have h01 : ¬ (FRAME_kind f = DL_ACK) := by rw [hk]; decide
  unfold stop_and_wait
  rw [if_neg hr, if_neg h01, if_pos hk, if_neg hs]

theorem stop_and_wait_host_other (E : CNET) (ni : NODEINFO) (s : NODE)
    (u : Nat → List Nat) (f : List Nat) (hr : ni.nodetype ≠ CnetNodeType.NT_ROUTER)
    (hk : FRAME_kind f ≠ DL_ACK) (hk2 : FRAME_kind f ≠ DL_DATA) :
    stop_and_wait E ni s u f = some s := by
  unfold stop_and_wait
  rw [if_neg hr, if_neg hk, if_neg hk2]

/-! ## The retained length -/

theorem le_value_append (a b : List Nat) :
    le_value (a ++ b) = le_value a + 256 ^ a.length * le_value b := by
  induction a with
  | nil => simp [le_value]
  | cons x a ih =>
    show x % 256 + 256 * le_value (a ++ b)
      = x % 256 + 256 * le_value a + 256 ^ (a.length + 1) * le_value b
    rw [ih, pow_succ]
    ring

theorem le_value_take (bs : List Nat) (k : Nat) (h : k ≤ bs.length) :
    le_value (bs.take k) = le_value bs % 256 ^ k := by
  have e := le_value_append (bs.take k) (bs.drop k)
  rw [List.take_append_drop] at e
  have hl : (bs.take k).length = k := by simp; omega
  have hlt := le_value_lt (bs.take k)
  rw [hl] at e hlt
  rw [e, Nat.add_mul_mod_self_left, Nat.mod_eq_of_lt hlt]

theorem le_value_drop (bs : List Nat) (k : Nat) (h : k ≤ bs.length) :
    le_value (bs.drop k) = le_value bs / 256 ^ k := by
  have e := le_value_append (bs.take k) (bs.drop k)
  rw [List.take_append_drop] at e
  have hl : (bs.take k).length = k := by simp; omega
  have hlt := le_value_lt (bs.take k)
  rw [hl] at e hlt
  rw [e, Nat.add_mul_div_left _ _ (by positivity), Nat.div_eq_of_lt hlt, Nat.zero_add]

theorem retained_length (f : List Nat) (old : Nat) (hf : 16 ≤ f.length) :
    le_value (poke (le_bytes 8 old) 0 (peek f 8 4))
      = FRAME_len f % 2 ^ 32 + 2 ^ 32 * (old % 2 ^ 64 / 2 ^ 32) := by
  have h4 : (peek f 8 4).length = 4 := by unfold peek; simp; omega
  have h8 : (peek f 8 8).length = 8 := by unfold peek; simp; omega
  have e1 : peek f 8 4 = (peek f 8 8).take 4 := (take_peek f 8 8 4 (by omega)).symm
  unfold poke
  rw [List.take_zero, List.nil_append, Nat.zero_add, h4, le_value_append, h4,
    le_value_drop _ 4 (by rw [le_bytes_length]; omega), le_value_le_bytes, e1,
    le_value_take _ 4 (by omega)]
  unfold FRAME_len
  norm_num

theorem retained_length_small (f : List Nat) (old : Nat) (hf : 16 ≤ f.length)
    (ho : old < 2 ^ 32) (hl : FRAME_len f < 2 ^ 32) :
    le_value (poke (le_bytes 8 old) 0 (peek f 8 4)) = FRAME_len f := by
  rw [retained_length f old hf]
  omega

/-! ## The invariant is kept by every event -/

theorem last_DATA_after_DATA (E : CNET) (ni : NODEINFO) (s : NODE) (u msg : List Nat)
    (length : Nat) (seqno : Int) (link : Int)
    (hm : length ≤ msg.length) (hl : length ≤ E.MAX_MESSAGE_SIZE) :
    last_DATA (after_DATA E ni s u msg length seqno link)
      = some (wire_image E u DL_DATA length seqno msg) := by
  have hk := wire_image_kind E u DL_DATA length seqno msg hm hl (by decide) (by decide)
  simp [last_DATA, after_DATA, List.foldl_append, hk]

theorem last_DATA_after_ACK (E : CNET) (s : NODE) (u : List Nat) (seqno : Int) (link : Int) :
    last_DATA (after_ACK E s u seqno link) = last_DATA s := by
  have hk := wire_image_kind E u DL_ACK 0 seqno [] (by simp) (by omega) (by decide) (by decide)
  have h01 : ¬ (DL_ACK = DL_DATA) := by decide
  simp [last_DATA, after_ACK, List.foldl_append, hk, h01]

theorem bit_range (x : Int) (h : x = 0 ∨ x = 1) : -2 ^ 31 ≤ x ∧ x < 2 ^ 31 := by
  rcases h with h | h <;> subst h <;> decide

theorem bit_flip (x : Int) (h : x = 0 ∨ x = 1) : 1 - x = 0 ∨ 1 - x = 1 := by
  rcases h with h | h <;> subst h <;> decide

theorem physical_ready_long (E : CNET) (ni : NODEINFO) (s : NODE) (u : Nat → List Nat)
    (wire : List Nat) (h : sizeof_FRAME E < wire.length) :
    physical_ready E ni s u wire = none := by
  unfold physical_ready
  simp only [h, if_true]

theorem node_inv_timer (E : CNET) (ni : NODEINFO) (s t : NODE) (u : Nat → List Nat) (timer : Nat)
    (h : node_inv E ni s) (hmem : timer ∈ s.timers)
    (ht : timeouts E ni { s with timers := s.timers.erase timer } u = some t) : node_inv E ni t := by
  have hm : s.lastlength ≤ s.lastmsg.length := by rw [h.msg_length]; exact h.length_le
  have hr := bit_range _ h.ackexpected_bit
  have hne : s.timers ≠ [] := List.ne_nil_of_mem hmem
  have hone : s.timers = [s.lasttimer] := h.one_timer.resolve_left hne
  have herase : s.timers.erase timer = [] := by
    rw [hone] at hmem ⊢
    simp only [List.mem_singleton] at hmem
    subst hmem
    simp
  rw [timeouts_eq E ni { s with timers := s.timers.erase timer } u h.length_le hm] at ht
  injection ht with ht
  subst ht
  refine ⟨h.msg_length, h.length_le, h.ackexpected_bit, h.nextframetosend_bit,
    h.frameexpected_bit, ?_, ?_, ?_, ?_, ?_⟩
  · right; simp [after_DATA, herase]
  · simp [after_DATA]
  · intro hrt hb
    exact absurd (h.router_idle hrt hb) hne
  · intro hrt hb
    exact absurd (h.host_idle hrt hb) hne
  · intro _
    refine ⟨_, last_DATA_after_DATA E ni _ (u 1) s.lastmsg s.lastlength s.ackexpected _ hm
      h.length_le, wire_image_kind E (u 1) DL_DATA _ _ _ hm h.length_le (by decide) (by decide),
      wire_image_len E (u 1) DL_DATA _ _ _ hm h.length_le,
      wire_image_payload E (u 1) DL_DATA _ _ _ hm h.length_le, ?_⟩
    intro _
    exact wire_image_seq E (u 1) DL_DATA _ _ _ hm h.length_le hr.1 hr.2

theorem node_inv_application (E : CNET) (ni : NODEINFO) (s t : NODE) (u : Nat → List Nat)
    (msg : List Nat) (h : node_inv E ni s) (hhost : ni.nodetype = CnetNodeType.NT_HOST)
    (hen : s.application_enabled = true)
    (ht : application_ready E ni s u msg = some t) : node_inv E ni t := by
  have hnr : ni.nodetype ≠ CnetNodeType.NT_ROUTER := by rw [hhost]; decide
  have hidle := h.host_idle hnr hen
  by_cases hl : msg.length ≤ E.MAX_MESSAGE_SIZE
  · have hm : msg.length ≤ (poke s.lastmsg 0 msg).length := by simp [poke]
    have hr := bit_range _ h.nextframetosend_bit
    rw [application_ready_eq E ni s u msg hl] at ht
    injection ht with ht
    subst ht
    refine ⟨?_, hl, h.ackexpected_bit, bit_flip _ h.nextframetosend_bit,
      h.frameexpected_bit, ?_, ?_, ?_, ?_, ?_⟩
    · show (poke s.lastmsg 0 msg).length = E.MAX_MESSAGE_SIZE
      rw [length_poke _ _ _ (by rw [h.msg_length]; omega), h.msg_length]
    · right; simp [after_DATA, hidle]
    · simp [after_DATA]
    · intro hrt; exact absurd hrt hnr
    · intro _ hb; simp [after_DATA] at hb
    · intro _
      refine ⟨_, last_DATA_after_DATA E ni _ (u 1) _ msg.length s.nextframetosend 1 hm hl,
        wire_image_kind E (u 1) DL_DATA _ _ _ hm hl (by decide) (by decide),
        wire_image_len E (u 1) DL_DATA _ _ _ hm hl,
        wire_image_payload E (u 1) DL_DATA _ _ _ hm hl, ?_⟩
      rw [wire_image_seq E (u 1) DL_DATA _ _ _ hm hl hr.1 hr.2, if_neg hnr]
      show 1 - s.nextframetosend ≠ s.ackexpected → s.nextframetosend = s.ackexpected
      rcases h.nextframetosend_bit with h1 | h1 <;> rcases h.ackexpected_bit with h2 | h2 <;>
        rw [h1, h2] <;> decide
  · rw [application_ready_none E ni s u msg (by omega)] at ht
    exact absurd ht (by simp)
theorem filter_lasttimer (l : List Nat) (x : Nat) (h : l = [] ∨ l = [x]) :
    l.filter (fun t => decide (t ≠ x)) = [] := by
  rcases h with h | h <;> subst h <;> simp

theorem last_DATA_write_application (s t : NODE) (msg : List Nat)
    (h : t.actions = s.actions ++ [ACTION.write_application msg]) :
    last_DATA t = last_DATA s := by
  simp [last_DATA, h, List.foldl_append]

theorem node_inv_stop_and_wait (E : CNET) (ni : NODEINFO) (s t : NODE) (u : Nat → List Nat)
    (f : List Nat) (h : node_inv E ni s) (hf : f.length = sizeof_FRAME E)
    (ht : stop_and_wait E ni s u f = some t) : node_inv E ni t := by
  have hfit := E.MAX_fits
  have hsb := sizeof_FRAME_bounds E
  by_cases hr : ni.nodetype = CnetNodeType.NT_ROUTER
  · by_cases hk : FRAME_kind f = DL_DATA
    · by_cases hb : s.SW_buffer_full = 0
      · by_cases hs : s.frameexpected = FRAME_seq f
        · by_cases hl : FRAME_len f ≤ E.MAX_MESSAGE_SIZE
          · rw [stop_and_wait_router_accept E ni s u f hr hk hb hs hl hf] at ht
            injection ht with ht
            subst ht
            have hm : FRAME_len f ≤ (FRAME_msg E f).length := by
              rw [FRAME_msg_length E f hf]; exact hl
            have hidle := h.router_idle hr hb
            have hrl := retained_length_small f s.lastlength (by omega)
              (by have := h.length_le; omega) (by omega)
            have hsr := bit_range _ h.frameexpected_bit
            rw [hs] at hsr
            refine ⟨?_, ?_, h.ackexpected_bit, h.nextframetosend_bit,
              bit_flip _ h.frameexpected_bit, ?_, ?_, ?_, ?_, ?_⟩
            · show (poke s.lastmsg 0 ((FRAME_msg E f).take (FRAME_len f))).length
                = E.MAX_MESSAGE_SIZE
              rw [length_poke _ _ _ (by rw [h.msg_length]; simp; omega), h.msg_length]
            · show le_value (poke (le_bytes 8 s.lastlength) 0 (peek f 8 4)) ≤ E.MAX_MESSAGE_SIZE
              rw [hrl]; exact hl
            · right; simp [after_DATA, after_ACK, hidle]
            · simp [after_DATA, after_ACK]
            · intro _ hb1; simp at hb1
            · intro hnr; exact absurd hr hnr
            · intro _
              refine ⟨_, last_DATA_after_DATA E ni _ (u 2) _ (FRAME_len f) (FRAME_seq f) 2 hm hl,
                wire_image_kind E (u 2) DL_DATA _ _ _ hm hl (by decide) (by decide), ?_, ?_, ?_⟩
              · show FRAME_len (wire_image E (u 2) DL_DATA (FRAME_len f) (FRAME_seq f)
                  (FRAME_msg E f)) = le_value (poke (le_bytes 8 s.lastlength) 0 (peek f 8 4))
                rw [hrl, wire_image_len E (u 2) DL_DATA _ _ _ hm hl]
              · show peek (wire_image E (u 2) DL_DATA (FRAME_len f) (FRAME_seq f)
                  (FRAME_msg E f)) 24 (le_value (poke (le_bytes 8 s.lastlength) 0 (peek f 8 4)))
                  = (poke s.lastmsg 0 ((FRAME_msg E f).take (FRAME_len f))).take
                    (le_value (poke (le_bytes 8 s.lastlength) 0 (peek f 8 4)))
                rw [hrl, wire_image_payload E (u 2) DL_DATA _ _ _ hm hl]
                have e := take_poke_zero s.lastmsg ((FRAME_msg E f).take (FRAME_len f))
                have e2 : ((FRAME_msg E f).take (FRAME_len f)).length = FRAME_len f := by
                  simp; omega
                rw [e2] at e
                exact e.symm
              · rw [wire_image_seq E (u 2) DL_DATA _ _ _ hm hl hsr.1 hsr.2, if_pos hr]
                show 1 - s.frameexpected ≠ s.ackexpected → FRAME_seq f = s.ackexpected
                rw [← hs]
                rcases h.frameexpected_bit with h1 | h1 <;>
                  rcases h.ackexpected_bit with h2 | h2 <;> rw [h1, h2] <;> decide
          · rw [stop_and_wait_router_long E ni s u f hr hk hb hs (by omega)] at ht
            exact absurd ht (by simp)
        · rw [stop_and_wait_router_mismatch E ni s u f hr hk hb hs] at ht
          injection ht with ht; subst ht; exact h
      · rw [stop_and_wait_router_full E ni s u f hr hk hb] at ht
        injection ht with ht; subst ht; exact h
    · by_cases hs : s.ackexpected = FRAME_seq f
      · rw [stop_and_wait_router_ACK E ni s u f hr hk hs] at ht
        injection ht with ht
        subst ht
        have hflt := filter_lasttimer s.timers s.lasttimer h.one_timer
        refine ⟨h.msg_length, h.length_le, bit_flip _ h.ackexpected_bit, h.nextframetosend_bit,
          h.frameexpected_bit, Or.inl hflt, h.timer_issued, fun _ _ => hflt, fun _ _ => hflt, ?_⟩
        intro hne; exact absurd hflt hne
      · rw [stop_and_wait_router_ACK_mismatch E ni s u f hr hk hs] at ht
        injection ht with ht; subst ht; exact h
  · by_cases hk : FRAME_kind f = DL_ACK
    · by_cases hs : FRAME_seq f = s.ackexpected
      · rw [stop_and_wait_host_ACK E ni s u f hr hk hs] at ht
        injection ht with ht
        subst ht
        have hflt := filter_lasttimer s.timers s.lasttimer h.one_timer
        refine ⟨h.msg_length, h.length_le, bit_flip _ h.ackexpected_bit, h.nextframetosend_bit,
          h.frameexpected_bit, Or.inl hflt, h.timer_issued, fun _ _ => hflt, fun _ _ => hflt, ?_⟩
        intro hne; exact absurd hflt hne
      · rw [stop_and_wait_host_ACK_mismatch E ni s u f hr hk hs] at ht
        injection ht with ht; subst ht; exact h
    · by_cases hk2 : FRAME_kind f = DL_DATA
      · by_cases hs : FRAME_seq f = s.frameexpected
        · by_cases hl : FRAME_len f ≤ E.MAX_MESSAGE_SIZE
          · rw [stop_and_wait_host_DATA E ni s u f hr hk2 hs hl] at ht
            injection ht with ht
            subst ht
            refine ⟨h.msg_length, h.length_le, h.ackexpected_bit, h.nextframetosend_bit,
              bit_flip _ h.frameexpected_bit, h.one_timer, h.timer_issued,
              fun hrt => absurd hrt hr, h.host_idle, ?_⟩
            intro hne
            obtain ⟨w, hw1, hw2, hw3, hw4, hw5⟩ := h.sent hne
            refine ⟨w, ?_, hw2, hw3, hw4, ?_⟩
            · rw [last_DATA_after_ACK, last_DATA_write_application s _ _ rfl]; exact hw1
            · rw [if_neg hr] at hw5 ⊢; exact hw5
          · rw [stop_and_wait_host_DATA_long E ni s u f hr hk2 hs (by omega)] at ht
            exact absurd ht (by simp)
        · rw [stop_and_wait_host_DATA_mismatch E ni s u f hr hk2 hs] at ht
          injection ht with ht; subst ht; exact h
      · rw [stop_and_wait_host_other E ni s u f hr hk hk2] at ht
        injection ht with ht; subst ht; exact h

theorem node_inv_physical (E : CNET) (ni : NODEINFO) (s t : NODE) (u : Nat → List Nat)
    (wire : List Nat) (h : node_inv E ni s)
    (ht : physical_ready E ni s u wire = some t) : node_inv E ni t := by
  by_cases hsz : wire.length ≤ sizeof_FRAME E
  · by_cases hc : checksum_ok E (u 0) wire
    · rw [physical_ready_valid E ni s u wire hsz hc] at ht
      exact node_inv_stop_and_wait E ni s t u _ h (validated_length E (u 0) wire hsz) ht
    · rw [physical_ready_corrupt E ni s u wire hsz hc] at ht
      injection ht with ht; subst ht; exact h
  · rw [physical_ready_long E ni s u wire (by omega)] at ht
    exact absurd ht (by simp)

theorem node_inv_raise (E : CNET) (ni : NODEINFO) (s t : NODE) (e : EVENT) (h : node_inv E ni s)
    (ht : raise E ni s e = some t) : node_inv E ni t := by
  cases e with
  | EV_APPLICATIONREADY u msg =>
    simp only [raise] at ht
    split_ifs at ht with hc
    exact node_inv_application E ni s t u msg h hc.1 hc.2 ht
  | EV_PHYSICALREADY u wire => exact node_inv_physical E ni s t u wire h ht
  | EV_TIMER1 u timer =>
    simp only [raise] at ht
    split_ifs at ht with hc
    exact node_inv_timer E ni s t u timer h hc ht

theorem node_inv_reboot (E : CNET) (ni : NODEINFO) : node_inv E ni (reboot_node E ni) := by
  unfold reboot_node
  split_ifs <;>
    exact ⟨by simp [CNET_enable_application, sizeof_MSG], by simp [CNET_enable_application],
      Or.inl rfl, Or.inl rfl, Or.inl rfl, Or.inl rfl, by simp [CNET_enable_application, NULLTIMER],
      fun _ _ => rfl, fun _ _ => rfl, fun hne => absurd rfl hne⟩

theorem node_inv_run (E : CNET) (ni : NODEINFO) (es : List EVENT) (s t : NODE) (h : node_inv E ni s)
    (ht : run E ni s es = some t) : node_inv E ni t := by
  induction es generalizing s with
  | nil =>
    simp only [run] at ht
    injection ht with ht; subst ht; exact h
  | cons e es ih =>
    simp only [run] at ht
    cases hr : raise E ni s e with
    | none => rw [hr] at ht; exact absurd ht (by simp)
    | some m =>
      rw [hr] at ht
      exact ih m (node_inv_raise E ni s m e h hr) ht

/-! ## Arrival of a frame written by `transmit_frame` -/

theorem physical_ready_wire_image (E : CNET) (ni : NODEINFO) (s : NODE) (u : Nat → List Nat)
    (x : List Nat) (kind : Int) (length : Nat) (seqno : Int) (msg : List Nat)
    (hm : length ≤ msg.length) (hl : length ≤ E.MAX_MESSAGE_SIZE)
    (hk : -2 ^ 31 ≤ kind ∧ kind < 2 ^ 31) (hq : -2 ^ 31 ≤ seqno ∧ seqno < 2 ^ 31) :
    physical_ready E ni s u (wire_image E x kind length seqno msg)
        = stop_and_wait E ni s u (validated E (u 0) (wire_image E x kind length seqno msg))
      ∧ FRAME_kind (validated E (u 0) (wire_image E x kind length seqno msg)) = kind
      ∧ FRAME_seq (validated E (u 0) (wire_image E x kind length seqno msg)) = seqno
      ∧ FRAME_len (validated E (u 0) (wire_image E x kind length seqno msg)) = length
      ∧ (FRAME_msg E (validated E (u 0) (wire_image E x kind length seqno msg))).take length
          = msg.take length
      ∧ (validated E (u 0) (wire_image E x kind length seqno msg)).length = sizeof_FRAME E
      ∧ peek (validated E (u 0) (wire_image E x kind length seqno msg)) 8 4
          = (le_bytes 8 length).take 4 := by
  have hb := FRAME_HEADER_SIZE_bounds E
  have hwl := wire_image_length E x kind length seqno msg hm hl
  have h1 : 24 ≤ (wire_image E x kind length seqno msg).length := by omega
  have h2 : (wire_image E x kind length seqno msg).length ≤ sizeof_FRAME E := by omega
  have hc := wire_image_checksum_ok E x (u 0) kind length seqno msg hm hl
  refine ⟨physical_ready_valid E ni s u _ h2 hc, ?_, ?_, ?_, ?_, validated_length E (u 0) _ h2, ?_⟩
  · rw [validated_wire_kind E (u 0) _ h1 h2,
      wire_image_kind E x kind length seqno msg hm hl hk.1 hk.2]
  · rw [validated_wire_seq E (u 0) _ h1 h2,
      wire_image_seq E x kind length seqno msg hm hl hq.1 hq.2]
  · rw [validated_wire_len E (u 0) _ h1 h2, wire_image_len E x kind length seqno msg hm hl]
  · rw [validated_wire_payload E (u 0) _ length (by omega) h2 hl,
      wire_image_payload E x kind length seqno msg hm hl]
  · rw [validated_wire_low E (u 0) _ h1 h2,
      wire_image_peek_before E x kind length seqno msg 8 4 hm hl (by omega),
      ← take_peek _ 8 8 4 (by omega), (frame_unsigned_fields E x kind length seqno msg hm).2.1]

theorem host_receives_DATA (E : CNET) (ni : NODEINFO) (s : NODE) (u : Nat → List Nat)
    (x : List Nat) (length : Nat) (seqno : Int) (msg : List Nat)
    (hr : ni.nodetype ≠ CnetNodeType.NT_ROUTER)
    (hm : length ≤ msg.length) (hl : length ≤ E.MAX_MESSAGE_SIZE)
    (hq : seqno = 0 ∨ seqno = 1) (hs : seqno = s.frameexpected) :
    physical_ready E ni s u (wire_image E x DL_DATA length seqno msg)
      = some (after_ACK E
          { s with
            frameexpected := 1 - s.frameexpected
            actions := s.actions ++ [ACTION.write_application (msg.take length)] }
          (u 1) seqno 1) := by
  obtain ⟨h1, h2, h3, h4, h5, _, _⟩ := physical_ready_wire_image E ni s u x DL_DATA length seqno
    msg hm hl (by decide) (bit_range _ hq)
  rw [h1, stop_and_wait_host_DATA E ni s u _ hr h2 (by rw [h3]; exact hs) (by rw [h4]; exact hl),
    h3, h4, h5]

theorem host_ignores_DATA (E : CNET) (ni : NODEINFO) (s : NODE) (u : Nat → List Nat)
    (x : List Nat) (length : Nat) (seqno : Int) (msg : List Nat)
    (hr : ni.nodetype ≠ CnetNodeType.NT_ROUTER)
    (hm : length ≤ msg.length) (hl : length ≤ E.MAX_MESSAGE_SIZE)
    (hq : seqno = 0 ∨ seqno = 1) (hs : seqno ≠ s.frameexpected) :
    physical_ready E ni s u (wire_image E x DL_DATA length seqno msg) = some s := by
  obtain ⟨h1, h2, h3, _, _, _, _⟩ := physical_ready_wire_image E ni s u x DL_DATA length seqno
    msg hm hl (by decide) (bit_range _ hq)
  rw [h1, stop_and_wait_host_DATA_mismatch E ni s u _ hr h2 (by rw [h3]; exact hs)]

theorem host_receives_ACK (E : CNET) (ni : NODEINFO) (s : NODE) (u : Nat → List Nat)
    (x : List Nat) (seqno : Int) (hr : ni.nodetype ≠ CnetNodeType.NT_ROUTER)
    (hq : seqno = 0 ∨ seqno = 1) (hs : seqno = s.ackexpected) :
    physical_ready E ni s u (wire_image E x DL_ACK 0 seqno [])
      = some { s with
          ackexpected := 1 - s.ackexpected
          timers := s.timers.filter (fun t => t ≠ s.lasttimer)
          application_enabled := true
          actions := s.actions ++ [ACTION.stop_timer s.lasttimer, ACTION.enable_application] } := by
  obtain ⟨h1, h2, h3, _, _, _, _⟩ := physical_ready_wire_image E ni s u x DL_ACK 0 seqno
    [] (by simp) (by omega) (by decide) (bit_range _ hq)
  rw [h1, stop_and_wait_host_ACK E ni s u _ hr h2 (by rw [h3]; exact hs)]

theorem host_ignores_ACK (E : CNET) (ni : NODEINFO) (s : NODE) (u : Nat → List Nat)
    (x : List Nat) (seqno : Int) (hr : ni.nodetype ≠ CnetNodeType.NT_ROUTER)
    (hq : seqno = 0 ∨ seqno = 1) (hs : seqno ≠ s.ackexpected) :
    physical_ready E ni s u (wire_image E x DL_ACK 0 seqno []) = some s := by
  obtain ⟨h1, h2, h3, _, _, _, _⟩ := physical_ready_wire_image E ni s u x DL_ACK 0 seqno
    [] (by simp) (by omega) (by decide) (bit_range _ hq)
  rw [h1, stop_and_wait_host_ACK_mismatch E ni s u _ hr h2 (by rw [h3]; exact hs)]

theorem new_frames_of_actions (link : Int) (s t : NODE) (extra : List ACTION)
    (h : t.actions = s.actions ++ extra) :
    new_frames link s t = extra.filterMap (fun a =>
      match a with
      | ACTION.write_physical l frame => if l = link then some frame else none
      | _ => none) := by
  unfold new_frames frames_written
  rw [h, List.filterMap_append, List.drop_left, List.filterMap_filterMap]
  congr 1
  funext a
  cases a <;> simp

theorem new_frames_same (link : Int) (s : NODE) : new_frames link s s = [] := by
  simp [new_frames]

theorem reboot_node_zero (E : CNET) (ni : NODEINFO) (h : ni.nodenumber = 0) :
    reboot_node E ni =
      { lastmsg := List.replicate E.MAX_MESSAGE_SIZE 0, lastlength := 0, lasttimer := 0,
        ackexpected := 0, nextframetosend := 0, frameexpected := 0, SW_buffer_full := 0,
        timers := [], timerids := 0, application_enabled := true,
        actions := [ACTION.enable_application] } := by
  unfold reboot_node
  rw [if_pos h]
  rfl

theorem reboot_node_other (E : CNET) (ni : NODEINFO) (h : ni.nodenumber ≠ 0) :
    reboot_node E ni =
      { lastmsg := List.replicate E.MAX_MESSAGE_SIZE 0, lastlength := 0, lasttimer := 0,
        ackexpected := 0, nextframetosend := 0, frameexpected := 0, SW_buffer_full := 0,
        timers := [], timerids := 0, application_enabled := false,
        actions := [] } := by
  unfold reboot_node
  rw [if_neg h]
  rfl

theorem new_frames_application (E : CNET) (ni : NODEINFO) (s : NODE) (x msg : List Nat)
    (lm : List Nat) (length : Nat) (seqno q : Int) :
    new_frames 1 s { after_DATA E ni
        { s with
          lastmsg := lm
          lastlength := length
          application_enabled := false
          actions := s.actions ++ [ACTION.disable_application] }
        x msg length seqno 1 with nextframetosend := q }
      = [wire_image E x DL_DATA length seqno msg] := by
  rw [new_frames_of_actions 1 s _ [ACTION.disable_application,
    ACTION.start_timer (timer_usec E ni 1 length) (s.timerids + 1),
    ACTION.write_physical 1 (wire_image E x DL_DATA length seqno msg)] (by simp [after_DATA])]
  simp

theorem new_frames_timeout (E : CNET) (ni : NODEINFO) (s : NODE) (x msg : List Nat)
    (ts : List Nat) (length : Nat) (seqno : Int) (link : Int) :
    new_frames link s (after_DATA E ni { s with timers := ts } x msg length seqno link)
      = [wire_image E x DL_DATA length seqno msg] := by
  rw [new_frames_of_actions link s _ [
    ACTION.start_timer (timer_usec E ni link length) (s.timerids + 1),
    ACTION.write_physical link (wire_image E x DL_DATA length seqno msg)] (by simp [after_DATA])]
  simp

theorem new_frames_host_DATA (E : CNET) (s : NODE) (x m : List Nat) (seqno q : Int) :
    new_frames 1 s (after_ACK E
        { s with
          frameexpected := q
          actions := s.actions ++ [ACTION.write_application m] } x seqno 1)
      = [wire_image E x DL_ACK 0 seqno []] := by
  rw [new_frames_of_actions 1 s _ [ACTION.write_application m,
    ACTION.write_physical 1 (wire_image E x DL_ACK 0 seqno [])] (by simp [after_ACK])]
  simp

theorem new_frames_host_ACK (s : NODE) (q : Int) (ts : List Nat) (link : Int) :
    new_frames link s { s with
        ackexpected := q
        timers := ts
        application_enabled := true
        actions := s.actions ++ [ACTION.stop_timer s.lasttimer, ACTION.enable_application] }
      = [] := by
  rw [new_frames_of_actions link s _ [ACTION.stop_timer s.lasttimer,
    ACTION.enable_application] rfl]
  simp

/-! ## Arrival at a router of a frame written by `transmit_frame` -/

theorem wire_image_congr (E : CNET) (x : List Nat) (kind : Int) (length : Nat) (seqno : Int)
    (m1 m2 : List Nat) (h : m1.take length = m2.take length) :
    wire_image E x kind length seqno m1 = wire_image E x kind length seqno m2 := by
  unfold wire_image frame_unsigned
  rw [h]

theorem router_receives_DATA (E : CNET) (ni : NODEINFO) (s : NODE) (u : Nat → List Nat)
    (x : List Nat) (length : Nat) (seqno : Int) (msg : List Nat)
    (hr : ni.nodetype = CnetNodeType.NT_ROUTER)
    (hm : length ≤ msg.length) (hl : length ≤ E.MAX_MESSAGE_SIZE)
    (hq : seqno = 0 ∨ seqno = 1) (hb : s.SW_buffer_full = 0) (hs : seqno = s.frameexpected)
    (ho : s.lastlength < 2 ^ 32) :
    physical_ready E ni s u (wire_image E x DL_DATA length seqno msg)
      = some { after_DATA E ni
            (after_ACK E { s with frameexpected := 1 - s.frameexpected } (u 1) seqno 1)
            (u 2) msg length seqno 2 with
          SW_buffer_full := 1
          lastmsg := poke s.lastmsg 0 (msg.take length)
          lastlength := length } := by
  have hfit := E.MAX_fits
  obtain ⟨h1, h2, h3, h4, h5, h6, h7⟩ := physical_ready_wire_image E ni s u x DL_DATA length
    seqno msg hm hl (by decide) (bit_range _ hq)
  have hsb := sizeof_FRAME_bounds E
  rw [h1, stop_and_wait_router_accept E ni s u _ hr h2 hb (by rw [h3]; exact hs.symm)
    (by rw [h4]; exact hl) h6,
    retained_length_small _ s.lastlength (by omega) ho (by rw [h4]; omega), h3, h4, h5]
  unfold after_DATA
  rw [wire_image_congr E (u 2) DL_DATA length seqno _ msg h5]

theorem router_receives_ACK (E : CNET) (ni : NODEINFO) (s : NODE) (u : Nat → List Nat)
    (x : List Nat) (seqno : Int) (hr : ni.nodetype = CnetNodeType.NT_ROUTER)
    (hq : seqno = 0 ∨ seqno = 1) (hs : seqno = s.ackexpected) :
    physical_ready E ni s u (wire_image E x DL_ACK 0 seqno [])
      = some { s with
          ackexpected := 1 - s.ackexpected
          SW_buffer_full := 0
          timers := s.timers.filter (fun t => t ≠ s.lasttimer)
          actions := s.actions ++ [ACTION.stop_timer s.lasttimer] } := by
  obtain ⟨h1, h2, h3, _, _, _, _⟩ := physical_ready_wire_image E ni s u x DL_ACK 0 seqno
    [] (by simp) (by omega) (by decide) (bit_range _ hq)
  rw [h1, stop_and_wait_router_ACK E ni s u _ hr (by rw [h2]; decide) (by rw [h3]; exact hs.symm)]

/-! ## What the events of a host do, in summary -/

theorem summary_application (E : CNET) (ni : NODEINFO) (s t : NODE) (u : Nat → List Nat)
    (msg : List Nat) (h : raise E ni s (EVENT.EV_APPLICATIONREADY u msg) = some t) :
    s.application_enabled = true ∧ ni.nodetype = CnetNodeType.NT_HOST
      ∧ msg.length ≤ E.MAX_MESSAGE_SIZE
      ∧ t.timers = s.timers ++ [s.timerids + 1]
      ∧ t.ackexpected = s.ackexpected ∧ t.nextframetosend = 1 - s.nextframetosend
      ∧ t.frameexpected = s.frameexpected ∧ t.application_enabled = false
      ∧ acks_accepted t = acks_accepted s ∧ messages_read t = messages_read s + 1
      ∧ new_frames 1 s t
          = [wire_image E (u 1) DL_DATA msg.length s.nextframetosend (poke s.lastmsg 0 msg)] := by
  simp only [raise] at h
  split_ifs at h with hc
  by_cases hl : msg.length ≤ E.MAX_MESSAGE_SIZE
  · rw [application_ready_eq E ni s u msg hl] at h
    injection h with h
    subst h
    refine ⟨hc.2, hc.1, hl, rfl, rfl, rfl, rfl, rfl, ?_, ?_, new_frames_application _ _ _ _ _ _ _ _ _⟩
    · simp [acks_accepted, after_DATA, List.filter_append]
    · simp [messages_read, after_DATA, List.filter_append]
  · rw [application_ready_none E ni s u msg (by omega)] at h
    exact absurd h (by simp)

theorem summary_expiry (E : CNET) (ni : NODEINFO) (s t : NODE) (u : Nat → List Nat)
    (timer : Nat) (hI : node_inv E ni s) (hnr : ni.nodetype ≠ CnetNodeType.NT_ROUTER)
    (h : raise E ni s (EVENT.EV_TIMER1 u timer) = some t) :
    s.timers ≠ [] ∧ t.timers ≠ []
      ∧ t.ackexpected = s.ackexpected ∧ t.nextframetosend = s.nextframetosend
      ∧ t.frameexpected = s.frameexpected ∧ t.application_enabled = s.application_enabled
      ∧ acks_accepted t = acks_accepted s ∧ messages_read t = messages_read s
      ∧ new_frames 1 s t = [wire_image E (u 1) DL_DATA s.lastlength s.ackexpected s.lastmsg]
      ∧ s.lastlength ≤ E.MAX_MESSAGE_SIZE ∧ s.lastlength ≤ s.lastmsg.length := by
  have hm : s.lastlength ≤ s.lastmsg.length := by rw [hI.msg_length]; exact hI.length_le
  simp only [raise] at h
  split_ifs at h with hc
  rw [timeouts_eq E ni { s with timers := s.timers.erase timer } u hI.length_le hm, if_neg hnr] at h
  injection h with h
  subst h
  refine ⟨List.ne_nil_of_mem hc, by simp [after_DATA], rfl, rfl, rfl, rfl, ?_, ?_,
    new_frames_timeout _ _ _ _ _ _ _ _ _, hI.length_le, hm⟩
  · simp [acks_accepted, after_DATA, List.filter_append]
  · simp [messages_read, after_DATA, List.filter_append]

theorem summary_DATA_accepted (E : CNET) (ni : NODEINFO) (s : NODE) (u : Nat → List Nat)
    (w : List Nat) (hnr : ni.nodetype ≠ CnetNodeType.NT_ROUTER)
    (hw : is_DATA_wire E s.frameexpected w)
    (hq : s.frameexpected = 0 ∨ s.frameexpected = 1) :
    ∃ t x, raise E ni s (EVENT.EV_PHYSICALREADY u w) = some t
      ∧ t.timers = s.timers ∧ t.ackexpected = s.ackexpected
      ∧ t.nextframetosend = s.nextframetosend ∧ t.frameexpected = 1 - s.frameexpected
      ∧ t.application_enabled = s.application_enabled
      ∧ acks_accepted t = acks_accepted s ∧ messages_read t = messages_read s
      ∧ new_frames 1 s t = [wire_image E x DL_ACK 0 s.frameexpected []] := by
  obtain ⟨x, length, msg, hw, hl, hm⟩ := hw
  subst hw
  refine ⟨_, u 1, host_receives_DATA E ni s u x length _ msg hnr hm hl hq rfl, rfl, rfl, rfl, rfl,
    rfl, ?_, ?_, new_frames_host_DATA _ _ _ _ _ _⟩
  · simp [acks_accepted, after_ACK, List.filter_append]
  · simp [messages_read, after_ACK, List.filter_append]

theorem summary_DATA_ignored (E : CNET) (ni : NODEINFO) (s : NODE) (u : Nat → List Nat)
    (w : List Nat) (q : Int) (hnr : ni.nodetype ≠ CnetNodeType.NT_ROUTER)
    (hw : is_DATA_wire E q w) (hq : q = 0 ∨ q = 1) (hs : q ≠ s.frameexpected) :
    raise E ni s (EVENT.EV_PHYSICALREADY u w) = some s := by
  obtain ⟨x, length, msg, hw, hl, hm⟩ := hw
  subst hw
  exact host_ignores_DATA E ni s u x length q msg hnr hm hl hq hs

theorem summary_ACK_accepted (E : CNET) (ni : NODEINFO) (s : NODE) (u : Nat → List Nat)
    (x : List Nat) (hnr : ni.nodetype ≠ CnetNodeType.NT_ROUTER)
    (hq : s.ackexpected = 0 ∨ s.ackexpected = 1) :
    ∃ t, raise E ni s (EVENT.EV_PHYSICALREADY u (wire_image E x DL_ACK 0 s.ackexpected []))
        = some t
      ∧ t.timers = s.timers.filter (fun t => t ≠ s.lasttimer)
      ∧ t.ackexpected = 1 - s.ackexpected
      ∧ t.nextframetosend = s.nextframetosend ∧ t.frameexpected = s.frameexpected
      ∧ t.application_enabled = true
      ∧ acks_accepted t = acks_accepted s + 1 ∧ messages_read t = messages_read s
      ∧ new_frames 1 s t = [] := by
  refine ⟨_, host_receives_ACK E ni s u x _ hnr hq rfl, rfl, rfl, rfl, rfl, rfl, ?_, ?_,
    new_frames_host_ACK _ _ _ _⟩
  · simp [acks_accepted, List.filter_append]
  · simp [messages_read, List.filter_append]

/-! ## Single transitions of `physical_ready` -/

/-- C2. Router buffer guard: at a router whose `SW_buffer_full` is non-zero,
`physical_ready` on a checksum-valid DATA frame (whatever its sequence number,
payload and length) returns the node exactly as it was: `frameexpected`,
`ackexpected`, `SW_buffer_full`, `lastmsg`, `lastlength`, `lasttimer`, the
running timers and the list of calls made are unchanged, so no frame is
written, no timer started or stopped and nothing written to the application. -/
theorem router_buffer_guard (E : CNET) (ni : NODEINFO) (s : NODE) (u : Nat → List Nat)
    (wire : List Nat)
    (hrouter : ni.nodetype = CnetNodeType.NT_ROUTER)
    (hfull : s.SW_buffer_full ≠ 0)
    (hsize : wire.length ≤ sizeof_FRAME E)
    (hsum : checksum_ok E (u 0) wire)
    (hdata : FRAME_kind (received E (u 0) wire) = DL_DATA) :
    physical_ready E ni s u wire = some s := by
  rw [physical_ready_valid E ni s u wire hsize hsum]
  unfold stop_and_wait
  rw [if_pos hrouter, validated_kind E (u 0) wire hsize, if_pos hdata, if_pos hfull]

/-- C2, at a concrete input: a router with a full buffer receives the
example DATA frame. -/
theorem router_buffer_guard_witness :
    physical_ready example_CNET example_router
        { reboot_node example_CNET example_router with SW_buffer_full := 1 }
        example_junk example_DATA0
      = some { reboot_node example_CNET example_router with SW_buffer_full := 1 } :=
  router_buffer_guard example_CNET example_router _ example_junk example_DATA0
    rfl (by decide) (by decide) (by decide) (by decide)

/-- C7 as stated fails: host A of the example sends `[1, 2, 3]` and then
receives the matching acknowledgement.  Before the acknowledgement
`(ackexpected, nextframetosend)` is `(0, 1)`, afterwards it is `(1, 1)`:
`ackexpected` is flipped, `nextframetosend` is not. -/
theorem host_matching_ACK_counterexample :
    (application_ready example_CNET example_host_A
        (reboot_node example_CNET example_host_A) example_junk [1, 2, 3]).map
        (fun s => (s.ackexpected, s.nextframetosend)) = some (0, 1)
    ∧ ((application_ready example_CNET example_host_A
        (reboot_node example_CNET example_host_A) example_junk [1, 2, 3]).bind
        (fun s => physical_ready example_CNET example_host_A s example_junk example_ACK0)).map
        (fun s => (s.ackexpected, s.nextframetosend)) = some (1, 1) := by
  decide

/-- C7, amended. Host sender on a matching ACK: for every host state and
every checksum-valid ACK frame whose sequence number equals `ackexpected`,
`physical_ready` calls `CNET_stop_timer(lasttimer)`, flips `ackexpected`,
leaves `nextframetosend` and `frameexpected` unchanged, re-enables the
application layer and writes no frame: the only calls it makes are
`CNET_stop_timer` and `CNET_enable_application`. -/
theorem host_matching_ACK (E : CNET) (ni : NODEINFO) (s : NODE) (u : Nat → List Nat)
    (wire : List Nat)
    (hhost : ni.nodetype = CnetNodeType.NT_HOST)
    (hsize : wire.length ≤ sizeof_FRAME E)
    (hsum : checksum_ok E (u 0) wire)
    (hack : FRAME_kind (received E (u 0) wire) = DL_ACK)
    (hseq : FRAME_seq (received E (u 0) wire) = s.ackexpected) :
    physical_ready E ni s u wire
      = some { s with
          ackexpected := 1 - s.ackexpected
          timers := s.timers.filter (fun t => t ≠ s.lasttimer)
          application_enabled := true
          actions := s.actions ++ [ACTION.stop_timer s.lasttimer, ACTION.enable_application] } := by
  rw [physical_ready_valid E ni s u wire hsize hsum]
  unfold stop_and_wait
  have hr : ¬ ni.nodetype = CnetNodeType.NT_ROUTER := by rw [hhost]; decide
  rw [if_neg hr, validated_kind E (u 0) wire hsize, if_pos hack,
    validated_seq E (u 0) wire hsize, if_pos hseq]
  simp [CNET_stop_timer, CNET_enable_application]

/-- C7 amended, at a concrete input: host A of the example, just booted,
receives an ACK with sequence number 0. -/
theorem host_matching_ACK_witness :
    physical_ready example_CNET example_host_A (reboot_node example_CNET example_host_A)
        example_junk example_ACK0
      = some { reboot_node example_CNET example_host_A with
          ackexpected := 1 - (reboot_node example_CNET example_host_A).ackexpected
          timers := (reboot_node example_CNET example_host_A).timers.filter
            (fun t => t ≠ (reboot_node example_CNET example_host_A).lasttimer)
          application_enabled := true
          actions := (reboot_node example_CNET example_host_A).actions
            ++ [ACTION.stop_timer (reboot_node example_CNET example_host_A).lasttimer,
              ACTION.enable_application] } :=
  host_matching_ACK example_CNET example_host_A _ example_junk example_ACK0
    rfl (by decide) (by decide) (by decide) (by decide)

/-! ## The frame codec -/

theorem frames_written_append (s : NODE) (acts : List ACTION) :
    frames_written { s with actions := s.actions ++ acts }
      = frames_written s ++ frames_written { s with actions := acts } := by
  simp [frames_written, List.filterMap_append]

theorem transmit_frame_wire (E : CNET) (ni : NODEINFO) (s : NODE) (u : List Nat)
    (msg : List Nat) (kind : Int) (length : Nat) (seqno : Int) (link : Int)
    (hkind : kind = DL_DATA ∨ (kind = DL_ACK ∧ length = 0 ∧ msg = []))
    (hlen : length ≤ E.MAX_MESSAGE_SIZE) (hmsg : length ≤ msg.length) :
    ∃ t, transmit_frame E ni s u msg kind length seqno link = some t
      ∧ frames_written t = frames_written s ++ [(link, wire_image E u kind length seqno msg)] := by
  rcases hkind with hk | ⟨hk, hl, hm⟩
  · subst hk
    refine ⟨_, transmit_frame_DATA E ni s u msg length seqno link hmsg hlen, ?_⟩
    simp [after_DATA, frames_written, List.filterMap_append]
  · subst hk hl hm
    refine ⟨_, transmit_frame_ACK E ni s u seqno link, ?_⟩
    simp [after_ACK, frames_written, List.filterMap_append]

/-- C10. Codec round trip: for a kind in `{DL_DATA, DL_ACK}`, a sequence
number in `{0, 1}` and a payload of at most `MAX_MESSAGE_SIZE` bytes (the
first `length` bytes of `msg`; no payload for `DL_ACK`), `transmit_frame`
returns and writes exactly one frame `w`; whatever the receiver's local frame
held before, `w` fits in it and passes the checksum comparison of
`physical_ready`, which therefore goes on to the protocol code with a frame
whose `kind` and `seq` are the ones sent, whose `len` is the payload length
and whose first `len` payload bytes are the ones sent. -/
theorem codec_round_trip (E : CNET) (ni : NODEINFO) (s : NODE) (u : List Nat)
    (msg : List Nat) (kind : Int) (length : Nat) (seqno : Int) (link : Int)
    (hkind : kind = DL_DATA ∨ (kind = DL_ACK ∧ length = 0 ∧ msg = []))
    (hseq : seqno = 0 ∨ seqno = 1)
    (hlen : length ≤ E.MAX_MESSAGE_SIZE) (hmsg : length ≤ msg.length) :
    ∃ t w, transmit_frame E ni s u msg kind length seqno link = some t
      ∧ frames_written t = frames_written s ++ [(link, w)]
      ∧ ∀ (ni2 : NODEINFO) (s2 : NODE) (v : Nat → List Nat),
          w.length ≤ sizeof_FRAME E
          ∧ checksum_ok E (v 0) w
          ∧ physical_ready E ni2 s2 v w = stop_and_wait E ni2 s2 v (validated E (v 0) w)
          ∧ FRAME_kind (validated E (v 0) w) = kind
          ∧ FRAME_seq (validated E (v 0) w) = seqno
          ∧ FRAME_len (validated E (v 0) w) = length
          ∧ (FRAME_msg E (validated E (v 0) w)).take length = msg.take length := by
  obtain ⟨t, ht, hw⟩ := transmit_frame_wire E ni s u msg kind length seqno link hkind hlen hmsg
  refine ⟨t, _, ht, hw, ?_⟩
  intro ni2 s2 v
  have hb := FRAME_HEADER_SIZE_bounds E
  have hwl := wire_image_length E u kind length seqno msg hmsg hlen
  have h1 : 24 ≤ (wire_image E u kind length seqno msg).length := by omega
  have h2 : (wire_image E u kind length seqno msg).length ≤ sizeof_FRAME E := by omega
  have hc := wire_image_checksum_ok E u (v 0) kind length seqno msg hmsg hlen
  have hk : -2 ^ 31 ≤ kind ∧ kind < 2 ^ 31 := by
    rcases hkind with hk | ⟨hk, _, _⟩ <;> subst hk <;> decide
  have hs : -2 ^ 31 ≤ seqno ∧ seqno < 2 ^ 31 := by
    rcases hseq with hs | hs <;> subst hs <;> decide
  refine ⟨h2, hc, physical_ready_valid E ni2 s2 v _ h2 hc, ?_, ?_, ?_, ?_⟩
  · rw [validated_wire_kind E (v 0) _ h1 h2,
      wire_image_kind E u kind length seqno msg hmsg hlen hk.1 hk.2]
  · rw [validated_wire_seq E (v 0) _ h1 h2,
      wire_image_seq E u kind length seqno msg hmsg hlen hs.1 hs.2]
  · rw [validated_wire_len E (v 0) _ h1 h2, wire_image_len E u kind length seqno msg hmsg hlen]
  · rw [validated_wire_payload E (v 0) _ length (by omega) h2 hlen,
      wire_image_payload E u kind length seqno msg hmsg hlen]

/-- C10, at a concrete input: a DATA frame with sequence number 1 and the
payload `[5, 6]` taken from an 8-byte buffer. -/
theorem codec_round_trip_witness :
    ∃ t w, transmit_frame example_CNET example_host_A (reboot_node example_CNET example_host_A)
          (example_junk 1) [5, 6, 0, 0, 0, 0, 0, 0] DL_DATA 2 1 1 = some t
      ∧ frames_written t = frames_written (reboot_node example_CNET example_host_A) ++ [(1, w)]
      ∧ ∀ (ni2 : NODEINFO) (s2 : NODE) (v : Nat → List Nat),
          w.length ≤ sizeof_FRAME example_CNET
          ∧ checksum_ok example_CNET (v 0) w
          ∧ physical_ready example_CNET ni2 s2 v w
              = stop_and_wait example_CNET ni2 s2 v (validated example_CNET (v 0) w)
          ∧ FRAME_kind (validated example_CNET (v 0) w) = DL_DATA
          ∧ FRAME_seq (validated example_CNET (v 0) w) = 1
          ∧ FRAME_len (validated example_CNET (v 0) w) = 2
          ∧ (FRAME_msg example_CNET (validated example_CNET (v 0) w)).take 2
              = [5, 6, 0, 0, 0, 0, 0, 0].take 2 :=
  codec_round_trip example_CNET example_host_A _ (example_junk 1) [5, 6, 0, 0, 0, 0, 0, 0]
    DL_DATA 2 1 1 (Or.inl rfl) (Or.inr rfl) (by decide) (by decide)

/-! ## Timers -/

/-- C9. At most one active timer per node: in every state a node (host or
router) reaches from boot by any sequence of events (application messages
only while the application layer is enabled, expiry only of a running timer,
which the expiry consumes, arrival of any byte string), the timers started by
`transmit_frame` that have neither expired nor been stopped are none or
exactly one, and that one is `lasttimer`; hence a timer that expires in such
a state is always `lasttimer`, never a superseded one. -/
theorem at_most_one_timer (E : CNET) (ni : NODEINFO) (es : List EVENT) (s : NODE)
    (hrun : run E ni (reboot_node E ni) es = some s) :
    (s.timers = [] ∨ s.timers = [s.lasttimer])
      ∧ ∀ (u : Nat → List Nat) (timer : Nat) (t : NODE),
          raise E ni s (EVENT.EV_TIMER1 u timer) = some t → timer = s.lasttimer := by
  have hI := node_inv_run E ni es _ s (node_inv_reboot E ni) hrun
  refine ⟨hI.one_timer, ?_⟩
  intro u timer t ht
  simp only [raise] at ht
  split_ifs at ht with hc
  rcases hI.one_timer with h0 | h1
  · rw [h0] at hc; exact absurd hc (by simp)
  · rw [h1] at hc; simpa using hc

/-- C9, at a concrete input: host A of the example after it has sent a frame. -/
theorem at_most_one_timer_witness :
    (example_host_waiting.timers = [] ∨ example_host_waiting.timers = [example_host_waiting.lasttimer])
      ∧ ∀ (u : Nat → List Nat) (timer : Nat) (t : NODE),
          raise example_CNET example_host_A example_host_waiting (EVENT.EV_TIMER1 u timer) = some t →
            timer = example_host_waiting.lasttimer :=
  at_most_one_timer example_CNET example_host_A
    [EVENT.EV_APPLICATIONREADY example_junk [1, 2, 3]] example_host_waiting (by decide)

/-! ## Retransmission on timeout -/

theorem timeout_retransmits (E : CNET) (ni : NODEINFO) (es : List EVENT) (s : NODE)
    (u : Nat → List Nat) (timer : Nat)
    (hrun : run E ni (reboot_node E ni) es = some s) (htimer : timer ∈ s.timers) :
    ∃ t w0 w, raise E ni s (EVENT.EV_TIMER1 u timer) = some t
      ∧ last_DATA s = some w0
      ∧ t.actions = s.actions ++
          [ACTION.start_timer (timer_usec E ni (if ni.nodetype = CnetNodeType.NT_ROUTER then 2 else 1)
              s.lastlength) t.lasttimer,
           ACTION.write_physical (if ni.nodetype = CnetNodeType.NT_ROUTER then 2 else 1) w]
      ∧ FRAME_kind w = DL_DATA
      ∧ FRAME_seq w = s.ackexpected
      ∧ FRAME_len w = FRAME_len w0
      ∧ peek w 24 (FRAME_len w) = peek w0 24 (FRAME_len w0)
      ∧ ((if ni.nodetype = CnetNodeType.NT_ROUTER then s.frameexpected else s.nextframetosend)
          ≠ s.ackexpected → FRAME_seq w = FRAME_seq w0)
      ∧ t.timers = [t.lasttimer] ∧ t.lasttimer ∉ s.timers
      ∧ t.ackexpected = s.ackexpected ∧ t.nextframetosend = s.nextframetosend
      ∧ t.frameexpected = s.frameexpected ∧ t.SW_buffer_full = s.SW_buffer_full
      ∧ (ni.nodetype = CnetNodeType.NT_ROUTER → s.SW_buffer_full ≠ 0) := by
  have h := node_inv_run E ni es _ s (node_inv_reboot E ni) hrun
  have hm : s.lastlength ≤ s.lastmsg.length := by rw [h.msg_length]; exact h.length_le
  have hr := bit_range _ h.ackexpected_bit
  have hne : s.timers ≠ [] := List.ne_nil_of_mem htimer
  have hone : s.timers = [s.lasttimer] := h.one_timer.resolve_left hne
  have herase : s.timers.erase timer = [] := by
    rw [hone] at htimer ⊢
    simp only [List.mem_singleton] at htimer
    subst htimer
    simp
  obtain ⟨w0, hw1, _, hw3, hw4, hw5⟩ := h.sent hne
  have hl := wire_image_len E (u 1) DL_DATA s.lastlength s.ackexpected s.lastmsg hm h.length_le
  have hq := wire_image_seq E (u 1) DL_DATA s.lastlength s.ackexpected s.lastmsg hm h.length_le
    hr.1 hr.2
  refine ⟨after_DATA E ni { s with timers := s.timers.erase timer } (u 1) s.lastmsg s.lastlength
      s.ackexpected (if ni.nodetype = CnetNodeType.NT_ROUTER then 2 else 1),
    w0, wire_image E (u 1) DL_DATA s.lastlength s.ackexpected s.lastmsg, ?_, hw1, ?_,
    wire_image_kind E (u 1) DL_DATA _ _ _ hm h.length_le (by decide) (by decide), hq, ?_, ?_, ?_,
    ?_, ?_, ?_, ?_, ?_, ?_, ?_⟩
  · simp only [raise, htimer, if_true]
    exact timeouts_eq E ni { s with timers := s.timers.erase timer } u h.length_le hm
  · simp [after_DATA]
  · rw [hl, hw3]
  · rw [hl, hw3, hw4, wire_image_payload E (u 1) DL_DATA _ _ _ hm h.length_le]
  · intro hc; rw [hq, hw5 hc]
  · simp [after_DATA, herase]
  · have := h.timer_issued
    rw [hone]
    simp [after_DATA]
    omega
  · rfl
  · rfl
  · rfl
  · rfl
  · intro hrt hb
    exact hne (h.router_idle hrt hb)
/-- C5 as stated fails: host A of the example sends `[1, 2, 3]`, receives the
acknowledgement 0 and then an acknowledgement 1 (both checksum-valid), and
sends `[4, 5]`; every event is one the claim allows.  The DATA frame sent
last carries sequence number 1, and when timer 2 then expires the
retransmitted DATA frame carries sequence number 0. -/
theorem host_timeout_counterexample :
    checksum_ok example_CNET (example_junk 0) example_ACK0
    ∧ checksum_ok example_CNET (example_junk 0) example_ACK1
    ∧ ((run example_CNET example_host_A (reboot_node example_CNET example_host_A)
          example_host_events).bind last_DATA).map FRAME_seq = some 1
    ∧ ((run example_CNET example_host_A (reboot_node example_CNET example_host_A)
          (example_host_events ++ [EVENT.EV_TIMER1 example_junk 2])).bind last_DATA).map FRAME_seq
        = some 0 := by
  decide

/-- C5, amended. Host timeout: in every host state reached from boot by any
sequence of events, when a running timer expires the `timeouts` handler
returns, having written on link 1 exactly one frame, a DATA frame with the
length and payload of the DATA frame the host wrote last and with sequence
number `ackexpected`; that is the sequence number of the DATA frame written
last whenever `nextframetosend` differs from `ackexpected`.  The handler
starts a new timer, which is then the only one running, and leaves
`ackexpected`, `nextframetosend` and `frameexpected` unchanged. -/
theorem host_timeout_retransmits (E : CNET) (ni : NODEINFO) (es : List EVENT) (s : NODE)
    (u : Nat → List Nat) (timer : Nat)
    (hhost : ni.nodetype = CnetNodeType.NT_HOST)
    (hrun : run E ni (reboot_node E ni) es = some s) (htimer : timer ∈ s.timers) :
    ∃ t w0 w, raise E ni s (EVENT.EV_TIMER1 u timer) = some t
      ∧ last_DATA s = some w0
      ∧ t.actions = s.actions ++
          [ACTION.start_timer (timer_usec E ni 1 s.lastlength) t.lasttimer,
           ACTION.write_physical 1 w]
      ∧ FRAME_kind w = DL_DATA
      ∧ FRAME_seq w = s.ackexpected
      ∧ FRAME_len w = FRAME_len w0
      ∧ peek w 24 (FRAME_len w) = peek w0 24 (FRAME_len w0)
      ∧ (s.nextframetosend ≠ s.ackexpected → FRAME_seq w = FRAME_seq w0)
      ∧ t.timers = [t.lasttimer] ∧ t.lasttimer ∉ s.timers
      ∧ t.ackexpected = s.ackexpected ∧ t.nextframetosend = s.nextframetosend
      ∧ t.frameexpected = s.frameexpected := by
  have hnr : ¬ ni.nodetype = CnetNodeType.NT_ROUTER := by rw [hhost]; decide
  obtain ⟨t, w0, w, h1, h2, h3, h4, h5, h6, h7, h8, h9, h10, h11, h12, h13, _, _⟩ :=
    timeout_retransmits E ni es s u timer hrun htimer
  rw [if_neg hnr] at h3 h8
  exact ⟨t, w0, w, h1, h2, h3, h4, h5, h6, h7, h8, h9, h10, h11, h12, h13⟩

/-- C5 amended, at a concrete input: host A of the example has sent
`[1, 2, 3]` and its timer 1 expires. -/
theorem host_timeout_retransmits_witness :
    ∃ t w0 w, raise example_CNET example_host_A example_host_waiting
          (EVENT.EV_TIMER1 example_junk 1) = some t
      ∧ last_DATA example_host_waiting = some w0
      ∧ t.actions = example_host_waiting.actions ++
          [ACTION.start_timer (timer_usec example_CNET example_host_A 1
              example_host_waiting.lastlength) t.lasttimer,
           ACTION.write_physical 1 w]
      ∧ FRAME_kind w = DL_DATA
      ∧ FRAME_seq w = example_host_waiting.ackexpected
      ∧ FRAME_len w = FRAME_len w0
      ∧ peek w 24 (FRAME_len w) = peek w0 24 (FRAME_len w0)
      ∧ (example_host_waiting.nextframetosend ≠ example_host_waiting.ackexpected →
          FRAME_seq w = FRAME_seq w0)
      ∧ t.timers = [t.lasttimer] ∧ t.lasttimer ∉ example_host_waiting.timers
      ∧ t.ackexpected = example_host_waiting.ackexpected
      ∧ t.nextframetosend = example_host_waiting.nextframetosend
      ∧ t.frameexpected = example_host_waiting.frameexpected :=
  host_timeout_retransmits example_CNET example_host_A
    [EVENT.EV_APPLICATIONREADY example_junk [1, 2, 3]] example_host_waiting example_junk 1
    rfl (by decide) (by decide)

/-- C6 as stated fails: the router of the example forwards a DATA frame 0,
receives the acknowledgement 0 and then an acknowledgement 1 (all
checksum-valid), and forwards a DATA frame 1; every event is one the claim
allows.  Its buffer is full, the DATA frame forwarded last carries sequence
number 1, and when timer 2 then expires the retransmitted DATA frame carries
sequence number 0. -/
theorem router_timeout_counterexample :
    checksum_ok example_CNET (example_junk 0) example_DATA0
    ∧ checksum_ok example_CNET (example_junk 0) example_ACK0
    ∧ checksum_ok example_CNET (example_junk 0) example_ACK1
    ∧ checksum_ok example_CNET (example_junk 0) example_DATA1
    ∧ (run example_CNET example_router (reboot_node example_CNET example_router)
          example_router_events).map (fun s => s.SW_buffer_full) = some 1
    ∧ ((run example_CNET example_router (reboot_node example_CNET example_router)
          example_router_events).bind last_DATA).map FRAME_seq = some 1
    ∧ ((run example_CNET example_router (reboot_node example_CNET example_router)
          (example_router_events ++ [EVENT.EV_TIMER1 example_junk 2])).bind last_DATA).map
        FRAME_seq = some 0 := by
  decide

/-- C6, amended. Router timeout: in every router state reached from boot by
any sequence of events, when a running timer expires the buffer is full and
the `timeouts` handler returns, having written on link 2 exactly one frame, a
DATA frame with the length and payload of the DATA frame the router forwarded
last and with sequence number `ackexpected`; that is the sequence number of
the DATA frame forwarded last whenever `frameexpected` differs from
`ackexpected`.  The handler starts a new timer, which is then the only one
running. -/
theorem router_timeout_retransmits (E : CNET) (ni : NODEINFO) (es : List EVENT) (s : NODE)
    (u : Nat → List Nat) (timer : Nat)
    (hrouter : ni.nodetype = CnetNodeType.NT_ROUTER)
    (hrun : run E ni (reboot_node E ni) es = some s) (htimer : timer ∈ s.timers) :
    ∃ t w0 w, raise E ni s (EVENT.EV_TIMER1 u timer) = some t
      ∧ s.SW_buffer_full ≠ 0
      ∧ last_DATA s = some w0
      ∧ t.actions = s.actions ++
          [ACTION.start_timer (timer_usec E ni 2 s.lastlength) t.lasttimer,
           ACTION.write_physical 2 w]
      ∧ FRAME_kind w = DL_DATA
      ∧ FRAME_seq w = s.ackexpected
      ∧ FRAME_len w = FRAME_len w0
      ∧ peek w 24 (FRAME_len w) = peek w0 24 (FRAME_len w0)
      ∧ (s.frameexpected ≠ s.ackexpected → FRAME_seq w = FRAME_seq w0)
      ∧ t.timers = [t.lasttimer] ∧ t.lasttimer ∉ s.timers
      ∧ t.SW_buffer_full = s.SW_buffer_full := by
  obtain ⟨t, w0, w, h1, h2, h3, h4, h5, h6, h7, h8, h9, h10, _, _, _, h14, h15⟩ :=
    timeout_retransmits E ni es s u timer hrun htimer
  rw [if_pos hrouter] at h3 h8
  exact ⟨t, w0, w, h1, h15 hrouter, h2, h3, h4, h5, h6, h7, h8, h9, h10, h14⟩

/-- C6 amended, at a concrete input: the router of the example has
forwarded a DATA frame and its timer 1 expires. -/
theorem router_timeout_retransmits_witness :
    ∃ t w0 w, raise example_CNET example_router example_router_waiting
          (EVENT.EV_TIMER1 example_junk 1) = some t
      ∧ example_router_waiting.SW_buffer_full ≠ 0
      ∧ last_DATA example_router_waiting = some w0
      ∧ t.actions = example_router_waiting.actions ++
          [ACTION.start_timer (timer_usec example_CNET example_router 2
              example_router_waiting.lastlength) t.lasttimer,
           ACTION.write_physical 2 w]
      ∧ FRAME_kind w = DL_DATA
      ∧ FRAME_seq w = example_router_waiting.ackexpected
      ∧ FRAME_len w = FRAME_len w0
      ∧ peek w 24 (FRAME_len w) = peek w0 24 (FRAME_len w0)
      ∧ (example_router_waiting.frameexpected ≠ example_router_waiting.ackexpected →
          FRAME_seq w = FRAME_seq w0)
      ∧ t.timers = [t.lasttimer] ∧ t.lasttimer ∉ example_router_waiting.timers
      ∧ t.SW_buffer_full = example_router_waiting.SW_buffer_full :=
  router_timeout_retransmits example_CNET example_router
    [EVENT.EV_PHYSICALREADY example_junk example_DATA0] example_router_waiting example_junk 1
    rfl (by decide) (by decide)

/-! ## Runs of the two-host network -/

theorem length_le_poke_zero (mem w : List Nat) : w.length ≤ (poke mem 0 w).length := by
  simp [poke]

theorem is_frame_wire_image (E : CNET) (x : List Nat) (kind : Int) (length : Nat) (seqno : Int)
    (msg : List Nat) (hm : length ≤ msg.length) (hl : length ≤ E.MAX_MESSAGE_SIZE)
    (hk : kind = DL_DATA ∨ kind = DL_ACK) (hq : seqno = 0 ∨ seqno = 1) :
    is_frame (wire_image E x kind length seqno msg) kind seqno (msg.take length) := by
  have hk' := bit_range kind hk
  have hq' := bit_range seqno hq
  have e : (msg.take length).length = length := by simp; omega
  refine ⟨wire_image_kind E x kind length seqno msg hm hl hk'.1 hk'.2,
    wire_image_seq E x kind length seqno msg hm hl hq'.1 hq'.2, ?_, ?_⟩
  · rw [wire_image_len E x kind length seqno msg hm hl, e]
  · rw [wire_image_len E x kind length seqno msg hm hl]
    exact wire_image_payload E x kind length seqno msg hm hl

theorem is_frame_DATA (E : CNET) (x : List Nat) (seqno : Int) (mem P : List Nat)
    (hl : P.length ≤ E.MAX_MESSAGE_SIZE) (hq : seqno = 0 ∨ seqno = 1) :
    is_frame (wire_image E x DL_DATA P.length seqno (poke mem 0 P)) DL_DATA seqno P := by
  have h := is_frame_wire_image E x DL_DATA P.length seqno (poke mem 0 P)
    (length_le_poke_zero mem P) hl (Or.inl rfl) hq
  rw [take_poke_zero] at h
  exact h

theorem is_frame_ACK (E : CNET) (x : List Nat) (seqno : Int) (hq : seqno = 0 ∨ seqno = 1) :
    is_frame (wire_image E x DL_ACK 0 seqno []) DL_ACK seqno [] := by
  have h := is_frame_wire_image E x DL_ACK 0 seqno [] (by simp) (by omega) (Or.inr rfl) hq
  simpa using h

/-- C1 as stated fails: in the example, after the acknowledgement was lost,
A's timer 1 expired and B received the retransmission, nothing is in flight,
B has written one frame only (the lost ACK), and A's timer 2 is running: the
timer was not cancelled after the one retransmission, a further expiry is
pending. -/
theorem ack_loss_counterexample :
    (run2 example_CNET example_host_A example_host_B
        (boot2 example_CNET example_host_A example_host_B) example_ack_loss).map
      (fun n => (n.A.timers, n.toA, n.toB, (frames_written n.B).length, (frames_written n.A).length))
      = some ([2], [], [], 1, 2) := by
  decide

/-- C1, amended. ACK loss between two hosts, from boot: A reads `P1` and
sends it, B accepts it and acknowledges, the acknowledgement is lost, A's
timer expires and A retransmits, the retransmission reaches B.  The run
exists and ends with no frame in flight in either direction.  A has written
exactly two frames, both DATA frames with sequence number 0 and payload `P1`
(the original and one retransmission); B has written `P1` to its application
exactly once and has written exactly one frame, the lost ACK, so it sent no
acknowledgement for the retransmission.  A's second timer is therefore still
running (it is `lasttimer`), A still expects acknowledgement 0 and its
application layer is still disabled: a further expiry is pending. -/
theorem ack_loss_run (E : CNET) (niA niB : NODEINFO) (P1 : List Nat)
    (u1 u2 u3 u4 : Nat → List Nat)
    (hA : niA.nodetype = CnetNodeType.NT_HOST) (hA0 : niA.nodenumber = 0)
    (hB : niB.nodetype = CnetNodeType.NT_HOST) (hB0 : niB.nodenumber ≠ 0)
    (hP : P1.length ≤ E.MAX_MESSAGE_SIZE) :
    ∃ n d1 d2 a, run2 E niA niB (boot2 E niA niB)
        [EVENT2.application END2.A u1 P1, EVENT2.arrival END2.B u2, EVENT2.loss END2.A 0,
          EVENT2.expiry END2.A u3 1, EVENT2.arrival END2.B u4] = some n
      ∧ n.toA = [] ∧ n.toB = []
      ∧ frames_written n.A = [(1, d1), (1, d2)]
      ∧ is_frame d1 DL_DATA 0 P1 ∧ is_frame d2 DL_DATA 0 P1
      ∧ messages_written n.B = [P1]
      ∧ frames_written n.B = [(1, a)] ∧ is_frame a DL_ACK 0 []
      ∧ n.A.timers = [n.A.lasttimer] ∧ n.A.timers ≠ []
      ∧ n.A.ackexpected = 0 ∧ n.A.application_enabled = false
      ∧ n.B.timers = [] ∧ n.B.application_enabled = false := by
  have hm := length_le_poke_zero (List.replicate E.MAX_MESSAGE_SIZE 0) P1
  have hnrA : niA.nodetype ≠ CnetNodeType.NT_ROUTER := by rw [hA]; decide
  have hnrB : niB.nodetype ≠ CnetNodeType.NT_ROUTER := by rw [hB]; decide
  have hd1 := is_frame_DATA E (u1 1) 0 (List.replicate E.MAX_MESSAGE_SIZE 0) P1 hP (Or.inl rfl)
  have hd2 := is_frame_DATA E (u3 1) 0 (List.replicate E.MAX_MESSAGE_SIZE 0) P1 hP (Or.inl rfl)
  have ha := is_frame_ACK E (u2 1) 0 (Or.inl rfl)
  refine ⟨?n, wire_image E (u1 1) DL_DATA P1.length 0 (poke (List.replicate E.MAX_MESSAGE_SIZE 0) 0 P1),
    wire_image E (u3 1) DL_DATA P1.length 0 (poke (List.replicate E.MAX_MESSAGE_SIZE 0) 0 P1),
    wire_image E (u2 1) DL_ACK 0 0 [], ?_, ?_⟩
  case n =>
    exact
      { A := { lastmsg := poke (List.replicate E.MAX_MESSAGE_SIZE 0) 0 P1, lastlength := P1.length,
               lasttimer := 2, ackexpected := 0, nextframetosend := 1, frameexpected := 0,
               SW_buffer_full := 0, timers := [2], timerids := 2, application_enabled := false,
               actions := [ACTION.enable_application, ACTION.disable_application,
                 ACTION.start_timer (timer_usec E niA 1 P1.length) 1,
                 ACTION.write_physical 1 (wire_image E (u1 1) DL_DATA P1.length 0
                   (poke (List.replicate E.MAX_MESSAGE_SIZE 0) 0 P1)),
                 ACTION.start_timer (timer_usec E niA 1 P1.length) 2,
                 ACTION.write_physical 1 (wire_image E (u3 1) DL_DATA P1.length 0
                   (poke (List.replicate E.MAX_MESSAGE_SIZE 0) 0 P1))] }
        B := { lastmsg := List.replicate E.MAX_MESSAGE_SIZE 0, lastlength := 0, lasttimer := 0,
               ackexpected := 0, nextframetosend := 0, frameexpected := 1, SW_buffer_full := 0,
               timers := [], timerids := 0, application_enabled := false,
               actions := [ACTION.write_application P1,
                 ACTION.write_physical 1 (wire_image E (u2 1) DL_ACK 0 0 [])] }
        toB := []
        toA := [] }
  · rw [run2]
    simp only [step2, boot2, raise, reboot_node_zero E niA hA0, reboot_node_other E niB hB0,
      hA, true_and, if_true, application_ready_eq E niA _ u1 P1 hP, Option.map_some',
      NET2.after]
    simp only [after_DATA, new_frames, frames_written]
    simp
    rw [run2]
    simp [step2, raise, host_receives_DATA, hnrB, hm, hP, NET2.after, after_ACK, new_frames,
      frames_written, take_poke_zero]
    rw [run2]
    simp [step2]
    rw [run2]
    simp [step2, raise, timeouts_eq, hnrA, hA, hm, hP, NET2.after, after_DATA, new_frames,
      frames_written]
    rw [run2]
    simp [step2, raise, host_ignores_DATA, hnrB, hm, hP, NET2.after, new_frames,
      frames_written]
    rw [run2]
  · simp [frames_written, messages_written]
    exact ⟨hd1, hd2, ha⟩

/-- C1 amended, at a concrete input: the hosts of the example and the
payload `[1, 2, 3]`. -/
theorem ack_loss_run_witness :
    ∃ n d1 d2 a, run2 example_CNET example_host_A example_host_B
        (boot2 example_CNET example_host_A example_host_B)
        [EVENT2.application END2.A example_junk [1, 2, 3], EVENT2.arrival END2.B example_junk,
          EVENT2.loss END2.A 0, EVENT2.expiry END2.A example_junk 1,
          EVENT2.arrival END2.B example_junk] = some n
      ∧ n.toA = [] ∧ n.toB = []
      ∧ frames_written n.A = [(1, d1), (1, d2)]
      ∧ is_frame d1 DL_DATA 0 [1, 2, 3] ∧ is_frame d2 DL_DATA 0 [1, 2, 3]
      ∧ messages_written n.B = [[1, 2, 3]]
      ∧ frames_written n.B = [(1, a)] ∧ is_frame a DL_ACK 0 []
      ∧ n.A.timers = [n.A.lasttimer] ∧ n.A.timers ≠ []
      ∧ n.A.ackexpected = 0 ∧ n.A.application_enabled = false
      ∧ n.B.timers = [] ∧ n.B.application_enabled = false :=
  ack_loss_run example_CNET example_host_A example_host_B [1, 2, 3]
    example_junk example_junk example_junk example_junk rfl rfl rfl (by decide) (by decide)

/-- C3. Loss-free in-order delivery between two hosts, from boot: A reads
`P1`, `P2`, `P3` (each when its application layer is enabled), every frame
written is delivered and no timer expires.  The run exists and ends with
nothing in flight.  B has written to its application exactly `P1`, `P2`,
`P3`, in that order and unchanged.  A has written exactly three frames, DATA
frames with sequence numbers 0, 1, 0 carrying `P1`, `P2`, `P3`; B has
written exactly three frames, ACK frames without payload with sequence
numbers 0, 1, 0: one ACK per DATA frame.  No timer is left running at A. -/
theorem loss_free_delivery (E : CNET) (niA niB : NODEINFO) (P1 P2 P3 : List Nat)
    (u1 u2 u3 u4 u5 u6 u7 u8 u9 : Nat → List Nat)
    (hA : niA.nodetype = CnetNodeType.NT_HOST) (hA0 : niA.nodenumber = 0)
    (hB : niB.nodetype = CnetNodeType.NT_HOST) (hB0 : niB.nodenumber ≠ 0)
    (hP1 : P1.length ≤ E.MAX_MESSAGE_SIZE) (hP2 : P2.length ≤ E.MAX_MESSAGE_SIZE)
    (hP3 : P3.length ≤ E.MAX_MESSAGE_SIZE) :
    ∃ n d1 d2 d3 a1 a2 a3, run2 E niA niB (boot2 E niA niB)
        [EVENT2.application END2.A u1 P1, EVENT2.arrival END2.B u2, EVENT2.arrival END2.A u3,
         EVENT2.application END2.A u4 P2, EVENT2.arrival END2.B u5, EVENT2.arrival END2.A u6,
         EVENT2.application END2.A u7 P3, EVENT2.arrival END2.B u8, EVENT2.arrival END2.A u9]
        = some n
      ∧ n.toA = [] ∧ n.toB = []
      ∧ messages_written n.B = [P1, P2, P3]
      ∧ frames_written n.A = [(1, d1), (1, d2), (1, d3)]
      ∧ is_frame d1 DL_DATA 0 P1 ∧ is_frame d2 DL_DATA 1 P2 ∧ is_frame d3 DL_DATA 0 P3
      ∧ frames_written n.B = [(1, a1), (1, a2), (1, a3)]
      ∧ is_frame a1 DL_ACK 0 [] ∧ is_frame a2 DL_ACK 1 [] ∧ is_frame a3 DL_ACK 0 []
      ∧ n.A.timers = [] ∧ n.B.timers = [] := by
  have hnrA : niA.nodetype ≠ CnetNodeType.NT_ROUTER := by rw [hA]; decide
  have hnrB : niB.nodetype ≠ CnetNodeType.NT_ROUTER := by rw [hB]; decide
  have hd1 := is_frame_DATA E (u1 1) 0 (List.replicate E.MAX_MESSAGE_SIZE 0) P1 hP1 (Or.inl rfl)
  have hd2 := is_frame_DATA E (u4 1) 1 (poke (List.replicate E.MAX_MESSAGE_SIZE 0) 0 P1) P2 hP2
    (Or.inr rfl)
  have hd3 := is_frame_DATA E (u7 1) 0
    (poke (poke (List.replicate E.MAX_MESSAGE_SIZE 0) 0 P1) 0 P2) P3 hP3 (Or.inl rfl)
  have ha1 := is_frame_ACK E (u2 1) 0 (Or.inl rfl)
  have ha2 := is_frame_ACK E (u5 1) 1 (Or.inr rfl)
  have ha3 := is_frame_ACK E (u8 1) 0 (Or.inl rfl)
  generalize hr : run2 E niA niB (boot2 E niA niB) _ = r
  rw [run2] at hr
  simp only [step2, boot2, raise, reboot_node_zero E niA hA0, reboot_node_other E niB hB0,
    hA, true_and, if_true, application_ready_eq E niA _ u1 P1 hP1, Option.map_some',
    NET2.after] at hr
  simp only [after_DATA, new_frames, frames_written] at hr
  simp at hr
  rw [run2] at hr
  simp [step2, raise, host_receives_DATA, hnrB, length_le_poke_zero, hP1, NET2.after,
    after_ACK, new_frames, frames_written, take_poke_zero] at hr
  rw [run2] at hr
  simp [step2, raise, host_receives_ACK, hnrA, NET2.after, new_frames, frames_written] at hr
  rw [run2] at hr
  simp [step2, raise, hA, application_ready_eq, hP2, NET2.after, after_DATA, new_frames,
    frames_written] at hr
  rw [run2] at hr
  simp [step2, raise, host_receives_DATA, hnrB, length_le_poke_zero, hP2, NET2.after,
    after_ACK, new_frames, frames_written, take_poke_zero] at hr
  rw [run2] at hr
  simp [step2, raise, host_receives_ACK, hnrA, NET2.after, new_frames, frames_written] at hr
  rw [run2] at hr
  simp [step2, raise, hA, application_ready_eq, hP3, NET2.after, after_DATA, new_frames,
    frames_written] at hr
  rw [run2] at hr
  simp [step2, raise, host_receives_DATA, hnrB, length_le_poke_zero, hP3, NET2.after,
    after_ACK, new_frames, frames_written, take_poke_zero] at hr
  rw [run2] at hr
  simp [step2, raise, host_receives_ACK, hnrA, NET2.after, new_frames, frames_written] at hr
  rw [run2] at hr
  subst hr
  refine ⟨_, wire_image E (u1 1) DL_DATA P1.length 0 (poke (List.replicate E.MAX_MESSAGE_SIZE 0) 0 P1),
    wire_image E (u4 1) DL_DATA P2.length 1 (poke (poke (List.replicate E.MAX_MESSAGE_SIZE 0) 0 P1) 0 P2),
    wire_image E (u7 1) DL_DATA P3.length 0
      (poke (poke (poke (List.replicate E.MAX_MESSAGE_SIZE 0) 0 P1) 0 P2) 0 P3),
    wire_image E (u2 1) DL_ACK 0 0 [], wire_image E (u5 1) DL_ACK 0 1 [],
    wire_image E (u8 1) DL_ACK 0 0 [], rfl, ?_⟩
  simp [frames_written, messages_written]
  exact ⟨hd1, hd2, hd3, ha1, ha2, ha3⟩

/-- C3, at a concrete input: the hosts of the example and the payloads
`[1, 2, 3]`, `[4, 5]`, `[6]`. -/
theorem loss_free_delivery_witness :
    ∃ n d1 d2 d3 a1 a2 a3, run2 example_CNET example_host_A example_host_B
        (boot2 example_CNET example_host_A example_host_B)
        [EVENT2.application END2.A example_junk [1, 2, 3], EVENT2.arrival END2.B example_junk,
         EVENT2.arrival END2.A example_junk,
         EVENT2.application END2.A example_junk [4, 5], EVENT2.arrival END2.B example_junk,
         EVENT2.arrival END2.A example_junk,
         EVENT2.application END2.A example_junk [6], EVENT2.arrival END2.B example_junk,
         EVENT2.arrival END2.A example_junk]
        = some n
      ∧ n.toA = [] ∧ n.toB = []
      ∧ messages_written n.B = [[1, 2, 3], [4, 5], [6]]
      ∧ frames_written n.A = [(1, d1), (1, d2), (1, d3)]
      ∧ is_frame d1 DL_DATA 0 [1, 2, 3] ∧ is_frame d2 DL_DATA 1 [4, 5]
      ∧ is_frame d3 DL_DATA 0 [6]
      ∧ frames_written n.B = [(1, a1), (1, a2), (1, a3)]
      ∧ is_frame a1 DL_ACK 0 [] ∧ is_frame a2 DL_ACK 1 [] ∧ is_frame a3 DL_ACK 0 []
      ∧ n.A.timers = [] ∧ n.B.timers = [] :=
  loss_free_delivery example_CNET example_host_A example_host_B [1, 2, 3] [4, 5] [6]
    example_junk example_junk example_junk example_junk example_junk example_junk example_junk
    example_junk example_junk rfl rfl rfl (by decide) (by decide) (by decide) (by decide)

/-! ## The three-node relay -/

/-- C4. Three-node relay, from boot: host A (node 0) reads one payload `P`
and every frame written is delivered, in any of the three orders the
topology allows, with no loss and no timer expiry.  The run exists.  The
frames written are, in this order, exactly: a DATA frame with sequence number
0 and payload `P` by A on its link 1, an ACK with sequence number 0 by the
router on its link 1, a DATA frame with sequence number 0 and payload `P` by
the router on its link 2, an ACK with sequence number 0 by B on its link 1.
B has written `P`, unchanged, to its application, once.  At the end the
router's buffer is empty, no timer runs at A or at the router, and nothing is
in flight. -/
theorem relay_run (E : CNET) (niA niR niB : NODEINFO) (P : List Nat)
    (u1 u2 u3 u4 u5 : Nat → List Nat) (order : List EVENT3)
    (hA : niA.nodetype = CnetNodeType.NT_HOST) (hA0 : niA.nodenumber = 0)
    (hR : niR.nodetype = CnetNodeType.NT_ROUTER) (hR0 : niR.nodenumber ≠ 0)
    (hB : niB.nodetype = CnetNodeType.NT_HOST) (hB0 : niB.nodenumber ≠ 0)
    (hP : P.length ≤ E.MAX_MESSAGE_SIZE)
    (horder : order = [EVENT3.arrival HOP3.RA u3, EVENT3.arrival HOP3.RB u4,
          EVENT3.arrival HOP3.BR u5]
      ∨ order = [EVENT3.arrival HOP3.RB u4, EVENT3.arrival HOP3.RA u3,
          EVENT3.arrival HOP3.BR u5]
      ∨ order = [EVENT3.arrival HOP3.RB u4, EVENT3.arrival HOP3.BR u5,
          EVENT3.arrival HOP3.RA u3]) :
    ∃ n d1 a1 d2 a2, run3 E niA niR niB (boot3 E niA niR niB)
        (EVENT3.application NODE3.A u1 P :: EVENT3.arrival HOP3.AR u2 :: order) = some n
      ∧ n.emitted = [(NODE3.A, 1, d1), (NODE3.R, 1, a1), (NODE3.R, 2, d2), (NODE3.B, 1, a2)]
      ∧ is_frame d1 DL_DATA 0 P ∧ is_frame a1 DL_ACK 0 []
      ∧ is_frame d2 DL_DATA 0 P ∧ is_frame a2 DL_ACK 0 []
      ∧ messages_written n.B = [P]
      ∧ n.R.SW_buffer_full = 0 ∧ n.A.timers = [] ∧ n.R.timers = []
      ∧ n.AR = [] ∧ n.RA = [] ∧ n.RB = [] ∧ n.BR = [] := by
  have hnrA : niA.nodetype ≠ CnetNodeType.NT_ROUTER := by rw [hA]; decide
  have hnrB : niB.nodetype ≠ CnetNodeType.NT_ROUTER := by rw [hB]; decide
  have hnhR : ¬ niR.nodetype = CnetNodeType.NT_HOST := by rw [hR]; decide
  have hd1 := is_frame_DATA E (u1 1) 0 (List.replicate E.MAX_MESSAGE_SIZE 0) P hP (Or.inl rfl)
  have hd2 := is_frame_DATA E (u2 2) 0 (List.replicate E.MAX_MESSAGE_SIZE 0) P hP (Or.inl rfl)
  have ha1 := is_frame_ACK E (u2 1) 0 (Or.inl rfl)
  have ha2 := is_frame_ACK E (u4 1) 0 (Or.inl rfl)
  generalize hr : run3 E niA niR niB (boot3 E niA niR niB) _ = r
  rw [run3] at hr
  simp only [step3, boot3, raise, reboot_node_zero E niA hA0, reboot_node_other E niR hR0,
    reboot_node_other E niB hB0, hA, true_and, if_true, application_ready_eq E niA _ u1 P hP,
    Option.map_some', NET3.after] at hr
  simp only [after_DATA, new_frames, frames_written, emitted_by] at hr
  simp at hr
  rw [run3] at hr
  simp [step3, raise, router_receives_DATA, hR, length_le_poke_zero, hP, NET3.after,
    after_ACK, after_DATA, new_frames, frames_written, emitted_by, take_poke_zero] at hr
  have fin : ∀ n : NET3, n.emitted = [(NODE3.A, 1, wire_image E (u1 1) DL_DATA P.length 0
          (poke (List.replicate E.MAX_MESSAGE_SIZE 0) 0 P)),
        (NODE3.R, 1, wire_image E (u2 1) DL_ACK 0 0 []),
        (NODE3.R, 2, wire_image E (u2 2) DL_DATA P.length 0
          (poke (List.replicate E.MAX_MESSAGE_SIZE 0) 0 P)),
        (NODE3.B, 1, wire_image E (u4 1) DL_ACK 0 0 [])] →
      messages_written n.B = [P] → n.R.SW_buffer_full = 0 → n.A.timers = [] → n.R.timers = [] →
      n.AR = [] → n.RA = [] → n.RB = [] → n.BR = [] → r = some n →
      ∃ n d1 a1 d2 a2, r = some n
        ∧ n.emitted = [(NODE3.A, 1, d1), (NODE3.R, 1, a1), (NODE3.R, 2, d2), (NODE3.B, 1, a2)]
        ∧ is_frame d1 DL_DATA 0 P ∧ is_frame a1 DL_ACK 0 []
        ∧ is_frame d2 DL_DATA 0 P ∧ is_frame a2 DL_ACK 0 []
        ∧ messages_written n.B = [P]
        ∧ n.R.SW_buffer_full = 0 ∧ n.A.timers = [] ∧ n.R.timers = []
        ∧ n.AR = [] ∧ n.RA = [] ∧ n.RB = [] ∧ n.BR = [] :=
    fun n h1 h2 h3 h4 h5 h6 h7 h8 h9 h10 =>
      ⟨n, _, _, _, _, h10, h1, hd1, ha1, hd2, ha2, h2, h3, h4, h5, h6, h7, h8, h9⟩
  rcases horder with ho | ho | ho <;> subst ho
  · rw [run3] at hr
    simp [step3, raise, host_receives_ACK, hnrA, NET3.after, new_frames, frames_written,
      emitted_by] at hr
    rw [run3] at hr
    simp [step3, raise, host_receives_DATA, hnrB, length_le_poke_zero, hP, NET3.after,
      after_ACK, new_frames, frames_written, emitted_by, take_poke_zero] at hr
    rw [run3] at hr
    simp [step3, raise, router_receives_ACK, hR, NET3.after, new_frames, frames_written,
      emitted_by] at hr
    rw [run3] at hr
    exact fin _ (by simp) (by simp [messages_written]) rfl rfl rfl rfl rfl rfl rfl hr.symm
  · rw [run3] at hr
    simp [step3, raise, host_receives_DATA, hnrB, length_le_poke_zero, hP, NET3.after,
      after_ACK, new_frames, frames_written, emitted_by, take_poke_zero] at hr
    rw [run3] at hr
    simp [step3, raise, host_receives_ACK, hnrA, NET3.after, new_frames, frames_written,
      emitted_by] at hr
    rw [run3] at hr
    simp [step3, raise, router_receives_ACK, hR, NET3.after, new_frames, frames_written,
      emitted_by] at hr
    rw [run3] at hr
    exact fin _ (by simp) (by simp [messages_written]) rfl rfl rfl rfl rfl rfl rfl hr.symm
  · rw [run3] at hr
    simp [step3, raise, host_receives_DATA, hnrB, length_le_poke_zero, hP, NET3.after,
      after_ACK, new_frames, frames_written, emitted_by, take_poke_zero] at hr
    rw [run3] at hr
    simp [step3, raise, router_receives_ACK, hR, NET3.after, new_frames, frames_written,
      emitted_by] at hr
    rw [run3] at hr
    simp [step3, raise, host_receives_ACK, hnrA, NET3.after, new_frames, frames_written,
      emitted_by] at hr
    rw [run3] at hr
    exact fin _ (by simp) (by simp [messages_written]) rfl rfl rfl rfl rfl rfl rfl hr.symm

/-- C4, at a concrete input: the nodes of the example and the payload
`[1, 2, 3]`, the router's ACK reaching A before the forwarded frame reaches B. -/
theorem relay_run_witness :
    ∃ n d1 a1 d2 a2, run3 example_CNET example_host_A example_router example_host_B
        (boot3 example_CNET example_host_A example_router example_host_B)
        (EVENT3.application NODE3.A example_junk [1, 2, 3] :: EVENT3.arrival HOP3.AR example_junk
          :: [EVENT3.arrival HOP3.RA example_junk, EVENT3.arrival HOP3.RB example_junk,
              EVENT3.arrival HOP3.BR example_junk]) = some n
      ∧ n.emitted = [(NODE3.A, 1, d1), (NODE3.R, 1, a1), (NODE3.R, 2, d2), (NODE3.B, 1, a2)]
      ∧ is_frame d1 DL_DATA 0 [1, 2, 3] ∧ is_frame a1 DL_ACK 0 []
      ∧ is_frame d2 DL_DATA 0 [1, 2, 3] ∧ is_frame a2 DL_ACK 0 []
      ∧ messages_written n.B = [[1, 2, 3]]
      ∧ n.R.SW_buffer_full = 0 ∧ n.A.timers = [] ∧ n.R.timers = []
      ∧ n.AR = [] ∧ n.RA = [] ∧ n.RB = [] ∧ n.BR = [] :=
  relay_run example_CNET example_host_A example_router example_host_B [1, 2, 3]
    example_junk example_junk example_junk example_junk example_junk _
    rfl rfl rfl (by decide) rfl (by decide) (by decide) (Or.inl rfl)

/-! ## The invariant of the two-host network is kept by every event -/

theorem net_inv_boot (E : CNET) (niA niB : NODEINFO) (hA0 : niA.nodenumber = 0)
    (hB0 : niB.nodenumber ≠ 0) : net_inv E niA niB (boot2 E niA niB) := by
  refine ⟨node_inv_reboot E niA, node_inv_reboot E niB, ?_, ?_, ?_, ?_, ?_⟩
  · simp [boot2, reboot_node_zero E niA hA0, acks_accepted]
  · intro _; simp [boot2, reboot_node_zero E niA hA0, acks_accepted, messages_read]
  · intro h; simp [boot2, reboot_node_zero E niA hA0] at h
  · simp [boot2, reboot_node_other E niB hB0]
  · left
    refine ⟨?_, ?_, [], [], ?_, ?_, ?_, ?_⟩ <;>
      simp [boot2, reboot_node_zero E niA hA0, reboot_node_other E niB hB0]

theorem net_inv_application_A (E : CNET) (niA niB : NODEINFO) (n : NET2) (t : NODE)
    (u : Nat → List Nat) (msg : List Nat) (h : net_inv E niA niB n)
    (ht : raise E niA n.A (EVENT.EV_APPLICATIONREADY u msg) = some t) :
    net_inv E niA niB (n.after END2.A t) := by
  have hI := node_inv_raise E niA n.A t _ h.invA ht
  obtain ⟨s1, s2, s3, s4, s5, s6, _, _, s9, s10, s11⟩ := summary_application E niA n.A t u msg ht
  have hnr : niA.nodetype ≠ CnetNodeType.NT_ROUTER := by rw [s2]; decide
  have hidle := h.invA.host_idle hnr s1
  obtain ⟨hi1, hi2⟩ := h.idle hidle
  have hne : t.timers ≠ [] := by rw [s4]; simp
  rcases h.window with ⟨w1, w2, l1, l2, w3, w4, w5, w6⟩ | ⟨_, w2, _, _⟩
  · have hl2 := w6 hidle
    subst hl2
    refine ⟨hI, h.invB, ?_, fun hc => absurd hc hne, ?_, h.quietB, ?_⟩
    · show t.ackexpected = ((acks_accepted t % 2 : Nat) : Int)
      rw [s5, s9]; exact h.ack
    · intro _
      show t.nextframetosend = 1 - t.ackexpected ∧ messages_read t = acks_accepted t + 1
      rw [s5, s6, s9, s10, hi1, hi2]
      exact ⟨rfl, rfl⟩
    · left
      show n.B.frameexpected = t.ackexpected ∧ n.toA = [] ∧ ∃ l1 l2,
        n.toB ++ new_frames 1 n.A t = l1 ++ l2 ∧ (∀ w ∈ l1, is_DATA_wire E (1 - t.ackexpected) w)
          ∧ (∀ w ∈ l2, is_DATA_wire E t.ackexpected w) ∧ (t.timers = [] → l2 = [])
      rw [s5, s11]
      refine ⟨w1, w2, l1, [wire_image E (u 1) DL_DATA msg.length n.A.nextframetosend
        (poke n.A.lastmsg 0 msg)], by rw [w3]; simp, w4, ?_, fun hc => absurd hc hne⟩
      intro w hw
      simp only [List.mem_singleton] at hw
      subst hw
      exact ⟨u 1, msg.length, _, by rw [hi1], s3, length_le_poke_zero _ _⟩
  · exact absurd hidle w2

theorem net_inv_expiry_A (E : CNET) (niA niB : NODEINFO) (n : NET2) (t : NODE)
    (u : Nat → List Nat) (timer : Nat) (hA : niA.nodetype = CnetNodeType.NT_HOST)
    (h : net_inv E niA niB n)
    (ht : raise E niA n.A (EVENT.EV_TIMER1 u timer) = some t) :
    net_inv E niA niB (n.after END2.A t) := by
  have hI := node_inv_raise E niA n.A t _ h.invA ht
  have hnr : niA.nodetype ≠ CnetNodeType.NT_ROUTER := by rw [hA]; decide
  obtain ⟨s1, s2, s3, s4, _, _, s7, s8, s9, s10, s11⟩ :=
    summary_expiry E niA n.A t u timer h.invA hnr ht
  obtain ⟨hw1, hw2⟩ := h.waiting s1
  have hd : is_DATA_wire E n.A.ackexpected
      (wire_image E (u 1) DL_DATA n.A.lastlength n.A.ackexpected n.A.lastmsg) :=
    ⟨u 1, n.A.lastlength, n.A.lastmsg, rfl, s10, s11⟩
  refine ⟨hI, h.invB, ?_, fun hc => absurd hc s2, ?_, h.quietB, ?_⟩
  · show t.ackexpected = ((acks_accepted t % 2 : Nat) : Int)
    rw [s3, s7]; exact h.ack
  · intro _
    show t.nextframetosend = 1 - t.ackexpected ∧ messages_read t = acks_accepted t + 1
    rw [s3, s4, s7, s8]
    exact ⟨hw1, hw2⟩
  · show (n.B.frameexpected = t.ackexpected ∧ n.toA = [] ∧ ∃ l1 l2,
        n.toB ++ new_frames 1 n.A t = l1 ++ l2 ∧ (∀ w ∈ l1, is_DATA_wire E (1 - t.ackexpected) w)
          ∧ (∀ w ∈ l2, is_DATA_wire E t.ackexpected w) ∧ (t.timers = [] → l2 = []))
      ∨ (n.B.frameexpected = 1 - t.ackexpected ∧ t.timers ≠ []
        ∧ (∀ w ∈ n.toB ++ new_frames 1 n.A t, is_DATA_wire E t.ackexpected w)
        ∧ (n.toA = [] ∨ ∃ x, n.toA = [wire_image E x DL_ACK 0 t.ackexpected []]))
    rw [s3, s9]
    rcases h.window with ⟨w1, w2, l1, l2, w3, w4, w5, _⟩ | ⟨w1, _, w3, w4⟩
    · left
      refine ⟨w1, w2, l1, l2 ++ [_], by rw [w3, List.append_assoc], w4, ?_,
        fun hc => absurd hc s2⟩
      intro w hw
      rcases List.mem_append.mp hw with hw | hw
      · exact w5 w hw
      · simp only [List.mem_singleton] at hw
        subst hw; exact hd
    · right
      refine ⟨w1, s2, ?_, w4⟩
      intro w hw
      rcases List.mem_append.mp hw with hw | hw
      · exact w3 w hw
      · simp only [List.mem_singleton] at hw
        subst hw; exact hd
theorem parity_succ (k : Nat) : (((k + 1) % 2 : Nat) : Int) = 1 - ((k % 2 : Nat) : Int) := by
  omega

theorem net_inv_arrival_A (E : CNET) (niA niB : NODEINFO) (n : NET2) (t : NODE)
    (u : Nat → List Nat) (w : List Nat) (rest : List (List Nat))
    (hA : niA.nodetype = CnetNodeType.NT_HOST)
    (h : net_inv E niA niB n) (hw : n.toA = w :: rest)
    (ht : raise E niA n.A (EVENT.EV_PHYSICALREADY u w) = some t) :
    net_inv E niA niB ({ n with toA := rest }.after END2.A t) := by
  have hI := node_inv_raise E niA n.A t _ h.invA ht
  have hnr : niA.nodetype ≠ CnetNodeType.NT_ROUTER := by rw [hA]; decide
  rcases h.window with ⟨_, w2, _⟩ | ⟨w1, w2, w3, w4⟩
  · rw [w2] at hw; exact absurd hw (by simp)
  · rcases w4 with w4 | ⟨x, w4⟩
    · rw [w4] at hw; exact absurd hw (by simp)
    · rw [w4] at hw
      injection hw with hw1 hw2
      subst hw1 hw2
      obtain ⟨t', s1, s2, s3, s4, _, _, s7, s8, s9⟩ :=
        summary_ACK_accepted E niA n.A u x hnr h.invA.ackexpected_bit
      rw [s1] at ht
      injection ht with ht
      subst ht
      obtain ⟨hw1, hw2⟩ := h.waiting w2
      have hidle : t'.timers = [] := by
        rw [s2]; exact filter_lasttimer _ _ h.invA.one_timer
      refine ⟨hI, h.invB, ?_, ?_, fun hc => absurd hidle hc, h.quietB, ?_⟩
      · show t'.ackexpected = ((acks_accepted t' % 2 : Nat) : Int)
        rw [s3, s7, parity_succ, h.ack]
      · intro _
        show t'.nextframetosend = t'.ackexpected ∧ messages_read t' = acks_accepted t'
        rw [s3, s4, s7, s8]
        exact ⟨hw1, hw2⟩
      · left
        show n.B.frameexpected = t'.ackexpected ∧ [] = [] ∧ ∃ l1 l2,
          n.toB ++ new_frames 1 n.A t' = l1 ++ l2
            ∧ (∀ w ∈ l1, is_DATA_wire E (1 - t'.ackexpected) w)
            ∧ (∀ w ∈ l2, is_DATA_wire E t'.ackexpected w) ∧ (t'.timers = [] → l2 = [])
        rw [s3, s9]
        refine ⟨w1, rfl, n.toB, [], by simp, ?_, by simp, fun _ => rfl⟩
        intro w hw
        have e : 1 - (1 - n.A.ackexpected) = n.A.ackexpected := by ring
        rw [e]; exact w3 w hw

theorem net_inv_arrival_B (E : CNET) (niA niB : NODEINFO) (n : NET2) (t : NODE)
    (u : Nat → List Nat) (w : List Nat) (rest : List (List Nat))
    (hB : niB.nodetype = CnetNodeType.NT_HOST)
    (h : net_inv E niA niB n) (hw : n.toB = w :: rest)
    (ht : raise E niB n.B (EVENT.EV_PHYSICALREADY u w) = some t) :
    net_inv E niA niB ({ n with toB := rest }.after END2.B t) := by
  have hI := node_inv_raise E niB n.B t _ h.invB ht
  have hnr : niB.nodetype ≠ CnetNodeType.NT_ROUTER := by rw [hB]; decide
  have hq := h.invA.ackexpected_bit
  have hne : (1 : Int) - n.A.ackexpected ≠ n.A.ackexpected := by
    rcases hq with hq | hq <;> rw [hq] <;> decide
  rcases h.window with ⟨w1, w2, l1, l2, w3, w4, w5, w6⟩ | ⟨w1, w2, w3, w4⟩
  · rw [w3] at hw
    cases l1 with
    | nil =>
      rw [List.nil_append] at hw
      subst hw
      have hd := w5 w (List.mem_cons_self _ _)
      rw [← w1] at hd
      obtain ⟨t', x, s1, s2, _, _, s5, s6, _, _, s9⟩ :=
        summary_DATA_accepted E niB n.B u w hnr hd h.invB.frameexpected_bit
      rw [s1] at ht
      injection ht with ht
      subst ht
      have hrun : n.A.timers ≠ [] := fun hc => absurd (w6 hc) (by simp)
      refine ⟨h.invA, hI, h.ack, h.idle, h.waiting, ?_, ?_⟩
      · show t'.timers = [] ∧ t'.application_enabled = false
        rw [s2, s6]; exact h.quietB
      · right
        show t'.frameexpected = 1 - n.A.ackexpected ∧ n.A.timers ≠ []
          ∧ (∀ w ∈ rest, is_DATA_wire E n.A.ackexpected w)
          ∧ (n.toA ++ new_frames 1 n.B t' = []
            ∨ ∃ x, n.toA ++ new_frames 1 n.B t' = [wire_image E x DL_ACK 0 n.A.ackexpected []])
        rw [s5, s9, w1, w2]
        exact ⟨rfl, hrun, fun w hw => w5 w (List.mem_cons_of_mem _ hw), Or.inr ⟨x, rfl⟩⟩
    | cons a l1' =>
      rw [List.cons_append] at hw
      injection hw with hw1 hw2
      subst hw1 hw2
      have hd := w4 a (List.mem_cons_self _ _)
      rw [summary_DATA_ignored E niB n.B u a _ hnr hd (bit_flip _ hq) (by rw [w1]; exact hne)]
        at ht
      injection ht with ht
      subst ht
      refine ⟨h.invA, h.invB, h.ack, h.idle, h.waiting, h.quietB, ?_⟩
      left
      show n.B.frameexpected = n.A.ackexpected ∧ n.toA ++ new_frames 1 n.B n.B = [] ∧ ∃ m1 m2,
        l1' ++ l2 = m1 ++ m2 ∧ (∀ w ∈ m1, is_DATA_wire E (1 - n.A.ackexpected) w)
          ∧ (∀ w ∈ m2, is_DATA_wire E n.A.ackexpected w) ∧ (n.A.timers = [] → m2 = [])
      rw [new_frames_same, List.append_nil]
      exact ⟨w1, w2, l1', l2, rfl, fun w hw => w4 w (List.mem_cons_of_mem _ hw), w5, w6⟩
  · have hd := w3 w (by rw [hw]; exact List.mem_cons_self _ _)
    rw [summary_DATA_ignored E niB n.B u w _ hnr hd hq (by rw [w1]; exact hne.symm)] at ht
    injection ht with ht
    subst ht
    refine ⟨h.invA, h.invB, h.ack, h.idle, h.waiting, h.quietB, ?_⟩
    right
    show n.B.frameexpected = 1 - n.A.ackexpected ∧ n.A.timers ≠ []
      ∧ (∀ w ∈ rest, is_DATA_wire E n.A.ackexpected w)
      ∧ (n.toA ++ new_frames 1 n.B n.B = []
        ∨ ∃ x, n.toA ++ new_frames 1 n.B n.B = [wire_image E x DL_ACK 0 n.A.ackexpected []])
    rw [new_frames_same, List.append_nil]
    exact ⟨w1, w2, fun w hw' => w3 w (by rw [hw]; exact List.mem_cons_of_mem _ hw'), w4⟩
theorem net_inv_loss_A (E : CNET) (niA niB : NODEINFO) (n : NET2) (i : Nat)
    (h : net_inv E niA niB n) (hi : i < n.toA.length) :
    net_inv E niA niB { n with toA := n.toA.eraseIdx i } := by
  refine ⟨h.invA, h.invB, h.ack, h.idle, h.waiting, h.quietB, ?_⟩
  rcases h.window with ⟨_, w2, _⟩ | ⟨w1, w2, w3, w4⟩
  · rw [w2] at hi; exact absurd hi (by simp)
  · right
    refine ⟨w1, w2, w3, Or.inl ?_⟩
    rcases w4 with w4 | ⟨x, w4⟩
    · rw [w4] at hi; exact absurd hi (by simp)
    · show n.toA.eraseIdx i = []
      rw [w4] at hi ⊢
      have : i = 0 := by simpa using hi
      subst this
      rfl

theorem net_inv_loss_B (E : CNET) (niA niB : NODEINFO) (n : NET2) (i : Nat)
    (h : net_inv E niA niB n) :
    net_inv E niA niB { n with toB := n.toB.eraseIdx i } := by
  refine ⟨h.invA, h.invB, h.ack, h.idle, h.waiting, h.quietB, ?_⟩
  rcases h.window with ⟨w1, w2, l1, l2, w3, w4, w5, w6⟩ | ⟨w1, w2, w3, w4⟩
  · left
    refine ⟨w1, w2, ?_⟩
    show ∃ m1 m2, n.toB.eraseIdx i = m1 ++ m2
      ∧ (∀ w ∈ m1, is_DATA_wire E (1 - n.A.ackexpected) w)
      ∧ (∀ w ∈ m2, is_DATA_wire E n.A.ackexpected w) ∧ (n.A.timers = [] → m2 = [])
    rw [w3]
    by_cases hi : i < l1.length
    · exact ⟨l1.eraseIdx i, l2, List.eraseIdx_append_of_lt_length hi l2,
        fun w hw => w4 w (List.mem_of_mem_eraseIdx hw), w5, w6⟩
    · refine ⟨l1, l2.eraseIdx (i - l1.length),
        List.eraseIdx_append_of_length_le (by omega) l2, w4,
        fun w hw => w5 w (List.mem_of_mem_eraseIdx hw), ?_⟩
      intro hc
      rw [w6 hc]
      rfl
  · right
    exact ⟨w1, w2, fun w hw => w3 w (List.mem_of_mem_eraseIdx hw), w4⟩

theorem net_inv_step (E : CNET) (niA niB : NODEINFO) (n m : NET2) (e : EVENT2)
    (hA : niA.nodetype = CnetNodeType.NT_HOST) (hB : niB.nodetype = CnetNodeType.NT_HOST)
    (h : net_inv E niA niB n) (hm : step2 E niA niB n e = some m) : net_inv E niA niB m := by
  have hnrB : niB.nodetype ≠ CnetNodeType.NT_ROUTER := by rw [hB]; decide
  cases e with
  | application k u msg =>
    cases k with
    | A =>
      simp only [step2] at hm
      cases hr : raise E niA n.A (EVENT.EV_APPLICATIONREADY u msg) with
      | none => rw [hr] at hm; exact absurd hm (by simp)
      | some t =>
        rw [hr] at hm
        simp only [Option.map_some'] at hm
        injection hm with hm
        subst hm
        exact net_inv_application_A E niA niB n t u msg h hr
    | B =>
      simp only [step2] at hm
      cases hr : raise E niB n.B (EVENT.EV_APPLICATIONREADY u msg) with
      | none => rw [hr] at hm; exact absurd hm (by simp)
      | some t =>
        have hs := (summary_application E niB n.B t u msg hr).1
        rw [h.quietB.2] at hs
        exact absurd hs (by simp)
  | arrival k u =>
    cases k with
    | A =>
      simp only [step2] at hm
      cases hw : n.toA with
      | nil => rw [hw] at hm; exact absurd hm (by simp)
      | cons w rest =>
        rw [hw] at hm
        simp only at hm
        cases hr : raise E niA n.A (EVENT.EV_PHYSICALREADY u w) with
        | none => rw [hr] at hm; exact absurd hm (by simp)
        | some t =>
          rw [hr] at hm
          simp only [Option.map_some'] at hm
          injection hm with hm
          subst hm
          exact net_inv_arrival_A E niA niB n t u w rest hA h hw hr
    | B =>
      simp only [step2] at hm
      cases hw : n.toB with
      | nil => rw [hw] at hm; exact absurd hm (by simp)
      | cons w rest =>
        rw [hw] at hm
        simp only at hm
        cases hr : raise E niB n.B (EVENT.EV_PHYSICALREADY u w) with
        | none => rw [hr] at hm; exact absurd hm (by simp)
        | some t =>
          rw [hr] at hm
          simp only [Option.map_some'] at hm
          injection hm with hm
          subst hm
          exact net_inv_arrival_B E niA niB n t u w rest hB h hw hr
  | loss k i =>
    cases k with
    | A =>
      simp only [step2] at hm
      split_ifs at hm with hi
      injection hm with hm
      subst hm
      exact net_inv_loss_A E niA niB n i h hi
    | B =>
      simp only [step2] at hm
      split_ifs at hm with hi
      injection hm with hm
      subst hm
      exact net_inv_loss_B E niA niB n i h
  | expiry k u timer =>
    cases k with
    | A =>
      simp only [step2] at hm
      cases hr : raise E niA n.A (EVENT.EV_TIMER1 u timer) with
      | none => rw [hr] at hm; exact absurd hm (by simp)
      | some t =>
        rw [hr] at hm
        simp only [Option.map_some'] at hm
        injection hm with hm
        subst hm
        exact net_inv_expiry_A E niA niB n t u timer hA h hr
    | B =>
      simp only [step2] at hm
      cases hr : raise E niB n.B (EVENT.EV_TIMER1 u timer) with
      | none => rw [hr] at hm; exact absurd hm (by simp)
      | some t =>
        have hs := (summary_expiry E niB n.B t u timer h.invB hnrB hr).1
        exact absurd h.quietB.1 hs

theorem net_inv_run (E : CNET) (niA niB : NODEINFO) (es : List EVENT2) (n m : NET2)
    (hA : niA.nodetype = CnetNodeType.NT_HOST) (hB : niB.nodetype = CnetNodeType.NT_HOST)
    (h : net_inv E niA niB n) (hm : run2 E niA niB n es = some m) : net_inv E niA niB m := by
  induction es generalizing n with
  | nil =>
    simp only [run2] at hm
    injection hm with hm; subst hm; exact h
  | cons e es ih =>
    simp only [run2] at hm
    cases hs : step2 E niA niB n e with
    | none => rw [hs] at hm; exact absurd hm (by simp)
    | some k =>
      rw [hs] at hm
      exact ih k (net_inv_step E niA niB n k e hA hB h hs) hm

/-- C8. Sequence-bit parity between two hosts: in every state of the network
of originating host A and peer host B reached from boot by any sequence of
events (messages read by an enabled application layer, arrival of the oldest
frame in flight, loss of any frame in flight, expiry of a running timer; the
frames in flight are the frames written, in the order written), with `N` the
number of acknowledgements A has accepted: `ackexpected` of A is `N mod 2`;
A has no timer running exactly when every message it read has been
acknowledged (`N` messages read, none outstanding); and whenever that is so,
`nextframetosend` of A and `frameexpected` of B are `N mod 2` as well. -/
theorem sequence_bit_parity (E : CNET) (niA niB : NODEINFO) (es : List EVENT2) (n : NET2)
    (hA : niA.nodetype = CnetNodeType.NT_HOST) (hA0 : niA.nodenumber = 0)
    (hB : niB.nodetype = CnetNodeType.NT_HOST) (hB0 : niB.nodenumber ≠ 0)
    (hrun : run2 E niA niB (boot2 E niA niB) es = some n) :
    n.A.ackexpected = ((acks_accepted n.A % 2 : Nat) : Int)
      ∧ (n.A.timers = [] ↔ messages_read n.A = acks_accepted n.A)
      ∧ (messages_read n.A = acks_accepted n.A →
          n.A.nextframetosend = ((acks_accepted n.A % 2 : Nat) : Int)
          ∧ n.B.frameexpected = ((acks_accepted n.A % 2 : Nat) : Int)) := by
  have h := net_inv_run E niA niB es _ n hA hB (net_inv_boot E niA niB hA0 hB0) hrun
  have hiff : n.A.timers = [] ↔ messages_read n.A = acks_accepted n.A := by
    constructor
    · intro hc; exact (h.idle hc).2
    · intro hc
      by_contra hne
      have := (h.waiting hne).2
      omega
  refine ⟨h.ack, hiff, ?_⟩
  intro hc
  have hidle := hiff.mpr hc
  refine ⟨by rw [(h.idle hidle).1]; exact h.ack, ?_⟩
  rcases h.window with ⟨w1, _⟩ | ⟨_, w2, _⟩
  · rw [w1]; exact h.ack
  · exact absurd hidle w2

/-- C8, at a concrete input: the example after one complete exchange, where
one acknowledgement has been accepted. -/
theorem sequence_bit_parity_witness :
    example_exchanged.A.ackexpected = ((acks_accepted example_exchanged.A % 2 : Nat) : Int)
      ∧ (example_exchanged.A.timers = []
          ↔ messages_read example_exchanged.A = acks_accepted example_exchanged.A)
      ∧ (messages_read example_exchanged.A = acks_accepted example_exchanged.A →
          example_exchanged.A.nextframetosend
            = ((acks_accepted example_exchanged.A % 2 : Nat) : Int)
          ∧ example_exchanged.B.frameexpected
            = ((acks_accepted example_exchanged.A % 2 : Nat) : Int)) :=
  sequence_bit_parity example_CNET example_host_A example_host_B example_exchange
    example_exchanged rfl rfl rfl (by decide) (by decide)

/-! ## C12, C13: frames that are dropped -/

/-- C12. Checksum mismatch has no side effect: for every node (host or
router alike, the node type is not even looked at), every node state and
every received byte string whose `CNET_ccitt` value, computed with the
checksum field zeroed, differs from the stored checksum field,
`physical_ready` returns the state it was given: the three sequence
variables, `SW_buffer_full`, the retained payload and length, the timers and
the application intake are unchanged and no call is recorded, so no frame
(in particular no ACK) is written and nothing reaches the application. -/
theorem checksum_mismatch_no_effect (E : CNET) (ni : NODEINFO) (s : NODE) (u : Nat → List Nat)
    (wire : List Nat)
    (hsize : wire.length ≤ sizeof_FRAME E)
    (hbad : CNET_ccitt E (FRAME_set_checksum (received E (u 0) wire) 0) (cast_int wire.length)
      ≠ FRAME_checksum (received E (u 0) wire)) :
    physical_ready E ni s u wire = some s :=
  physical_ready_corrupt E ni s u wire hsize hbad

/-- C12 at a concrete input: the router of the example, waiting for an
acknowledgement, receives 24 bytes whose first byte is 1 and whose other
bytes, the checksum field among them, are 0. -/
theorem checksum_mismatch_no_effect_witness :
    physical_ready example_CNET example_router example_router_waiting example_junk
        (1 :: List.replicate 23 0) = some example_router_waiting :=
  checksum_mismatch_no_effect example_CNET example_router example_router_waiting example_junk
    (1 :: List.replicate 23 0) (by decide) (by decide)

/-- C13. Host sequence mismatch is a no-op: for every host state and every
checksum-valid frame that is either an ACK whose sequence number differs from
`ackexpected` or a DATA frame whose sequence number differs from
`frameexpected`, `physical_ready` returns the state it was given: the whole
host state is unchanged and no call is recorded, so no frame is written (no
ACK for the mismatched DATA), nothing is written to the application and the
application intake is as before. -/
theorem host_sequence_mismatch (E : CNET) (ni : NODEINFO) (s : NODE) (u : Nat → List Nat)
    (wire : List Nat)
    (hhost : ni.nodetype ≠ CnetNodeType.NT_ROUTER)
    (hsize : wire.length ≤ sizeof_FRAME E)
    (hsum : checksum_ok E (u 0) wire)
    (hmis : (FRAME_kind (received E (u 0) wire) = DL_ACK
          ∧ FRAME_seq (received E (u 0) wire) ≠ s.ackexpected)
        ∨ (FRAME_kind (received E (u 0) wire) = DL_DATA
          ∧ FRAME_seq (received E (u 0) wire) ≠ s.frameexpected)) :
    physical_ready E ni s u wire = some s := by
  rw [physical_ready_valid E ni s u wire hsize hsum]
  rcases hmis with ⟨hk, hs⟩ | ⟨hk, hs⟩
  · exact stop_and_wait_host_ACK_mismatch E ni s u _ hhost
      (by rw [validated_kind E (u 0) wire hsize]; exact hk)
      (by rw [validated_seq E (u 0) wire hsize]; exact hs)
  · exact stop_and_wait_host_DATA_mismatch E ni s u _ hhost
      (by rw [validated_kind E (u 0) wire hsize]; exact hk)
      (by rw [validated_seq E (u 0) wire hsize]; exact hs)

/-- C13 at a concrete input: host A of the example, waiting for the
acknowledgement 0, receives a DATA frame with sequence number 1 while it
expects 0. -/
theorem host_sequence_mismatch_witness :
    physical_ready example_CNET example_host_A example_host_waiting example_junk example_DATA1
      = some example_host_waiting :=
  host_sequence_mismatch example_CNET example_host_A example_host_waiting example_junk
    example_DATA1 (by decide) (by decide) (by decide) (Or.inr (by decide))

/-! ## C14, C16: frames that are accepted -/

theorem FRAME_seq_range (f : List Nat) : -2 ^ 31 ≤ FRAME_seq f ∧ FRAME_seq f < 2 ^ 31 := by
  unfold FRAME_seq int_value
  exact to_int32_range _

theorem ACK_wire_fields (E : CNET) (x : List Nat) (seqno : Int)
    (h1 : -2 ^ 31 ≤ seqno) (h2 : seqno < 2 ^ 31) :
    FRAME_kind (wire_image E x DL_ACK 0 seqno []) = DL_ACK
      ∧ FRAME_seq (wire_image E x DL_ACK 0 seqno []) = seqno
      ∧ FRAME_len (wire_image E x DL_ACK 0 seqno []) = 0
      ∧ (wire_image E x DL_ACK 0 seqno []).length = FRAME_HEADER_SIZE E :=
  ⟨wire_image_kind E x DL_ACK 0 seqno [] (by simp) (by omega) (by decide) (by decide),
    wire_image_seq E x DL_ACK 0 seqno [] (by simp) (by omega) h1 h2,
    wire_image_len E x DL_ACK 0 seqno [] (by simp) (by omega),
    wire_image_length E x DL_ACK 0 seqno [] (by simp) (by omega)⟩

/-- C14 as stated fails: host B of the example, just booted, receives a
checksum-valid DATA frame with the expected sequence number 0 whose `len`
field is 9 while `MAX_MESSAGE_SIZE` is 8.  `CNET_write_application(&f.msg,
&len)` is then asked for 9 bytes of the 8-byte `msg`: the handler does not
return, nothing is delivered and no ACK is written. -/
theorem host_accepts_DATA_counterexample :
    example_long_DATA.length ≤ sizeof_FRAME example_CNET
    ∧ checksum_ok example_CNET (example_junk 0) example_long_DATA
    ∧ FRAME_kind (received example_CNET (example_junk 0) example_long_DATA) = DL_DATA
    ∧ FRAME_seq (received example_CNET (example_junk 0) example_long_DATA)
        = (reboot_node example_CNET example_host_B).frameexpected
    ∧ FRAME_len (received example_CNET (example_junk 0) example_long_DATA) = 9
    ∧ physical_ready example_CNET example_host_B (reboot_node example_CNET example_host_B)
        example_junk example_long_DATA = none := by
  decide

/-- C14, amended. Host receiver on matching DATA: for every host state and
every checksum-valid DATA frame whose sequence number equals `frameexpected`
and whose declared length fits the `msg` field (`len ≤ MAX_MESSAGE_SIZE`),
`physical_ready` records exactly two calls: one `CNET_write_application` with
the first `len` payload bytes of the frame, then one `CNET_write_physical` on
link 1 of a frame `a` that is an ACK, carries the received sequence number,
declares payload length 0 and is `FRAME_HEADER_SIZE` bytes long.  It flips
`frameexpected` and changes nothing else: no timer is started, `ackexpected`,
`nextframetosend` and the retained payload are as before. -/
theorem host_accepts_DATA (E : CNET) (ni : NODEINFO) (s : NODE) (u : Nat → List Nat)
    (wire : List Nat)
    (hhost : ni.nodetype ≠ CnetNodeType.NT_ROUTER)
    (hsize : wire.length ≤ sizeof_FRAME E)
    (hsum : checksum_ok E (u 0) wire)
    (hdata : FRAME_kind (received E (u 0) wire) = DL_DATA)
    (hseq : FRAME_seq (received E (u 0) wire) = s.frameexpected)
    (hlen : FRAME_len (received E (u 0) wire) ≤ E.MAX_MESSAGE_SIZE) :
    ∃ a : List Nat,
      physical_ready E ni s u wire
        = some { s with
            frameexpected := 1 - s.frameexpected
            actions := s.actions
              ++ [ACTION.write_application
                    ((FRAME_msg E (received E (u 0) wire)).take (FRAME_len (received E (u 0) wire))),
                  ACTION.write_physical 1 a] }
      ∧ FRAME_kind a = DL_ACK
      ∧ FRAME_seq a = FRAME_seq (received E (u 0) wire)
      ∧ FRAME_len a = 0
      ∧ a.length = FRAME_HEADER_SIZE E := by
  have hq := FRAME_seq_range (received E (u 0) wire)
  refine ⟨wire_image E (u 1) DL_ACK 0 (FRAME_seq (received E (u 0) wire)) [], ?_,
    ACK_wire_fields E (u 1) _ hq.1 hq.2⟩
  rw [physical_ready_valid E ni s u wire hsize hsum,
    stop_and_wait_host_DATA E ni s u _ hhost
      (by rw [validated_kind E (u 0) wire hsize]; exact hdata)
      (by rw [validated_seq E (u 0) wire hsize]; exact hseq)
      (by rw [validated_len E (u 0) wire hsize]; exact hlen),
    validated_seq E (u 0) wire hsize, validated_len E (u 0) wire hsize,
    validated_msg E (u 0) wire hsize]
  simp [after_ACK]

/-- C14 amended, at a concrete input: host B of the example, just booted, receives
the DATA frame 0 with payload `[1, 2, 3]`. -/
theorem host_accepts_DATA_witness :
    ∃ a : List Nat,
      physical_ready example_CNET example_host_B (reboot_node example_CNET example_host_B)
          example_junk example_DATA0
        = some { reboot_node example_CNET example_host_B with
            frameexpected := 1 - (reboot_node example_CNET example_host_B).frameexpected
            actions := (reboot_node example_CNET example_host_B).actions
              ++ [ACTION.write_application
                    ((FRAME_msg example_CNET
                        (received example_CNET (example_junk 0) example_DATA0)).take
                      (FRAME_len (received example_CNET (example_junk 0) example_DATA0))),
                  ACTION.write_physical 1 a] }
      ∧ FRAME_kind a = DL_ACK
      ∧ FRAME_seq a = FRAME_seq (received example_CNET (example_junk 0) example_DATA0)
      ∧ FRAME_len a = 0
      ∧ a.length = FRAME_HEADER_SIZE example_CNET :=
  host_accepts_DATA example_CNET example_host_B _ example_junk example_DATA0
    (by decide) (by decide) (by decide) (by decide) (by decide) (by decide)

/-- C16. Router right window: for every router state and every
checksum-valid ACK frame, if the frame's sequence number equals `ackexpected`
then `physical_ready` flips `ackexpected`, sets `SW_buffer_full` to 0 and
calls `CNET_stop_timer(lasttimer)`, which is the only call it records:
`frameexpected` and everything else is unchanged and no frame is written;
otherwise `physical_ready` returns the state it was given, so a full buffer
stays full, the timer keeps running and nothing is written. -/
theorem router_right_window (E : CNET) (ni : NODEINFO) (s : NODE) (u : Nat → List Nat)
    (wire : List Nat)
    (hrouter : ni.nodetype = CnetNodeType.NT_ROUTER)
    (hsize : wire.length ≤ sizeof_FRAME E)
    (hsum : checksum_ok E (u 0) wire)
    (hack : FRAME_kind (received E (u 0) wire) = DL_ACK) :
    (FRAME_seq (received E (u 0) wire) = s.ackexpected →
      physical_ready E ni s u wire
        = some { s with
            ackexpected := 1 - s.ackexpected
            SW_buffer_full := 0
            timers := s.timers.filter (fun t => t ≠ s.lasttimer)
            actions := s.actions ++ [ACTION.stop_timer s.lasttimer] })
    ∧ (FRAME_seq (received E (u 0) wire) ≠ s.ackexpected →
      physical_ready E ni s u wire = some s) := by
  have hk : FRAME_kind (validated E (u 0) wire) ≠ DL_DATA := by
    rw [validated_kind E (u 0) wire hsize, hack]; decide
  rw [physical_ready_valid E ni s u wire hsize hsum]
  constructor
  · intro hs
    exact stop_and_wait_router_ACK E ni s u _ hrouter hk
      (by rw [validated_seq E (u 0) wire hsize]; exact hs.symm)
  · intro hs
    exact stop_and_wait_router_ACK_mismatch E ni s u _ hrouter hk
      (by rw [validated_seq E (u 0) wire hsize]; exact fun h => hs h.symm)

/-- C16 at a concrete input: the router of the example, waiting for the
acknowledgement 0 of the DATA frame it forwarded, receives the ACK frame 0. -/
theorem router_right_window_witness :
    physical_ready example_CNET example_router example_router_waiting example_junk example_ACK0
      = some { example_router_waiting with
          ackexpected := 1 - example_router_waiting.ackexpected
          SW_buffer_full := 0
          timers := example_router_waiting.timers.filter
            (fun t => t ≠ example_router_waiting.lasttimer)
          actions := example_router_waiting.actions
            ++ [ACTION.stop_timer example_router_waiting.lasttimer] } :=
  (router_right_window example_CNET example_router example_router_waiting example_junk
    example_ACK0 rfl (by decide) (by decide) (by decide)).1 (by decide)

/-! ## C15: the left window of the router -/

theorem validated_low_len (E : CNET) (x wire : List Nat) (h : wire.length ≤ sizeof_FRAME E) :
    peek (validated E x wire) 8 4 = peek (received E x wire) 8 4 :=
  validated_peek_before E x wire 8 4 h (by omega)

theorem router_accepts (E : CNET) (ni : NODEINFO) (s : NODE) (u : Nat → List Nat)
    (wire : List Nat)
    (hrouter : ni.nodetype = CnetNodeType.NT_ROUTER)
    (hsize : wire.length ≤ sizeof_FRAME E)
    (hsum : checksum_ok E (u 0) wire)
    (hdata : FRAME_kind (received E (u 0) wire) = DL_DATA)
    (hempty : s.SW_buffer_full = 0)
    (hseq : FRAME_seq (received E (u 0) wire) = s.frameexpected)
    (hlen : FRAME_len (received E (u 0) wire) ≤ E.MAX_MESSAGE_SIZE) :
    physical_ready E ni s u wire
      = some { s with
          frameexpected := 1 - s.frameexpected
          SW_buffer_full := 1
          lastmsg := poke s.lastmsg 0
            ((FRAME_msg E (received E (u 0) wire)).take (FRAME_len (received E (u 0) wire)))
          lastlength := FRAME_len (received E (u 0) wire) % 2 ^ 32
            + 2 ^ 32 * (s.lastlength % 2 ^ 64 / 2 ^ 32)
          lasttimer := s.timerids + 1
          timers := s.timers ++ [s.timerids + 1]
          timerids := s.timerids + 1
          actions := s.actions
            ++ [ACTION.write_physical 1
                  (wire_image E (u 1) DL_ACK 0 (FRAME_seq (received E (u 0) wire)) []),
                ACTION.start_timer (timer_usec E ni 2 (FRAME_len (received E (u 0) wire)))
                  (s.timerids + 1),
                ACTION.write_physical 2
                  (wire_image E (u 2) DL_DATA (FRAME_len (received E (u 0) wire))
                    (FRAME_seq (received E (u 0) wire)) (FRAME_msg E (received E (u 0) wire)))] } := by
  have h24 := sizeof_FRAME_ge E
  have hvl := validated_length E (u 0) wire hsize
  rw [physical_ready_valid E ni s u wire hsize hsum,
    stop_and_wait_router_accept E ni s u _ hrouter
      (by rw [validated_kind E (u 0) wire hsize]; exact hdata) hempty
      (by rw [validated_seq E (u 0) wire hsize]; exact hseq.symm)
      (by rw [validated_len E (u 0) wire hsize]; exact hlen) hvl,
    retained_length _ _ (by omega),
    validated_seq E (u 0) wire hsize, validated_len E (u 0) wire hsize,
    validated_msg E (u 0) wire hsize]
  simp [after_ACK, after_DATA]

theorem DATA_wire_fields (E : CNET) (x : List Nat) (length : Nat) (seqno : Int) (msg : List Nat)
    (hm : length ≤ msg.length) (hl : length ≤ E.MAX_MESSAGE_SIZE)
    (h1 : -2 ^ 31 ≤ seqno) (h2 : seqno < 2 ^ 31) :
    FRAME_kind (wire_image E x DL_DATA length seqno msg) = DL_DATA
      ∧ FRAME_seq (wire_image E x DL_DATA length seqno msg) = seqno
      ∧ FRAME_len (wire_image E x DL_DATA length seqno msg) = length
      ∧ peek (wire_image E x DL_DATA length seqno msg) 24 length = msg.take length
      ∧ (wire_image E x DL_DATA length seqno msg).length = FRAME_HEADER_SIZE E + length :=
  ⟨wire_image_kind E x DL_DATA length seqno msg hm hl (by decide) (by decide),
    wire_image_seq E x DL_DATA length seqno msg hm hl h1 h2,
    wire_image_len E x DL_DATA length seqno msg hm hl,
    wire_image_payload E x DL_DATA length seqno msg hm hl,
    wire_image_length E x DL_DATA length seqno msg hm hl⟩

theorem received_msg_length (E : CNET) (x wire : List Nat) (h : wire.length ≤ sizeof_FRAME E) :
    (FRAME_msg E (received E x wire)).length = E.MAX_MESSAGE_SIZE :=
  FRAME_msg_length E _ (received_length E x wire h)

/-- C15 as stated fails, in two ways.  The router of the example in a state
with empty buffer whose `lastlength` is `2 ^ 32` accepts the DATA frame 0
with payload `[1, 2, 3]`: afterwards `lastlength` is `2 ^ 32 + 3`, not the
length 3 of the payload.  And the router just booted receives a
checksum-valid DATA frame with the expected sequence number whose `len`
field is 9 while `MAX_MESSAGE_SIZE` is 8: `memcpy(&f.msg, msg, length)` in
`transmit_frame` is asked to copy past the frame, and no DATA frame is
forwarded. -/
theorem router_left_window_counterexample :
    (example_router_high.SW_buffer_full = 0
      ∧ checksum_ok example_CNET (example_junk 0) example_DATA0
      ∧ FRAME_kind (received example_CNET (example_junk 0) example_DATA0) = DL_DATA
      ∧ FRAME_seq (received example_CNET (example_junk 0) example_DATA0)
          = example_router_high.frameexpected
      ∧ FRAME_len (received example_CNET (example_junk 0) example_DATA0) = 3
      ∧ (physical_ready example_CNET example_router example_router_high example_junk
          example_DATA0).map (fun t => t.lastlength) = some (2 ^ 32 + 3))
    ∧ (checksum_ok example_CNET (example_junk 0) example_long_DATA
      ∧ FRAME_kind (received example_CNET (example_junk 0) example_long_DATA) = DL_DATA
      ∧ FRAME_seq (received example_CNET (example_junk 0) example_long_DATA)
          = (reboot_node example_CNET example_router).frameexpected
      ∧ physical_ready example_CNET example_router (reboot_node example_CNET example_router)
          example_junk example_long_DATA = none) := by
  decide

/-- C15, amended. Router left window: for every router state with
`SW_buffer_full == 0` and every checksum-valid DATA frame: when the frame's
sequence number equals `frameexpected`, its declared length is at most
`MAX_MESSAGE_SIZE` and `lastlength < 2 ^ 32`, `physical_ready` flips
`frameexpected`, sets `SW_buffer_full` to 1, copies the first `len` payload
bytes into `lastmsg`, sets `lastlength` to `len`, leaves `ackexpected`
unchanged and records exactly three calls, in this order: the write on link 1
of a frame `a` that is an ACK of payload length 0 with the received sequence
number, the start of one timer (which becomes `lasttimer`), and the write on
link 2 of a frame `d` that is a DATA frame with the received sequence number,
length and payload; nothing is written to the application.  When the sequence
number differs from `frameexpected`, `physical_ready` returns the state it
was given and records no call. -/
theorem router_left_window (E : CNET) (ni : NODEINFO) (s : NODE) (u : Nat → List Nat)
    (wire : List Nat)
    (hrouter : ni.nodetype = CnetNodeType.NT_ROUTER)
    (hsize : wire.length ≤ sizeof_FRAME E)
    (hsum : checksum_ok E (u 0) wire)
    (hdata : FRAME_kind (received E (u 0) wire) = DL_DATA)
    (hempty : s.SW_buffer_full = 0) :
    (FRAME_seq (received E (u 0) wire) = s.frameexpected →
      FRAME_len (received E (u 0) wire) ≤ E.MAX_MESSAGE_SIZE →
      s.lastlength < 2 ^ 32 →
      ∃ a d : List Nat,
        physical_ready E ni s u wire
          = some { s with
              frameexpected := 1 - s.frameexpected
              SW_buffer_full := 1
              lastmsg := poke s.lastmsg 0
                ((FRAME_msg E (received E (u 0) wire)).take (FRAME_len (received E (u 0) wire)))
              lastlength := FRAME_len (received E (u 0) wire)
              lasttimer := s.timerids + 1
              timers := s.timers ++ [s.timerids + 1]
              timerids := s.timerids + 1
              actions := s.actions
                ++ [ACTION.write_physical 1 a,
                    ACTION.start_timer (timer_usec E ni 2 (FRAME_len (received E (u 0) wire)))
                      (s.timerids + 1),
                    ACTION.write_physical 2 d] }
        ∧ (FRAME_kind a = DL_ACK ∧ FRAME_seq a = FRAME_seq (received E (u 0) wire)
          ∧ FRAME_len a = 0 ∧ a.length = FRAME_HEADER_SIZE E)
        ∧ (FRAME_kind d = DL_DATA ∧ FRAME_seq d = FRAME_seq (received E (u 0) wire)
          ∧ FRAME_len d = FRAME_len (received E (u 0) wire)
          ∧ peek d 24 (FRAME_len (received E (u 0) wire))
              = (FRAME_msg E (received E (u 0) wire)).take (FRAME_len (received E (u 0) wire))
          ∧ d.length = FRAME_HEADER_SIZE E + FRAME_len (received E (u 0) wire)))
    ∧ (FRAME_seq (received E (u 0) wire) ≠ s.frameexpected →
      physical_ready E ni s u wire = some s) := by
  constructor
  · intro hseq hlen hlast
    have hq := FRAME_seq_range (received E (u 0) wire)
    have hfit := E.MAX_fits
    have e : FRAME_len (received E (u 0) wire) % 2 ^ 32
        + 2 ^ 32 * (s.lastlength % 2 ^ 64 / 2 ^ 32) = FRAME_len (received E (u 0) wire) := by
      omega
    refine ⟨_, _, ?_, ACK_wire_fields E (u 1) _ hq.1 hq.2,
      DATA_wire_fields E (u 2) _ _ (FRAME_msg E (received E (u 0) wire))
        (by rw [received_msg_length E (u 0) wire hsize]; exact hlen) hlen hq.1 hq.2⟩
    rw [router_accepts E ni s u wire hrouter hsize hsum hdata hempty hseq hlen, e]
  · intro hseq
    rw [physical_ready_valid E ni s u wire hsize hsum]
    exact stop_and_wait_router_mismatch E ni s u _ hrouter
      (by rw [validated_kind E (u 0) wire hsize]; exact hdata) hempty
      (by rw [validated_seq E (u 0) wire hsize]; exact fun h => hseq h.symm)

/-- C15 amended, at a concrete input: the router of the example, just
booted, receives the DATA frame 0 with payload `[1, 2, 3]`. -/
theorem router_left_window_witness :
    ∃ a d : List Nat,
      physical_ready example_CNET example_router (reboot_node example_CNET example_router)
          example_junk example_DATA0
        = some { reboot_node example_CNET example_router with
            frameexpected := 1 - (reboot_node example_CNET example_router).frameexpected
            SW_buffer_full := 1
            lastmsg := poke (reboot_node example_CNET example_router).lastmsg 0
              ((FRAME_msg example_CNET
                  (received example_CNET (example_junk 0) example_DATA0)).take
                (FRAME_len (received example_CNET (example_junk 0) example_DATA0)))
            lastlength := FRAME_len (received example_CNET (example_junk 0) example_DATA0)
            lasttimer := (reboot_node example_CNET example_router).timerids + 1
            timers := (reboot_node example_CNET example_router).timers
              ++ [(reboot_node example_CNET example_router).timerids + 1]
            timerids := (reboot_node example_CNET example_router).timerids + 1
            actions := (reboot_node example_CNET example_router).actions
              ++ [ACTION.write_physical 1 a,
                  ACTION.start_timer (timer_usec example_CNET example_router 2
                      (FRAME_len (received example_CNET (example_junk 0) example_DATA0)))
                    ((reboot_node example_CNET example_router).timerids + 1),
                  ACTION.write_physical 2 d] }
      ∧ (FRAME_kind a = DL_ACK
        ∧ FRAME_seq a = FRAME_seq (received example_CNET (example_junk 0) example_DATA0)
        ∧ FRAME_len a = 0 ∧ a.length = FRAME_HEADER_SIZE example_CNET)
      ∧ (FRAME_kind d = DL_DATA
        ∧ FRAME_seq d = FRAME_seq (received example_CNET (example_junk 0) example_DATA0)
        ∧ FRAME_len d = FRAME_len (received example_CNET (example_junk 0) example_DATA0)
        ∧ peek d 24 (FRAME_len (received example_CNET (example_junk 0) example_DATA0))
            = (FRAME_msg example_CNET
                (received example_CNET (example_junk 0) example_DATA0)).take
              (FRAME_len (received example_CNET (example_junk 0) example_DATA0))
        ∧ d.length = FRAME_HEADER_SIZE example_CNET
            + FRAME_len (received example_CNET (example_junk 0) example_DATA0)) :=
  (router_left_window example_CNET example_router (reboot_node example_CNET example_router)
    example_junk example_DATA0 rfl (by decide) (by decide) (by decide) (by decide)).1
    (by decide) (by decide) (by decide)

/-! ## C20: the length the router retains -/

theorem timeouts_router_frame (E : CNET) (ni : NODEINFO) (t : NODE) (v : Nat → List Nat)
    (L : Nat) (hr : ni.nodetype = CnetNodeType.NT_ROUTER) (hL : t.lastlength = L)
    (hl : L ≤ E.MAX_MESSAGE_SIZE) (hm : L ≤ t.lastmsg.length) :
    ∃ r : NODE, timeouts E ni t v = some r
      ∧ frames_written r
          = frames_written t ++ [(2, wire_image E (v 1) DL_DATA L t.ackexpected t.lastmsg)] := by
  subst hL
  refine ⟨_, timeouts_eq E ni t v hl hm, ?_⟩
  simp [after_DATA, frames_written, List.filterMap_append, hr]

/-- C20. Router retained length: when the router accepts a DATA frame (empty
buffer, checksum valid, expected sequence number, declared length `len` at
most `MAX_MESSAGE_SIZE`, which is below `2 ^ 32`), the 4-byte copy
`memcpy(&lastlength, &f.len, sizeof((int)f.len))` replaces the low-order 4
bytes of the 8-byte `lastlength` only: the new value is
`(old - old mod 2 ^ 32) + (len mod 2 ^ 32)`.  Consequently, when
`lastlength < 2 ^ 32` beforehand, `lastlength` afterwards equals `len`, and a
timeout in the resulting state writes on link 2 one DATA frame that declares
the length `len`, is `FRAME_HEADER_SIZE + len` bytes long and carries exactly
the `len` payload bytes of the accepted frame. -/
theorem router_retained_length (E : CNET) (ni : NODEINFO) (s : NODE) (u : Nat → List Nat)
    (wire : List Nat)
    (hrouter : ni.nodetype = CnetNodeType.NT_ROUTER)
    (hsize : wire.length ≤ sizeof_FRAME E)
    (hsum : checksum_ok E (u 0) wire)
    (hdata : FRAME_kind (received E (u 0) wire) = DL_DATA)
    (hempty : s.SW_buffer_full = 0)
    (hseq : FRAME_seq (received E (u 0) wire) = s.frameexpected)
    (hlen : FRAME_len (received E (u 0) wire) ≤ E.MAX_MESSAGE_SIZE)
    (h64 : s.lastlength < 2 ^ 64) :
    ∃ t : NODE, physical_ready E ni s u wire = some t
      ∧ t.lastlength
          = (s.lastlength - s.lastlength % 2 ^ 32) + FRAME_len (received E (u 0) wire) % 2 ^ 32
      ∧ (s.lastlength < 2 ^ 32 →
          t.lastlength = FRAME_len (received E (u 0) wire)
          ∧ ∀ v : Nat → List Nat, ∃ (r : NODE) (d : List Nat),
              timeouts E ni t v = some r
              ∧ frames_written r = frames_written t ++ [(2, d)]
              ∧ FRAME_kind d = DL_DATA
              ∧ FRAME_len d = FRAME_len (received E (u 0) wire)
              ∧ d.length = FRAME_HEADER_SIZE E + FRAME_len (received E (u 0) wire)
              ∧ peek d 24 (FRAME_len (received E (u 0) wire))
                  = (FRAME_msg E (received E (u 0) wire)).take
                      (FRAME_len (received E (u 0) wire))) := by
  have hfit := E.MAX_fits
  have hml := received_msg_length E (u 0) wire hsize
  have hP : ((FRAME_msg E (received E (u 0) wire)).take
      (FRAME_len (received E (u 0) wire))).length = FRAME_len (received E (u 0) wire) := by
    rw [List.length_take, hml]; omega
  refine ⟨_, router_accepts E ni s u wire hrouter hsize hsum hdata hempty hseq hlen, ?_, ?_⟩
  · show FRAME_len (received E (u 0) wire) % 2 ^ 32 + 2 ^ 32 * (s.lastlength % 2 ^ 64 / 2 ^ 32)
      = (s.lastlength - s.lastlength % 2 ^ 32) + FRAME_len (received E (u 0) wire) % 2 ^ 32
    omega
  · intro h32
    have e : FRAME_len (received E (u 0) wire) % 2 ^ 32
        + 2 ^ 32 * (s.lastlength % 2 ^ 64 / 2 ^ 32) = FRAME_len (received E (u 0) wire) := by
      omega
    refine ⟨e, ?_⟩
    intro v
    have hm : FRAME_len (received E (u 0) wire)
        ≤ (poke s.lastmsg 0 ((FRAME_msg E (received E (u 0) wire)).take
            (FRAME_len (received E (u 0) wire)))).length := by
      have := length_le_poke_zero s.lastmsg ((FRAME_msg E (received E (u 0) wire)).take
        (FRAME_len (received E (u 0) wire)))
      omega
    obtain ⟨r, hr1, hr2⟩ := timeouts_router_frame E ni
      { s with
          frameexpected := 1 - s.frameexpected
          SW_buffer_full := 1
          lastmsg := poke s.lastmsg 0
            ((FRAME_msg E (received E (u 0) wire)).take (FRAME_len (received E (u 0) wire)))
          lastlength := FRAME_len (received E (u 0) wire) % 2 ^ 32
            + 2 ^ 32 * (s.lastlength % 2 ^ 64 / 2 ^ 32)
          lasttimer := s.timerids + 1
          timers := s.timers ++ [s.timerids + 1]
          timerids := s.timerids + 1
          actions := s.actions
            ++ [ACTION.write_physical 1
                  (wire_image E (u 1) DL_ACK 0 (FRAME_seq (received E (u 0) wire)) []),
                ACTION.start_timer (timer_usec E ni 2 (FRAME_len (received E (u 0) wire)))
                  (s.timerids + 1),
                ACTION.write_physical 2
                  (wire_image E (u 2) DL_DATA (FRAME_len (received E (u 0) wire))
                    (FRAME_seq (received E (u 0) wire)) (FRAME_msg E (received E (u 0) wire)))] }
      v (FRAME_len (received E (u 0) wire)) hrouter e hlen hm
    refine ⟨r, _, hr1, hr2,
      wire_image_kind E (v 1) DL_DATA _ _ _ hm hlen (by decide) (by decide),
      wire_image_len E (v 1) DL_DATA _ _ _ hm hlen,
      wire_image_length E (v 1) DL_DATA _ _ _ hm hlen, ?_⟩
    rw [wire_image_payload E (v 1) DL_DATA _ _ _ hm hlen]
    have h := take_poke_zero s.lastmsg ((FRAME_msg E (received E (u 0) wire)).take
      (FRAME_len (received E (u 0) wire)))
    rw [hP] at h
    exact h

/-- C20 at a concrete input: the router of the example, just booted (its
`lastlength` is 0), accepts the DATA frame 0 with payload `[1, 2, 3]`. -/
theorem router_retained_length_witness :
    ∃ t : NODE,
      physical_ready example_CNET example_router (reboot_node example_CNET example_router)
          example_junk example_DATA0 = some t
      ∧ t.lastlength
          = ((reboot_node example_CNET example_router).lastlength
              - (reboot_node example_CNET example_router).lastlength % 2 ^ 32)
            + FRAME_len (received example_CNET (example_junk 0) example_DATA0) % 2 ^ 32
      ∧ ((reboot_node example_CNET example_router).lastlength < 2 ^ 32 →
          t.lastlength = FRAME_len (received example_CNET (example_junk 0) example_DATA0)
          ∧ ∀ v : Nat → List Nat, ∃ (r : NODE) (d : List Nat),
              timeouts example_CNET example_router t v = some r
              ∧ frames_written r = frames_written t ++ [(2, d)]
              ∧ FRAME_kind d = DL_DATA
              ∧ FRAME_len d = FRAME_len (received example_CNET (example_junk 0) example_DATA0)
              ∧ d.length = FRAME_HEADER_SIZE example_CNET
                  + FRAME_len (received example_CNET (example_junk 0) example_DATA0)
              ∧ peek d 24 (FRAME_len (received example_CNET (example_junk 0) example_DATA0))
                  = (FRAME_msg example_CNET
                      (received example_CNET (example_junk 0) example_DATA0)).take
                    (FRAME_len (received example_CNET (example_junk 0) example_DATA0))) :=
  router_retained_length example_CNET example_router (reboot_node example_CNET example_router)
    example_junk example_DATA0 rfl (by decide) (by decide) (by decide) (by decide) (by decide)
    (by decide) (by decide)

/-! ## C17: the duration of the retransmission timer -/

theorem to_int64_wrap (a : Nat) (d : Int) (h1 : -2 ^ 63 ≤ (a : Int) + d)
    (h2 : (a : Int) + d < 2 ^ 63) :
    to_int64 ((a + cast_size d) % 2 ^ 64) = (a : Int) + d := by
  unfold to_int64 cast_size
  split_ifs with h <;> omega

theorem tdiv_bandwidth (b : Int) (hb : 0 < b) :
    Int.tdiv 8000000 b = 8000000 / b ∧ 0 ≤ (8000000 : Int) / b ∧ (8000000 : Int) / b ≤ 8000000 :=
  ⟨Int.tdiv_eq_ediv (by norm_num) hb.le, Int.ediv_nonneg (by norm_num) hb.le,
    Int.ediv_le_self b (by norm_num)⟩

theorem timer_usec_eq (E : CNET) (ni : NODEINFO) (link : Int) (length : Nat)
    (hfit : fits_CnetTime (timer_duration E ni link length)) :
    timer_usec E ni link length = timer_duration E ni link length := by
  obtain ⟨hq, hq0, hq1⟩ := tdiv_bandwidth (ni.bandwidth link) (ni.bandwidth_pos link)
  unfold fits_CnetTime timer_duration at hfit
  unfold timer_usec timer_duration
  rw [hq]
  generalize (8000000 : Int) / ni.bandwidth link = q at hq0 hq1 hfit ⊢
  obtain ⟨n, rfl⟩ := Int.eq_ofNat_of_zero_le hq0
  have hc : cast_size (n : Int) = n := by unfold cast_size; omega
  have hfit1 : -2 ^ 63 ≤ (((FRAME_HEADER_SIZE E + length) * n : Nat) : Int)
      + ni.propagationdelay link := by
    rw [Nat.cast_mul]; omega
  have hfit2 : (((FRAME_HEADER_SIZE E + length) * n : Nat) : Int)
      + ni.propagationdelay link < 2 ^ 63 := by
    rw [Nat.cast_mul]; omega
  rw [hc, to_int64_wrap _ _ hfit1 hfit2, Nat.cast_mul]

theorem transmit_frame_ACK_timer (E : CNET) (ni : NODEINFO) (s t : NODE) (u : List Nat)
    (msg : List Nat) (length : Nat) (seqno : Int) (link : Int)
    (h : transmit_frame E ni s u msg DL_ACK length seqno link = some t) :
    t.lasttimer = s.lasttimer ∧ t.timers = s.timers
      ∧ ∃ w : List Nat, t.actions = s.actions ++ [ACTION.write_physical link w] := by
  unfold transmit_frame at h
  simp only [if_true] at h
  split_ifs at h
  simp only [Option.some.injEq] at h
  subst h
  exact ⟨rfl, rfl, _, rfl⟩

/-- C17 as stated fails: on a link with bandwidth 56000 and the propagation
delay `2 ^ 63 - 1` the timeout of a DATA frame with 3 payload bytes is
computed as `27 * 142 + (2 ^ 63 - 1)` in unsigned 64-bit arithmetic and read
back as the `CnetTime` value `3833 - 2 ^ 63`: the timer is started with three
times this negative value, which is neither `3 * ((24 + 3) * 142 + D)` nor at
least `3 * D`. -/
theorem timer_sizing_counterexample :
    (transmit_frame example_CNET example_far_host (reboot_node example_CNET example_far_host)
        (example_junk 1) [1, 2, 3] DL_DATA 3 0 1).map (fun t => t.actions.head?)
      = some (some (ACTION.start_timer (3 * (3833 - 2 ^ 63)) 1))
    ∧ timer_duration example_CNET example_far_host 1 3 = 3 * (27 * 142 + (2 ^ 63 - 1))
    ∧ (3 * (3833 - 2 ^ 63) : Int) ≠ timer_duration example_CNET example_far_host 1 3
    ∧ ¬ (3 * example_far_host.propagationdelay 1 ≤ 3 * (3833 - 2 ^ 63)) := by
  decide

/-- C17, amended. Timer sizing: for every DATA frame of payload length `L`
that `transmit_frame` transmits on a link with bandwidth `B > 0` and
propagation delay `D` such that `3 * ((FRAME_HEADER_SIZE + L) * (8000000 / B)
+ D)` fits a `CnetTime` (lies between `-2 ^ 63` and `2 ^ 63 - 1`), the call
starts one timer with exactly this duration (`timer_duration`), makes it
`lasttimer` and then writes one frame on the link; this duration is at least
`3 * D`, and it is non-decreasing in `L`: a shorter payload whose duration
fits as well gets a duration that is not larger.  Transmitting an ACK frame
starts no timer and leaves `lasttimer` unchanged: every call of
`transmit_frame` with kind `DL_ACK` that returns has recorded the write of
one frame only, and the call for an ACK of length 0 always returns. -/
theorem timer_sizing (E : CNET) (ni : NODEINFO) (s : NODE) (u : List Nat) (msg : List Nat)
    (L : Nat) (seqno : Int) (link : Int)
    (hm : L ≤ msg.length) (hl : L ≤ E.MAX_MESSAGE_SIZE)
    (hfit : fits_CnetTime (timer_duration E ni link L)) :
    (∃ w : List Nat,
      transmit_frame E ni s u msg DL_DATA L seqno link
        = some { s with
            lasttimer := s.timerids + 1
            timers := s.timers ++ [s.timerids + 1]
            timerids := s.timerids + 1
            actions := s.actions
              ++ [ACTION.start_timer (timer_duration E ni link L) (s.timerids + 1),
                  ACTION.write_physical link w] })
    ∧ 3 * ni.propagationdelay link ≤ timer_duration E ni link L
    ∧ (∀ L' : Nat, L' ≤ L → fits_CnetTime (timer_duration E ni link L') →
        timer_usec E ni link L' ≤ timer_usec E ni link L)
    ∧ (∀ (v msg' : List Nat) (L' : Nat) (q link' : Int) (t : NODE),
        transmit_frame E ni s v msg' DL_ACK L' q link' = some t →
        t.lasttimer = s.lasttimer ∧ t.timers = s.timers
          ∧ ∃ w : List Nat, t.actions = s.actions ++ [ACTION.write_physical link' w])
    ∧ (∀ (v : List Nat) (q link' : Int), ∃ w : List Nat,
        transmit_frame E ni s v [] DL_ACK 0 q link'
          = some { s with actions := s.actions ++ [ACTION.write_physical link' w] }) := by
  obtain ⟨_, hq0, _⟩ := tdiv_bandwidth (ni.bandwidth link) (ni.bandwidth_pos link)
  refine ⟨⟨wire_image E u DL_DATA L seqno msg, ?_⟩, ?_, ?_, ?_, ?_⟩
  · rw [transmit_frame_DATA E ni s u msg L seqno link hm hl, after_DATA,
      timer_usec_eq E ni link L hfit]
  · unfold timer_duration
    have : 0 ≤ ((FRAME_HEADER_SIZE E + L : Nat) : Int) * (8000000 / ni.bandwidth link) :=
      Int.mul_nonneg (Int.ofNat_nonneg _) hq0
    omega
  · intro L' hL' hfit'
    rw [timer_usec_eq E ni link L hfit, timer_usec_eq E ni link L' hfit']
    unfold timer_duration
    have : ((FRAME_HEADER_SIZE E + L' : Nat) : Int) * (8000000 / ni.bandwidth link)
        ≤ ((FRAME_HEADER_SIZE E + L : Nat) : Int) * (8000000 / ni.bandwidth link) :=
      Int.mul_le_mul_of_nonneg_right (by omega) hq0
    omega
  · intro v msg' L' q link' t ht
    exact transmit_frame_ACK_timer E ni s t v msg' L' q link' ht
  · intro v q link'
    exact ⟨_, transmit_frame_ACK E ni s v q link'⟩

/-- C17 amended, at a concrete input: host A of the example, just booted,
transmits a DATA frame with the payload `[1, 2, 3]` on link 1 (bandwidth
56000, propagation delay 2500); the duration is `3 * (27 * 142 + 2500)`. -/
theorem timer_sizing_witness :
    timer_duration example_CNET example_host_A 1 3 = 19002
    ∧ ∃ w : List Nat,
      transmit_frame example_CNET example_host_A (reboot_node example_CNET example_host_A)
          (example_junk 1) [1, 2, 3] DL_DATA 3 0 1
        = some { reboot_node example_CNET example_host_A with
            lasttimer := (reboot_node example_CNET example_host_A).timerids + 1
            timers := (reboot_node example_CNET example_host_A).timers
              ++ [(reboot_node example_CNET example_host_A).timerids + 1]
            timerids := (reboot_node example_CNET example_host_A).timerids + 1
            actions := (reboot_node example_CNET example_host_A).actions
              ++ [ACTION.start_timer (timer_duration example_CNET example_host_A 1 3)
                    ((reboot_node example_CNET example_host_A).timerids + 1),
                  ACTION.write_physical 1 w] } :=
  ⟨by decide,
    (timer_sizing example_CNET example_host_A (reboot_node example_CNET example_host_A)
      (example_junk 1) [1, 2, 3] 3 0 1 (by decide) (by decide) (by decide)).1⟩

/-! ## C18: the bytes that are checksummed and written -/

theorem wire_image_set_zero (E : CNET) (u : List Nat) (kind : Int) (length : Nat) (seqno : Int)
    (msg : List Nat) (hm : length ≤ msg.length) (hl : length ≤ E.MAX_MESSAGE_SIZE) :
    FRAME_set_checksum (wire_image E u kind length seqno msg) 0
      = (frame_unsigned E u kind length seqno msg).take (FRAME_HEADER_SIZE E + length) := by
  have hb := FRAME_HEADER_SIZE_bounds E
  have hfl := frame_unsigned_length E u kind length seqno msg hl hm
  have hz := (frame_unsigned_fields E u kind length seqno msg hm).2.2.1
  unfold FRAME_set_checksum
  rw [wire_image_eq, poke_poke_same _ _ _ _ (by rw [List.length_take, hfl]; omega)
    (by rw [int_bytes_length, int_bytes_length]),
    ← take_poke _ _ _ _ (by rw [int_bytes_length]; omega), ← hz, poke_peek_self _ _ _ (by omega)]

theorem wire_image_checksum (E : CNET) (u : List Nat) (kind : Int) (length : Nat) (seqno : Int)
    (msg : List Nat) (hm : length ≤ msg.length) (hl : length ≤ E.MAX_MESSAGE_SIZE) :
    FRAME_checksum (wire_image E u kind length seqno msg)
      = CNET_ccitt E (frame_unsigned E u kind length seqno msg)
          (cast_int (FRAME_HEADER_SIZE E + length)) := by
  have hb := FRAME_HEADER_SIZE_bounds E
  have hfl := frame_unsigned_length E u kind length seqno msg hl hm
  unfold FRAME_checksum
  rw [wire_image_eq,
    peek_poke_same _ _ _ _ (by rw [List.length_take, hfl]; omega) (by rw [int_bytes_length]),
    int_value_int_bytes _ (CNET_ccitt_range _ _ _).1 (CNET_ccitt_range _ _ _).2]

/-- C18. Serialized size: for every call `transmit_frame(msg, kind, L, seqno,
link)` that sends a DATA frame, or an ACK frame with `L = 0` as the program
does: when the `L` payload bytes exist and fit the `msg` field (`L ≤
MAX_MESSAGE_SIZE`), the call writes one frame `w` whose number of bytes is
exactly `FRAME_HEADER_SIZE + L`, which is `sizeof(FRAME)` only when `L =
MAX_MESSAGE_SIZE`, and the checksum field of `w` holds `CNET_ccitt` run over
exactly these `FRAME_HEADER_SIZE + L` bytes with the checksum field equal to
0; in every other case the call hands no byte to `CNET_write_physical`: the
model has no result for it. -/
theorem serialized_size (E : CNET) (ni : NODEINFO) (s : NODE) (u : List Nat) (msg : List Nat)
    (kind : Int) (L : Nat) (seqno : Int) (link : Int)
    (hkind : kind = DL_DATA ∨ (kind = DL_ACK ∧ L = 0 ∧ msg = []))
    (h64 : L < 2 ^ 64) :
    (L ≤ E.MAX_MESSAGE_SIZE → L ≤ msg.length →
      ∃ (t : NODE) (w : List Nat),
        transmit_frame E ni s u msg kind L seqno link = some t
        ∧ frames_written t = frames_written s ++ [(link, w)]
        ∧ w.length = FRAME_HEADER_SIZE E + L
        ∧ (w.length = sizeof_FRAME E ↔ L = E.MAX_MESSAGE_SIZE)
        ∧ (FRAME_set_checksum w 0).length = FRAME_HEADER_SIZE E + L
        ∧ FRAME_checksum (FRAME_set_checksum w 0) = 0
        ∧ FRAME_checksum w
            = CNET_ccitt E (FRAME_set_checksum w 0) (cast_int (FRAME_HEADER_SIZE E + L)))
    ∧ (¬ (L ≤ E.MAX_MESSAGE_SIZE ∧ L ≤ msg.length) →
      transmit_frame E ni s u msg kind L seqno link = none) := by
  have hb := FRAME_HEADER_SIZE_bounds E
  have hfit := E.MAX_fits
  constructor
  · intro hl hm
    obtain ⟨t, ht1, ht2⟩ := transmit_frame_wire E ni s u msg kind L seqno link hkind hl hm
    have hwl := wire_image_length E u kind L seqno msg hm hl
    have hfl := frame_unsigned_length E u kind L seqno msg hl hm
    have hz := wire_image_set_zero E u kind L seqno msg hm hl
    refine ⟨t, wire_image E u kind L seqno msg, ht1, ht2, hwl, ?_, ?_, ?_, ?_⟩
    · rw [hwl]; omega
    · rw [hz, List.length_take, hfl]; omega
    · unfold FRAME_checksum FRAME_set_checksum
      rw [peek_poke_same _ _ _ _ (by omega) (by rw [int_bytes_length]),
        int_value_int_bytes 0 (by norm_num) (by norm_num)]
    · rw [wire_image_checksum E u kind L seqno msg hm hl, hz, cast_int_small _ (by omega)]
      exact CNET_ccitt_take E _ _ _ (by rw [List.take_take, Nat.min_self])
  · intro hbad
    rcases hkind with hk | ⟨_, h0, hnil⟩
    · subst hk
      exact transmit_frame_DATA_none E ni s u msg L seqno link h64 hbad
    · subst h0 hnil
      exact absurd ⟨Nat.zero_le _, Nat.zero_le _⟩ hbad

/-- C18 at a concrete input: host A of the example, just booted, transmits a
DATA frame with the payload `[1, 2, 3]`; the frame written is 27 bytes long. -/
theorem serialized_size_witness :
    ∃ (t : NODE) (w : List Nat),
      transmit_frame example_CNET example_host_A (reboot_node example_CNET example_host_A)
          (example_junk 1) [1, 2, 3] DL_DATA 3 0 1 = some t
      ∧ frames_written t
          = frames_written (reboot_node example_CNET example_host_A) ++ [(1, w)]
      ∧ w.length = FRAME_HEADER_SIZE example_CNET + 3
      ∧ (w.length = sizeof_FRAME example_CNET ↔ 3 = example_CNET.MAX_MESSAGE_SIZE)
      ∧ (FRAME_set_checksum w 0).length = FRAME_HEADER_SIZE example_CNET + 3
      ∧ FRAME_checksum (FRAME_set_checksum w 0) = 0
      ∧ FRAME_checksum w
          = CNET_ccitt example_CNET (FRAME_set_checksum w 0)
              (cast_int (FRAME_HEADER_SIZE example_CNET + 3)) :=
  (serialized_size example_CNET example_host_A (reboot_node example_CNET example_host_A)
    (example_junk 1) [1, 2, 3] DL_DATA 3 0 1 (Or.inl rfl) (by decide)).1 (by decide) (by decide)

/-! ## C19: the sequence numbers are bits -/

theorem frames_bits_extend (s t : NODE) (acts : List ACTION)
    (h : t.actions = s.actions ++ acts) (hold : frames_bits s)
    (hnew : ∀ (l : Int) (w : List Nat), ACTION.write_physical l w ∈ acts →
      FRAME_seq w = 0 ∨ FRAME_seq w = 1) : frames_bits t := by
  intro p hp
  unfold frames_written at hp
  rw [h, List.filterMap_append, List.mem_append] at hp
  rcases hp with hp | hp
  · exact hold p hp
  · rw [List.mem_filterMap] at hp
    obtain ⟨a, ha, hap⟩ := hp
    cases a with
    | write_physical l w =>
      simp only [Option.some.injEq] at hap
      subst hap
      exact hnew l w ha
    | write_application _ => simp at hap
    | start_timer _ _ => simp at hap
    | stop_timer _ => simp at hap
    | enable_application => simp at hap
    | disable_application => simp at hap

theorem frames_bits_same (s t : NODE) (acts : List ACTION)
    (h : t.actions = s.actions ++ acts) (hold : frames_bits s)
    (hnone : ∀ (l : Int) (w : List Nat), ACTION.write_physical l w ∉ acts) : frames_bits t :=
  frames_bits_extend s t acts h hold (fun l w hw => absurd hw (hnone l w))

theorem wire_image_seq_bit (E : CNET) (x : List Nat) (kind : Int) (length : Nat) (seqno : Int)
    (msg : List Nat) (hm : length ≤ msg.length) (hl : length ≤ E.MAX_MESSAGE_SIZE)
    (hq : seqno = 0 ∨ seqno = 1) :
    FRAME_seq (wire_image E x kind length seqno msg) = 0
      ∨ FRAME_seq (wire_image E x kind length seqno msg) = 1 := by
  rw [wire_image_seq E x kind length seqno msg hm hl (bit_range _ hq).1 (bit_range _ hq).2]
  exact hq

theorem frames_bits_after_DATA (E : CNET) (ni : NODEINFO) (s s' t : NODE) (x msg : List Nat)
    (length : Nat) (seqno : Int) (link : Int) (pre : List ACTION)
    (ht : t.actions = (after_DATA E ni s' x msg length seqno link).actions)
    (hs : s'.actions = s.actions ++ pre)
    (hpre : ∀ (l : Int) (w : List Nat), ACTION.write_physical l w ∈ pre →
      FRAME_seq w = 0 ∨ FRAME_seq w = 1)
    (hm : length ≤ msg.length) (hl : length ≤ E.MAX_MESSAGE_SIZE)
    (hq : seqno = 0 ∨ seqno = 1) (hold : frames_bits s) : frames_bits t := by
  refine frames_bits_extend s t (pre ++ [ACTION.start_timer (timer_usec E ni link length)
    (s'.timerids + 1), ACTION.write_physical link (wire_image E x DL_DATA length seqno msg)])
    (by rw [ht]; simp [after_DATA, hs]) hold ?_
  intro l w hw
  simp only [List.mem_append, List.mem_cons, List.mem_singleton, List.not_mem_nil, or_false,
    ACTION.write_physical.injEq] at hw
  rcases hw with hw | hw | ⟨_, rfl⟩
  · exact hpre l w hw
  · exact absurd hw (by simp)
  · exact wire_image_seq_bit E x DL_DATA length seqno msg hm hl hq

theorem frames_bits_stop_and_wait (E : CNET) (ni : NODEINFO) (s t : NODE) (u : Nat → List Nat)
    (f : List Nat) (h : node_inv E ni s) (hf : f.length = sizeof_FRAME E) (hold : frames_bits s)
    (ht : stop_and_wait E ni s u f = some t) : frames_bits t := by
  by_cases hr : ni.nodetype = CnetNodeType.NT_ROUTER
  · by_cases hk : FRAME_kind f = DL_DATA
    · by_cases hb : s.SW_buffer_full = 0
      · by_cases hs : s.frameexpected = FRAME_seq f
        · by_cases hl : FRAME_len f ≤ E.MAX_MESSAGE_SIZE
          · rw [stop_and_wait_router_accept E ni s u f hr hk hb hs hl hf] at ht
            injection ht with ht
            subst ht
            have hq : FRAME_seq f = 0 ∨ FRAME_seq f = 1 := by rw [← hs]; exact h.frameexpected_bit
            refine frames_bits_after_DATA E ni s
              (after_ACK E { s with frameexpected := 1 - s.frameexpected } (u 1) (FRAME_seq f) 1)
              _ (u 2) (FRAME_msg E f) (FRAME_len f) (FRAME_seq f) 2
              [ACTION.write_physical 1 (wire_image E (u 1) DL_ACK 0 (FRAME_seq f) [])]
              rfl rfl ?_ (by rw [FRAME_msg_length E f hf]; exact hl) hl hq hold
            intro l w hw
            simp only [List.mem_singleton, ACTION.write_physical.injEq] at hw
            obtain ⟨_, rfl⟩ := hw
            exact wire_image_seq_bit E (u 1) DL_ACK 0 (FRAME_seq f) [] (by simp) (by omega) hq
          · rw [stop_and_wait_router_long E ni s u f hr hk hb hs (by omega)] at ht
            exact absurd ht (by simp)
        · rw [stop_and_wait_router_mismatch E ni s u f hr hk hb hs] at ht
          injection ht with ht; subst ht; exact hold
      · rw [stop_and_wait_router_full E ni s u f hr hk hb] at ht
        injection ht with ht; subst ht; exact hold
    · by_cases hs : s.ackexpected = FRAME_seq f
      · rw [stop_and_wait_router_ACK E ni s u f hr hk hs] at ht
        injection ht with ht
        subst ht
        exact frames_bits_same s _ [ACTION.stop_timer s.lasttimer] rfl hold (by simp)
      · rw [stop_and_wait_router_ACK_mismatch E ni s u f hr hk hs] at ht
        injection ht with ht; subst ht; exact hold
  · by_cases hk : FRAME_kind f = DL_ACK
    · by_cases hs : FRAME_seq f = s.ackexpected
      · rw [stop_and_wait_host_ACK E ni s u f hr hk hs] at ht
        injection ht with ht
        subst ht
        exact frames_bits_same s _ [ACTION.stop_timer s.lasttimer, ACTION.enable_application]
          rfl hold (by simp)
      · rw [stop_and_wait_host_ACK_mismatch E ni s u f hr hk hs] at ht
        injection ht with ht; subst ht; exact hold
    · by_cases hk2 : FRAME_kind f = DL_DATA
      · by_cases hs : FRAME_seq f = s.frameexpected
        · by_cases hl : FRAME_len f ≤ E.MAX_MESSAGE_SIZE
          · rw [stop_and_wait_host_DATA E ni s u f hr hk2 hs hl] at ht
            injection ht with ht
            subst ht
            have hq : FRAME_seq f = 0 ∨ FRAME_seq f = 1 := by rw [hs]; exact h.frameexpected_bit
            refine frames_bits_extend s _
              [ACTION.write_application ((FRAME_msg E f).take (FRAME_len f)),
                ACTION.write_physical 1 (wire_image E (u 1) DL_ACK 0 (FRAME_seq f) [])]
              (by simp [after_ACK]) hold ?_
            intro l w hw
            simp only [List.mem_cons, List.mem_singleton, List.not_mem_nil, or_false,
              ACTION.write_physical.injEq] at hw
            rcases hw with hw | ⟨_, rfl⟩
            · exact absurd hw (by simp)
            · exact wire_image_seq_bit E (u 1) DL_ACK 0 (FRAME_seq f) [] (by simp) (by omega) hq
          · rw [stop_and_wait_host_DATA_long E ni s u f hr hk2 hs (by omega)] at ht
            exact absurd ht (by simp)
        · rw [stop_and_wait_host_DATA_mismatch E ni s u f hr hk2 hs] at ht
          injection ht with ht; subst ht; exact hold
      · rw [stop_and_wait_host_other E ni s u f hr hk hk2] at ht
        injection ht with ht; subst ht; exact hold

theorem frames_bits_raise (E : CNET) (ni : NODEINFO) (s t : NODE) (e : EVENT)
    (h : node_inv E ni s) (hold : frames_bits s) (ht : raise E ni s e = some t) :
    frames_bits t := by
  cases e with
  | EV_APPLICATIONREADY u msg =>
    simp only [raise] at ht
    split_ifs at ht with hc
    by_cases hl : msg.length ≤ E.MAX_MESSAGE_SIZE
    · rw [application_ready_eq E ni s u msg hl] at ht
      injection ht with ht
      subst ht
      exact frames_bits_after_DATA E ni s
        { s with
          lastmsg := poke s.lastmsg 0 msg
          lastlength := msg.length
          application_enabled := false
          actions := s.actions ++ [ACTION.disable_application] }
        _ (u 1) (poke s.lastmsg 0 msg) msg.length s.nextframetosend 1
        [ACTION.disable_application] rfl rfl (by simp) (length_le_poke_zero _ _) hl
        h.nextframetosend_bit hold
    · rw [application_ready_none E ni s u msg (by omega)] at ht
      exact absurd ht (by simp)
  | EV_PHYSICALREADY u wire =>
    simp only [raise] at ht
    by_cases hsz : wire.length ≤ sizeof_FRAME E
    · by_cases hc : checksum_ok E (u 0) wire
      · rw [physical_ready_valid E ni s u wire hsz hc] at ht
        exact frames_bits_stop_and_wait E ni s t u _ h (validated_length E (u 0) wire hsz) hold ht
      · rw [physical_ready_corrupt E ni s u wire hsz hc] at ht
        injection ht with ht; subst ht; exact hold
    · rw [physical_ready_long E ni s u wire (by omega)] at ht
      exact absurd ht (by simp)
  | EV_TIMER1 u timer =>
    simp only [raise] at ht
    split_ifs at ht with hc
    rw [timeouts_eq E ni { s with timers := s.timers.erase timer } u h.length_le
      (by show s.lastlength ≤ s.lastmsg.length; rw [h.msg_length]; exact h.length_le)] at ht
    injection ht with ht
    subst ht
    exact frames_bits_after_DATA E ni s { s with timers := s.timers.erase timer } _ (u 1)
      s.lastmsg s.lastlength s.ackexpected _ [] rfl (by simp) (by simp)
      (by rw [h.msg_length]; exact h.length_le) h.length_le h.ackexpected_bit hold

theorem frames_bits_run (E : CNET) (ni : NODEINFO) (es : List EVENT) (s t : NODE)
    (h : node_inv E ni s) (hold : frames_bits s) (ht : run E ni s es = some t) :
    frames_bits t := by
  induction es generalizing s with
  | nil =>
    simp only [run] at ht
    injection ht with ht; subst ht; exact hold
  | cons e es ih =>
    simp only [run] at ht
    cases hr : raise E ni s e with
    | none => rw [hr] at ht; exact absurd ht (by simp)
    | some m =>
      rw [hr] at ht
      exact ih m (node_inv_raise E ni s m e h hr) (frames_bits_raise E ni s m e h hold hr) ht

theorem frames_bits_reboot (E : CNET) (ni : NODEINFO) : frames_bits (reboot_node E ni) := by
  intro p hp
  unfold reboot_node at hp
  split_ifs at hp <;> simp [frames_written, CNET_enable_application] at hp

/-- C19. Sequence values stay bits: in every state of a node, host or router
(the node type is arbitrary), reached from `reboot_node` by any finite
sequence of triggers (application ready, timer expiry, and physical ready
with any byte string, so also with checksum-valid frames whose `seq` field is
an arbitrary integer), `ackexpected`, `nextframetosend` and `frameexpected`
are each 0 or 1, and every frame the node has written (DATA, ACK, forwarded
or retransmitted) carries the sequence number 0 or 1. -/
theorem sequence_values_are_bits (E : CNET) (ni : NODEINFO) (es : List EVENT) (s : NODE)
    (hrun : run E ni (reboot_node E ni) es = some s) :
    (s.ackexpected = 0 ∨ s.ackexpected = 1)
    ∧ (s.nextframetosend = 0 ∨ s.nextframetosend = 1)
    ∧ (s.frameexpected = 0 ∨ s.frameexpected = 1)
    ∧ ∀ (link : Int) (w : List Nat), (link, w) ∈ frames_written s →
        FRAME_seq w = 0 ∨ FRAME_seq w = 1 := by
  have h := node_inv_run E ni es _ s (node_inv_reboot E ni) hrun
  have hb := frames_bits_run E ni es _ s (node_inv_reboot E ni) (frames_bits_reboot E ni) hrun
  exact ⟨h.ackexpected_bit, h.nextframetosend_bit, h.frameexpected_bit,
    fun link w hw => hb (link, w) hw⟩

/-- C19 at a concrete input: the router of the example after a run in which
it also receives checksum-valid frames with the sequence numbers 7 and -3;
it has written four frames. -/
theorem sequence_values_are_bits_witness :
    (frames_written example_router_odd).length = 4
    ∧ FRAME_seq (received example_CNET (example_junk 0) example_DATA7) = 7
    ∧ checksum_ok example_CNET (example_junk 0) example_DATA7
    ∧ (example_router_odd.ackexpected = 0 ∨ example_router_odd.ackexpected = 1)
    ∧ (example_router_odd.nextframetosend = 0 ∨ example_router_odd.nextframetosend = 1)
    ∧ (example_router_odd.frameexpected = 0 ∨ example_router_odd.frameexpected = 1)
    ∧ ∀ (link : Int) (w : List Nat), (link, w) ∈ frames_written example_router_odd →
        FRAME_seq w = 0 ∨ FRAME_seq w = 1 :=
  ⟨by decide, by decide, by decide,
    sequence_values_are_bits example_CNET example_router example_odd_events example_router_odd
      (by decide)⟩

/-! ## C11: single-bit corruption of the header

`crc16_check` compares `crc16` with the published check values of
CRC-16/CCITT for the nine bytes `"123456789"`. -/

set_option maxRecDepth 100000 in
theorem crc16_check :
    crc16 0xFFFF [0x31, 0x32, 0x33, 0x34, 0x35, 0x36, 0x37, 0x38, 0x39] = 0x29B1
    ∧ crc16 0 [0x31, 0x32, 0x33, 0x34, 0x35, 0x36, 0x37, 0x38, 0x39] = 0x31C3 := by
  decide

theorem crc16_shift_lt (r : Nat) : crc16_shift r < 2 ^ 16 := by
  unfold crc16_shift
  split_ifs
  · exact Nat.xor_lt_two_pow (Nat.mod_lt _ (by norm_num)) (by norm_num)
  · exact Nat.mod_lt _ (by norm_num)

theorem xor_odd_of_even (a : Nat) (h : a % 2 = 0) : (a ^^^ 0x1021) % 2 = 1 := by
  have := @Nat.xor_mod_two_eq a 0x1021
  omega

theorem crc16_shift_inj (r r' : Nat) (h : r < 2 ^ 16) (h' : r' < 2 ^ 16)
    (e : crc16_shift r = crc16_shift r') : r = r' := by
  unfold crc16_shift at e
  rw [Nat.mod_eq_of_lt h, Nat.mod_eq_of_lt h'] at e
  split_ifs at e with h1 h2 h2
  · have := Nat.xor_left_injective e
    simp only at this
    omega
  · have := xor_odd_of_even (r * 2 % 2 ^ 16) (by omega)
    omega
  · have := xor_odd_of_even (r' * 2 % 2 ^ 16) (by omega)
    omega
  · omega

theorem crc16_seed_lt (r b : Nat) : r % 2 ^ 16 ^^^ b % 256 * 256 < 2 ^ 16 :=
  Nat.xor_lt_two_pow (Nat.mod_lt _ (by norm_num)) (by omega)

theorem crc16_byte_lt (r b : Nat) : crc16_byte r b < 2 ^ 16 := crc16_shift_lt _

theorem crc16_byte_seed (r r' b b' : Nat) (e : crc16_byte r b = crc16_byte r' b') :
    r % 2 ^ 16 ^^^ b % 256 * 256 = r' % 2 ^ 16 ^^^ b' % 256 * 256 := by
  unfold crc16_byte at e
  have e1 := crc16_shift_inj _ _ (crc16_shift_lt _) (crc16_shift_lt _) e
  have e2 := crc16_shift_inj _ _ (crc16_shift_lt _) (crc16_shift_lt _) e1
  have e3 := crc16_shift_inj _ _ (crc16_shift_lt _) (crc16_shift_lt _) e2
  have e4 := crc16_shift_inj _ _ (crc16_shift_lt _) (crc16_shift_lt _) e3
  have e5 := crc16_shift_inj _ _ (crc16_shift_lt _) (crc16_shift_lt _) e4
  have e6 := crc16_shift_inj _ _ (crc16_shift_lt _) (crc16_shift_lt _) e5
  have e7 := crc16_shift_inj _ _ (crc16_shift_lt _) (crc16_shift_lt _) e6
  exact crc16_shift_inj _ _ (crc16_seed_lt r b) (crc16_seed_lt r' b') e7

theorem crc16_byte_inj_register (r r' b : Nat) (h : r < 2 ^ 16) (h' : r' < 2 ^ 16)
    (e : crc16_byte r b = crc16_byte r' b) : r = r' := by
  have e1 := Nat.xor_left_injective (crc16_byte_seed r r' b b e)
  simp only at e1
  omega

theorem crc16_byte_inj_byte (r b b' : Nat) (e : crc16_byte r b = crc16_byte r b') :
    b % 256 = b' % 256 := by
  have e1 := Nat.xor_right_injective (crc16_byte_seed r r b b' e)
  simp only at e1
  omega

theorem crc16_foldl_lt (r : Nat) (bs : List Nat) (h : r < 2 ^ 16) :
    bs.foldl crc16_byte r < 2 ^ 16 := by
  induction bs generalizing r with
  | nil => exact h
  | cons b bs ih => exact ih _ (crc16_byte_lt r b)

theorem crc16_foldl_ne (r r' : Nat) (bs : List Nat) (h : r < 2 ^ 16) (h' : r' < 2 ^ 16)
    (hne : r ≠ r') : bs.foldl crc16_byte r ≠ bs.foldl crc16_byte r' := by
  induction bs generalizing r r' with
  | nil => exact hne
  | cons b bs ih =>
    exact ih _ _ (crc16_byte_lt r b) (crc16_byte_lt r' b)
      (fun e => hne (crc16_byte_inj_register r r' b h h' e))

theorem crc16_single_byte (init : Nat) (pre post : List Nat) (b b' : Nat)
    (hb : b % 256 ≠ b' % 256) :
    crc16 init (pre ++ b :: post) ≠ crc16 init (pre ++ b' :: post) := by
  unfold crc16
  rw [List.foldl_append, List.foldl_append, List.foldl_cons, List.foldl_cons]
  exact crc16_foldl_ne _ _ post (crc16_byte_lt _ b) (crc16_byte_lt _ b')
    (fun e => hb (crc16_byte_inj_byte _ b b' e))

theorem flip_mod_ne (b j : Nat) (hj : j < 8) : (b ^^^ 2 ^ j) % 256 ≠ b % 256 := by
  intro e
  have h1 : ((b ^^^ 2 ^ j) % 2 ^ 8).testBit j = (b % 2 ^ 8).testBit j := by
    rw [show (2:Nat) ^ 8 = 256 by norm_num, e]
  rw [Nat.testBit_mod_two_pow, Nat.testBit_mod_two_pow, Nat.testBit_xor,
    Nat.testBit_two_pow_self] at h1
  simp [hj] at h1
theorem getElem?_poke (mem : List Nat) (off : Nat) (bs : List Nat) (k : Nat)
    (h : off ≤ mem.length) :
    (poke mem off bs)[k]? =
      if k < off then mem[k]? else if k < off + bs.length then bs[k - off]? else mem[k]? := by
  unfold poke
  have hl : (mem.take off).length = off := by simp; omega
  split_ifs with h1 h2
  · rw [List.append_assoc, List.getElem?_append_left (by omega), List.getElem?_take_of_lt h1]
  · rw [List.getElem?_append_left (by simp; omega), List.getElem?_append_right (by omega), hl]
  · rw [List.getElem?_append_right (by simp; omega), List.getElem?_drop]
    congr 1
    simp
    omega

theorem poke_poke_comm (mem : List Nat) (a : Nat) (as : List Nat) (b : Nat) (bs : List Nat)
    (hd : a + as.length ≤ b ∨ b + bs.length ≤ a)
    (ha : a + as.length ≤ mem.length) (hb : b + bs.length ≤ mem.length) :
    poke (poke mem a as) b bs = poke (poke mem b bs) a as := by
  apply List.ext_getElem?
  intro k
  rw [getElem?_poke (poke mem a as) b bs k (by rw [length_poke _ _ _ ha]; omega),
    getElem?_poke (poke mem b bs) a as k (by rw [length_poke _ _ _ hb]; omega),
    getElem?_poke mem a as _ (by omega), getElem?_poke mem b bs _ (by omega)]
  split_ifs <;> first | rfl | omega

theorem poke_poke_cover (mem : List Nat) (a : Nat) (as : List Nat) (b : Nat) (bs : List Nat)
    (h1 : b ≤ a) (h2 : a + as.length ≤ b + bs.length)
    (hb : b + bs.length ≤ mem.length) :
    poke (poke mem a as) b bs = poke mem b bs := by
  apply List.ext_getElem?
  intro k
  rw [getElem?_poke (poke mem a as) b bs k (by rw [length_poke _ _ _ (by omega)]; omega),
    getElem?_poke mem b bs k (by omega), getElem?_poke mem a as k (by omega)]
  split_ifs <;> first | rfl | omega

theorem peek_one (w : List Nat) (i : Nat) (h : i < w.length) :
    ∃ b : Nat, peek w i 1 = [b] ∧ w = w.take i ++ b :: w.drop (i + 1) ∧ w[i]? = some b := by
  refine ⟨w[i], ?_, ?_, List.getElem?_eq_getElem h⟩
  · unfold peek
    rw [List.drop_eq_getElem_cons h]
    rfl
  · rw [← List.drop_eq_getElem_cons h, List.take_append_drop]

theorem poke_one (w : List Nat) (i b : Nat) :
    poke w i [b] = w.take i ++ b :: w.drop (i + 1) := by
  unfold poke
  simp

theorem le_value_inj (a b : List Nat) (hl : a.length = b.length)
    (h : le_value a = le_value b) : a.map (· % 256) = b.map (· % 256) := by
  induction a generalizing b with
  | nil =>
    cases b with
    | nil => rfl
    | cons y b => simp at hl
  | cons x a ih =>
    cases b with
    | nil => simp at hl
    | cons y b =>
      simp only [le_value] at h
      simp only [List.length_cons, Nat.add_right_cancel_iff] at hl
      have hx : x % 256 = y % 256 := by omega
      have ht : le_value a = le_value b := by omega
      simp only [List.map_cons, hx, ih b hl ht]

theorem le_value_flip_ne (w w' : List Nat) (o n k : Nat) (b b' : Nat)
    (hl : w'.length = w.length) (hn : o + n ≤ w.length) (hk : k < n)
    (hb : w[o + k]? = some b) (hb' : w'[o + k]? = some b') (hne : b' % 256 ≠ b % 256) :
    le_value (peek w' o n) ≠ le_value (peek w o n) := by
  intro e
  have h1 := le_value_inj (peek w' o n) (peek w o n) (by unfold peek; simp; omega) e
  have h2 : ((peek w' o n).map (· % 256))[k]? = ((peek w o n).map (· % 256))[k]? := by rw [h1]
  unfold peek at h2
  simp only [List.getElem?_map, List.getElem?_take_of_lt hk, List.getElem?_drop, hb, hb',
    Option.map_some', Option.some.injEq] at h2
  exact hne h2

theorem to_int32_inj (a b : Nat) (ha : a < 2 ^ 32) (hb : b < 2 ^ 32)
    (h : to_int32 a = to_int32 b) : a = b := by
  unfold to_int32 at h
  split_ifs at h <;> omega

theorem received_zeroed (E : CNET) (v w : List Nat) (h20 : 20 ≤ w.length) :
    (FRAME_set_checksum (received E v w) 0).take w.length = poke w 16 (int_bytes 0) := by
  unfold FRAME_set_checksum received
  rw [take_poke _ _ _ _ (by rw [int_bytes_length]; omega), take_poke_zero]

theorem received_checksum (E : CNET) (v w : List Nat) (h20 : 20 ≤ w.length) :
    FRAME_checksum (received E v w) = int_value (peek w 16 4) := by
  unfold FRAME_checksum received
  rw [peek_poke_zero _ _ _ _ (by omega)]

theorem CNET_ccitt_crc16 (E : CNET) (init : Nat) (hinit : init < 2 ^ 16)
    (hE : E.ccitt = fun bs => (crc16 init bs : Int)) (x : List Nat) (n : Nat) :
    CNET_ccitt E x (n : Int) = (crc16 init (x.take n) : Int) := by
  have hlt : crc16 init (x.take n) < 2 ^ 16 := crc16_foldl_lt init _ hinit
  unfold CNET_ccitt to_int32
  rw [hE]
  simp only [Int.toNat_ofNat]
  split_ifs with h <;> omega

theorem checksum_ok_crc16 (E : CNET) (init : Nat) (hinit : init < 2 ^ 16)
    (hE : E.ccitt = fun bs => (crc16 init bs : Int)) (v w : List Nat) (h20 : 20 ≤ w.length)
    (hsz : w.length ≤ sizeof_FRAME E) :
    checksum_ok E v w
      ↔ to_int32 (crc16 init (poke w 16 (int_bytes 0))) = int_value (peek w 16 4) := by
  have hb := sizeof_FRAME_bounds E
  have hfit := E.MAX_fits
  have hlt : crc16 init (poke w 16 (int_bytes 0)) < 2 ^ 16 := crc16_foldl_lt init _ hinit
  have e : to_int32 (crc16 init (poke w 16 (int_bytes 0)))
      = (crc16 init (poke w 16 (int_bytes 0)) : Int) := by
    unfold to_int32; split_ifs with h <;> omega
  unfold checksum_ok
  rw [cast_int_small _ (by omega), CNET_ccitt_crc16 E init hinit hE, received_zeroed E v w h20,
    received_checksum E v w h20, e]

theorem flipped_checksum (E : CNET) (init : Nat) (hinit : init < 2 ^ 16)
    (hE : E.ccitt = fun bs => (crc16 init bs : Int)) (v x : List Nat) (kind : Int) (L : Nat)
    (seqno : Int) (msg : List Nat) (hm : L ≤ msg.length) (hl : L ≤ E.MAX_MESSAGE_SIZE)
    (i j : Nat) (hi : i < FRAME_HEADER_SIZE E + L) (hj : j < 8) :
    ¬ checksum_ok E v (flip_bit (wire_image E x kind L seqno msg) i j) := by
  have hH := FRAME_HEADER_SIZE_bounds E
  have hwl := wire_image_length E x kind L seqno msg hm hl
  have hok := (checksum_ok_crc16 E init hinit hE v _ (by omega) (by omega)).mp
    (wire_image_checksum_ok E x v kind L seqno msg hm hl)
  generalize wire_image E x kind L seqno msg = w at hwl hok ⊢
  obtain ⟨b, hb1, _, hb3⟩ := peek_one w i (by omega)
  have hne := flip_mod_ne b j hj
  have hflip : flip_bit w i j = poke w i [b ^^^ 2 ^ j] := by
    unfold flip_bit; rw [hb1]; rfl
  have hlen : (poke w i [b ^^^ 2 ^ j]).length = w.length :=
    length_poke _ _ _ (by simp; omega)
  rw [hflip, checksum_ok_crc16 E init hinit hE v _ (by omega) (by omega)]
  have hz : (int_bytes 0).length = 4 := int_bytes_length 0
  by_cases hc : 16 ≤ i ∧ i < 20
  · rw [poke_poke_cover w i _ 16 _ hc.1 (by simp [hz]; omega) (by omega), hok]
    unfold int_value
    intro e
    have h4 : ∀ m : List Nat, le_value (peek m 16 4) < 2 ^ 32 := by
      intro m
      have h1 := le_value_lt (peek m 16 4)
      have h2 : (peek m 16 4).length ≤ 4 := by unfold peek; simp
      calc le_value (peek m 16 4) < 256 ^ (peek m 16 4).length := h1
        _ ≤ 256 ^ 4 := Nat.pow_le_pow_right (by decide) h2
        _ = 2 ^ 32 := by norm_num
    have e2 := to_int32_inj _ _ (h4 _) (h4 _) e
    refine le_value_flip_ne w (poke w i [b ^^^ 2 ^ j]) 16 4 (i - 16) b (b ^^^ 2 ^ j) hlen
      (by omega) (by omega) ?_ ?_ hne e2.symm
    · rw [show 16 + (i - 16) = i by omega]; exact hb3
    · rw [show 16 + (i - 16) = i by omega, getElem?_poke w i _ i (by omega)]
      simp
  · have hp : peek (poke w i [b ^^^ 2 ^ j]) 16 4 = peek w 16 4 := by
      by_cases h16 : i < 16
      · exact peek_poke_after w i _ 16 4 (by simp; omega) (by simp; omega)
      · exact peek_poke_before w i _ 16 4 (by omega) (by omega)
    have hq : peek (poke w 16 (int_bytes 0)) i 1 = [b] := by
      rw [← hb1]
      by_cases h16 : i < 16
      · exact peek_poke_before w 16 _ i 1 (by omega) (by omega)
      · exact peek_poke_after w 16 _ i 1 (by omega) (by omega)
    have hlen0 : (poke w 16 (int_bytes 0)).length = w.length :=
      length_poke _ _ _ (by omega)
    obtain ⟨b0, hc1, hc2, _⟩ := peek_one (poke w 16 (int_bytes 0)) i (by omega)
    rw [hq] at hc1
    simp only [List.cons.injEq, and_true] at hc1
    subst hc1
    rw [hp, ← hok, poke_poke_comm w i _ 16 _ (by simp; omega) (by simp; omega) (by omega)]
    intro e
    have e2 := to_int32_inj _ _
      (lt_trans (crc16_foldl_lt init _ hinit) (by norm_num))
      (lt_trans (crc16_foldl_lt init _ hinit) (by norm_num)) e
    have hcrc := crc16_single_byte init ((poke w 16 (int_bytes 0)).take i)
      ((poke w 16 (int_bytes 0)).drop (i + 1)) (b ^^^ 2 ^ j) b hne
    rw [← poke_one, ← hc2] at hcrc
    exact hcrc e2

/-- C11. Single-bit corruption of the header is always detected, with
`CNET_ccitt` taken as CRC-16/CCITT (`crc16`, started from any 16-bit value
`init`): for every frame written by `transmit_frame` (`wire_image`, any
kind, sequence number and payload), every byte position `i` of the frame, so
in particular every byte of the fields `kind` (0-3), `len` (8-15), `checksum`
(16-19) and `seq` (20-23), and every bit `j < 8` of that byte, the frame with
this one bit flipped fails the checksum comparison of `physical_ready`, and
the handler returns the state it was given with no call recorded, for every
node and every state.  When the bit lies in the checksum field the stored
checksum changes and the recomputed one does not; elsewhere the recomputed
CRC changes and the stored checksum does not. -/
theorem single_bit_corruption_detected (E : CNET) (init : Nat) (hinit : init < 2 ^ 16)
    (hE : E.ccitt = fun bs => (crc16 init bs : Int))
    (ni : NODEINFO) (s : NODE) (u : Nat → List Nat) (x : List Nat) (kind : Int) (L : Nat)
    (seqno : Int) (msg : List Nat) (hm : L ≤ msg.length) (hl : L ≤ E.MAX_MESSAGE_SIZE)
    (i j : Nat) (hi : i < FRAME_HEADER_SIZE E + L) (hj : j < 8) :
    ¬ checksum_ok E (u 0) (flip_bit (wire_image E x kind L seqno msg) i j)
    ∧ physical_ready E ni s u (flip_bit (wire_image E x kind L seqno msg) i j) = some s := by
  have hH := FRAME_HEADER_SIZE_bounds E
  have hbad := flipped_checksum E init hinit hE (u 0) x kind L seqno msg hm hl i j hi hj
  refine ⟨hbad, physical_ready_corrupt E ni s u _ ?_ hbad⟩
  unfold flip_bit
  rw [length_poke _ _ _ (by
    rw [List.length_map]; unfold peek; simp
    rw [wire_image_length E x kind L seqno msg hm hl]; omega),
    wire_image_length E x kind L seqno msg hm hl]
  omega

/-- C11 at a concrete input: with CRC-16/CCITT started from `0xFFFF`, host B
of the example receives the DATA frame 0 with payload `[1, 2, 3]` in which
the lowest bit of the `seq` field (bit 0 of byte 20) is flipped. -/
theorem single_bit_corruption_detected_witness :
    ¬ checksum_ok example_CCITT (example_junk 0)
        (flip_bit (wire_image example_CCITT (example_junk 1) DL_DATA 3 0 [1, 2, 3]) 20 0)
    ∧ physical_ready example_CCITT example_host_B (reboot_node example_CCITT example_host_B)
        example_junk
        (flip_bit (wire_image example_CCITT (example_junk 1) DL_DATA 3 0 [1, 2, 3]) 20 0)
      = some (reboot_node example_CCITT example_host_B) :=
  single_bit_corruption_detected example_CCITT 0xFFFF (by decide) rfl example_host_B
    (reboot_node example_CCITT example_host_B) example_junk (example_junk 1) DL_DATA 3 0
    [1, 2, 3] (by decide) (by decide) 20 0 (by decide) (by decide)

end SAW
